import Mathlib

/-!
# RMG-K core: Kaillera PIF synchronisation and the emulation session

A shallow embedding of `Source/RMG-Core/Emulation.cpp` (built with `NETPLAY`
defined).  File-level statics become fields of `World`; every call that leaves
the translation unit is appended to a ghost `trace`, and the values such calls
return are supplied by explicit collaborator records.  The controller
initialisation of `Source/RMG-Input-GCA/main.cpp` is embedded in a section of
its own.

Modelling conventions
* bytes and 32-bit words are natural numbers; the places where C narrows or
  wraps are written with explicit masks and `% 2 ^ 32`;
* a non-null pointer is `some`, a null pointer is `none`; a byte buffer reached
  through a pointer is a total function from offsets to bytes, and the buffers
  of one channel are taken to be disjoint from each other and from the buffers
  of the other channels;
* `pif.channels` has exactly `PIF_CHANNELS_COUNT` entries: an index outside the
  array makes the channel lookup return `none`, which the rewrite loop reports
  as `none` for the memory effect of that poll.
-/

namespace RMGK

/-! ## Joybus constants -/

/-- The `channels[6]` array bound of `struct pif`. -/
abbrev PIF_CHANNELS_COUNT : Nat := 6

/-- The bound `#define MAX_PLAYERS 8`. -/
abbrev MAX_PLAYERS : Nat := 8

abbrev JCMD_STATUS : Nat := 0x00
abbrev JCMD_CONTROLLER_READ : Nat := 0x01
abbrev JCMD_PAK_READ : Nat := 0x02
abbrev JCMD_PAK_WRITE : Nat := 0x03
abbrev JCMD_EEPROM_READ : Nat := 0x04
abbrev JCMD_EEPROM_WRITE : Nat := 0x05
abbrev JCMD_RESET : Nat := 0xff

/-! ## PIF data -/

/-- One `struct pif_channel`.  `tx` and `rx` hold the byte they point to,
`tx_buf` the bytes addressed from the transmit pointer, `rx_buf` the bytes
addressed from the receive pointer.  The unused `jbd`/`ijbd` members are
left out. -/
structure pif_channel where
  tx : Option Nat
  tx_buf : Nat → Nat
  rx : Option Nat
  rx_buf : Option (Nat → Nat)

/-- The `struct pif` as far as the callback reads it: the six channels. -/
structure pif where
  channels : Fin PIF_CHANNELS_COUNT → pif_channel

/-- Array access `pif->channels[i]` for a machine index `i`. -/
def pif.channel? (p : pif) (i : Nat) : Option pif_channel :=
  if h : i < PIF_CHANNELS_COUNT then some (p.channels ⟨i, h⟩) else none

/-- Store back channel `i` (no effect outside the array, where `channel?`
has already failed). -/
def pif.setChannel (p : pif) (i : Nat) (c : pif_channel) : pif :=
  if h : i < PIF_CHANNELS_COUNT then
    { channels := Function.update p.channels ⟨i, h⟩ c }
  else p

/-! ## Engine interface -/

/-- Commands of the engine used by this file (`m64p_command`). -/
inductive M64Cmd
  | M64CMD_CORE_STATE_QUERY
  | M64CMD_SET_FRAME_CALLBACK
  | M64CMD_PIF_OPEN
  | M64CMD_EXECUTE
  | M64CMD_STOP
  | M64CMD_PAUSE
  | M64CMD_RESUME
  | M64CMD_RESET
  deriving DecidableEq, Repr

/-- Result codes of the engine (`m64p_error`); only `M64ERR_SUCCESS` and
`M64ERR_SYSTEM_FAIL` are named by this file, `other` stands for the rest. -/
inductive m64p_error
  | M64ERR_SUCCESS
  | M64ERR_SYSTEM_FAIL
  | other (code : Nat)
  deriving DecidableEq, Repr

/-- Calls that leave the translation unit, in the order they are made. -/
inductive Event
  | CoreModifyKailleraPlayValues (values : List Nat) (size : Nat)
  | CoreMarkKailleraGameInactive
  | CoreOpenRom (rom : String)
  | CoreApplyRomPluginSettings
  | CoreArePluginsReady
  | CoreAttachPlugins
  | CoreApplyNetplayCheats
  | CoreApplyCheats
  | CoreGetRomType
  | CoreMediaLoaderSetDiskFile (disk : String)
  | CoreSetKailleraPlayerNumber (player : Int)
  | CoreInitNetplay (address : String) (port : Int) (player : Int)
  | CoreShutdownNetplay
  | CoreClearCheats
  | CoreDetachPlugins
  | CoreCloseRom
  | CoreApplyPluginSettings
  | CoreResetMediaLoader
  | CoreSetError (message : String)
  | DoCommand (cmd : M64Cmd) (param : Int)
  | set_pif_sync_callback
  deriving DecidableEq, Repr

/-! ## Settings store -/

/-- The settings keys this file touches. -/
inductive SettingsID
  | Core_RandomizeInterrupt
  | Core_CPU_Emulator
  | Core_DisableExtraMem
  | Core_EnableDebugger
  | Core_CountPerOp
  | Core_CountPerOpDenomPot
  | Core_SiDmaDuration
  | Core_SaveFileNameFormat
  | Core_GbCameraVideoCaptureBackend1
  | Core_RSP_Plugin
  | Core_PIF_Use
  | Core_PIF_NTSC
  | Core_PIF_PAL
  | CoreOverlay_RandomizeInterrupt
  | CoreOverlay_CPU_Emulator
  | CoreOverlay_DisableExtraMem
  | CoreOverlay_EnableDebugger
  | CoreOverlay_CountPerOp
  | CoreOverlay_CountPerOpDenomPot
  | CoreOverlay_SiDmaDuration
  | CoreOverLay_SaveFileNameFormat
  | CoreOverlay_GbCameraVideoCaptureBackend1
  | Game_OverrideCoreSettings
  | Game_RandomizeInterrupt
  | Game_CPU_Emulator
  | Game_CountPerOpDenomPot
  deriving DecidableEq, Repr

/-- The typed key/value store behind `CoreSettingsGet*Value` and
`CoreSettingsSetValue`; the second argument is the section (empty for the
default section). -/
structure Settings where
  boolValue : SettingsID → String → Bool
  intValue : SettingsID → String → Int
  stringValue : SettingsID → String → String

def CoreSettingsGetBoolValue (s : Settings) (id : SettingsID) (section_ : String) : Bool :=
  s.boolValue id section_

def CoreSettingsGetIntValue (s : Settings) (id : SettingsID) (section_ : String) : Int :=
  s.intValue id section_

def CoreSettingsGetStringValue (s : Settings) (id : SettingsID) (section_ : String) : String :=
  s.stringValue id section_

def CoreSettingsSetBool (s : Settings) (id : SettingsID) (v : Bool) : Settings :=
  { s with boolValue := fun k sec => if k = id ∧ sec = "" then v else s.boolValue k sec }

def CoreSettingsSetInt (s : Settings) (id : SettingsID) (v : Int) : Settings :=
  { s with intValue := fun k sec => if k = id ∧ sec = "" then v else s.intValue k sec }

def CoreSettingsSetString (s : Settings) (id : SettingsID) (v : String) : Settings :=
  { s with stringValue := fun k sec => if k = id ∧ sec = "" then v else s.stringValue k sec }

/-! ## Program state -/

/-- The statics of `Emulation.cpp`, the settings store, the last error
recorded through `CoreSetError`, and the ghost trace of outgoing calls. -/
structure World where
  s_CurrentFrame : Int
  s_LastSyncFrame : Int
  s_CachedSyncBuffer : Fin MAX_PLAYERS → Nat
  s_CachedNumReceived : Int
  s_SyncedThisFrame : Bool
  settings : Settings
  lastError : String
  trace : List Event

/-- Append an outgoing call to the trace. -/
def World.emit (w : World) (e : Event) : World :=
  { w with trace := w.trace ++ [e] }

/-- Conversion of an `unsigned int` to `int` (two's complement, 32 bits). -/
def toInt32 (n : Nat) : Int :=
  if n % 2 ^ 32 < 2 ^ 31 then ((n % 2 ^ 32 : Nat) : Int) else ((n % 2 ^ 32 : Nat) : Int) - 2 ^ 32

/-- `FrameCallback(frameIndex)`. -/
def FrameCallback (frameIndex : Nat) (w : World) : World :=
  { w with s_CurrentFrame := toInt32 frameIndex, s_SyncedThisFrame := false }

/-! ## The Kaillera PIF sync callback -/

/-- What the Kaillera module answers during one poll.
`CoreModifyKailleraPlayValues buf size` returns the C return value and the
contents of `buf` after the call. -/
structure KailleraEnv where
  CoreHasInitKaillera : Bool
  CoreGetKailleraPlayerNumber : Int
  CoreGetKailleraNumPlayers : Int
  CoreModifyKailleraPlayValues : (Fin MAX_PLAYERS → Nat) → Nat → Int × (Fin MAX_PLAYERS → Nat)

/-- The local `isControllerRead`: channel 0 has a transmit pointer, its
command byte is `JCMD_CONTROLLER_READ`, and it has a receive buffer. -/
def isControllerRead (p : pif) : Bool :=
  (p.channels 0).tx.isSome && (p.channels 0).tx_buf 0 == JCMD_CONTROLLER_READ &&
    (p.channels 0).rx_buf.isSome

/-- The expression `(rx[0] << 24) | (rx[1] << 16) | (rx[2] << 8) | rx[3]`
stored into a `uint32_t`: the shifts are done on promoted bytes, and the
stored value is the result modulo `2 ^ 32`. -/
def local_input (rx : Nat → Nat) : Nat :=
  ((rx 0 <<< 24) ||| (rx 1 <<< 16) ||| (rx 2 <<< 8) ||| rx 3) % 2 ^ 32

/-- The local `sync_buffer[MAX_PLAYERS] = {0}` with slot 0 set. -/
def sync_buffer (v : Nat) : Fin MAX_PLAYERS → Nat :=
  fun i => if i.val = 0 then v else 0

/-- Byte size `sizeof(uint32_t)`. -/
abbrev sizeof_uint32_t : Nat := 4

/-- The pointer `rx = pif->channels[0].rx_buf` as it is dereferenced on the
trigger path, where `isControllerRead` has already found it non-null. -/
def channel0_rx (p : pif) : Nat → Nat :=
  ((p.channels 0).rx_buf).getD (fun _ => 0)

/-- The call `CoreModifyKailleraPlayValues(sync_buffer, sizeof(uint32_t))` of
the trigger path: return value and buffer contents afterwards. -/
def exchange (env : KailleraEnv) (p : pif) : Int × (Fin MAX_PLAYERS → Nat) :=
  env.CoreModifyKailleraPlayValues (sync_buffer (local_input (channel0_rx p))) sizeof_uint32_t

/-- The trace entry of that call: the eight slots handed over and the size. -/
def exchangeEvent (p : pif) : Event :=
  Event.CoreModifyKailleraPlayValues (List.ofFn (sync_buffer (local_input (channel0_rx p))))
    sizeof_uint32_t

/-- Outcome of the synchronisation part of a poll: the new state, and whether
the callback returned early (before the rewrite loop). -/
structure SyncOutcome where
  world : World
  returned : Bool

/-- Lines 101-154: session and player checks, trigger detection, the call to
`CoreModifyKailleraPlayValues`, and the cache update.  On the success branch
`ret > 0`, so `ret / sizeof(uint32_t)` is the integer quotient by 4. -/
def syncPhase (env : KailleraEnv) (w : World) (p : pif) : SyncOutcome :=
  if !env.CoreHasInitKaillera then ⟨w, true⟩
  else if env.CoreGetKailleraPlayerNumber < 1 ∨
      env.CoreGetKailleraPlayerNumber > (MAX_PLAYERS : Int) then ⟨w, true⟩
  else if isControllerRead p && !w.s_SyncedThisFrame then
    if (exchange env p).1 ≤ 0 then
      ⟨{ w with s_SyncedThisFrame := true
                trace := w.trace ++ [exchangeEvent p, Event.CoreMarkKailleraGameInactive]
                s_CachedNumReceived := 0
                s_CachedSyncBuffer := fun _ => 0 }, true⟩
    else
      ⟨{ w with s_SyncedThisFrame := true
                trace := w.trace ++ [exchangeEvent p]
                s_CachedNumReceived := (exchange env p).1 / (sizeof_uint32_t : Int)
                s_CachedSyncBuffer := (exchange env p).2 }, false⟩
  else ⟨w, false⟩

/-- The body of the rewrite loop for one channel whose `tx` and `rx`
pointers are both present (lines 161-192); `v` is `s_CachedSyncBuffer[i]`. -/
def rewriteBody (v : Nat) (c : pif_channel) (status : Nat) : pif_channel :=
  let c1 := { c with rx := some (status &&& 0x3F) }
  let cmd := c.tx_buf 0
  if cmd = JCMD_STATUS ∨ cmd = JCMD_RESET then
    match c1.rx_buf with
    | some rx =>
      let type : Nat := 0x0500
      let rx := Function.update rx 0 ((type >>> 0) % 256)
      let rx := Function.update rx 1 ((type >>> 8) % 256)
      let rx := Function.update rx 2 0
      { c1 with rx_buf := some rx }
    | none => c1
  else if cmd = JCMD_CONTROLLER_READ then
    match c1.rx_buf with
    | some rx =>
      let rx := Function.update rx 0 ((v >>> 24) &&& 0xFF)
      let rx := Function.update rx 1 ((v >>> 16) &&& 0xFF)
      let rx := Function.update rx 2 ((v >>> 8) &&& 0xFF)
      let rx := Function.update rx 3 (v &&& 0xFF)
      { c1 with rx_buf := some rx }
    | none => c1
  else if cmd = JCMD_PAK_READ ∧ c1.rx_buf.isSome then
    match c1.rx_buf with
    | some rx => { c1 with rx_buf := some (Function.update rx 32 255) }
    | none => c1
  else if cmd = JCMD_PAK_WRITE ∧ c1.rx_buf.isSome then
    match c1.rx_buf with
    | some rx => { c1 with rx_buf := some (Function.update rx 0 255) }
    | none => c1
  else c1

/-- One iteration of the rewrite loop on an existing channel: the guard
`tx && rx != NULL`, then the body. -/
def rewriteChannel (v : Nat) (c : pif_channel) : pif_channel :=
  match c.tx, c.rx with
  | some _, some status => rewriteBody v c status
  | _, _ => c

/-- The loop `for (i = 0; i < s_CachedNumReceived && i < MAX_PLAYERS; i++)`,
started at index `i` with `k = MAX_PLAYERS - i` iterations left before the
second bound stops it. -/
def rewriteLoop (w : World) : Nat → Nat → pif → Option pif
  | 0, _, p => some p
  | k + 1, i, p =>
    if (i : Int) < w.s_CachedNumReceived then
      if h : i < MAX_PLAYERS then
        match p.channel? i with
        | some c =>
          rewriteLoop w k (i + 1)
            (p.setChannel i (rewriteChannel (w.s_CachedSyncBuffer ⟨i, h⟩) c))
        | none => none
      else some p
    else some p

/-- Lines 156-195: the rewrite pass over the cached values. -/
def rewritePass (w : World) (p : pif) : Option pif :=
  if w.s_CachedNumReceived > 0 then rewriteLoop w MAX_PLAYERS 0 p else some p

/-- Result of one poll: the state after it, and the PIF memory after it
(`none` when the loop indexed past `channels[5]`). -/
structure PollResult where
  world : World
  pif : Option pif

/-- `KailleraPifSyncCallback(pif)`. -/
def KailleraPifSyncCallback (env : KailleraEnv) (w : World) (p : pif) : PollResult :=
  let s := syncPhase env w p
  if s.returned then ⟨s.world, some p⟩ else ⟨s.world, rewritePass s.world p⟩

/-- A poll as the engine issues it: the Kaillera answers available during
the call and the PIF memory handed to the callback. -/
structure Poll where
  env : KailleraEnv
  pif : pif

/-- The state after a sequence of polls with no frame boundary in between. -/
def runPolls (w : World) : List Poll → World
  | [] => w
  | q :: qs => runPolls (KailleraPifSyncCallback q.env w q.pif).world qs

/-- Number of `CoreModifyKailleraPlayValues` calls in a trace. -/
def exchangeCalls (t : List Event) : Nat :=
  (t.filter (fun e => match e with
    | Event.CoreModifyKailleraPlayValues _ _ => true
    | _ => false)).length

/-- The session checks at the head of the callback pass: Kaillera is
initialised and the player number lies in `1..MAX_PLAYERS`. -/
def sessionValid (env : KailleraEnv) : Bool :=
  env.CoreHasInitKaillera && decide (1 ≤ env.CoreGetKailleraPlayerNumber) &&
    decide (env.CoreGetKailleraPlayerNumber ≤ (MAX_PLAYERS : Int))

/-- The `DoCommand` entries of a trace. -/
def engineCommands (t : List Event) : List Event :=
  t.filter (fun e => match e with
    | Event.DoCommand _ _ => true
    | _ => false)

/-! ## Session start -/

/-- The ROM kinds returned by `CoreGetRomType`. -/
inductive CoreRomType
  | Cartridge
  | Disk
  deriving DecidableEq, Repr

/-- The system type of a ROM header, used as an index into
`settingsIds[] = { Core_PIF_NTSC, Core_PIF_PAL }`. -/
inductive CoreSystemType
  | NTSC
  | PAL
  deriving DecidableEq, Repr

/-- A callback invocation made by the engine while `M64CMD_EXECUTE` runs. -/
inductive EngineCall
  | frame (frameIndex : Nat)
  | poll (q : Poll)

/-- What the collaborators of `CoreStartEmulation` answer during one call.
`sideError e` is the message a collaborator records through `CoreSetError`
while serving the call `e`, if it records one; `engineRun` is the sequence of
callbacks the engine makes before `M64CMD_EXECUTE` returns; `WIN32` is the
build configuration. -/
structure Collaborators where
  WIN32 : Bool
  CoreOpenRom : Bool
  CoreApplyRomPluginSettings : Bool
  CoreArePluginsReady : Bool
  CoreAttachPlugins : Bool
  CoreApplyNetplayCheats : Bool
  CoreApplyCheats : Bool
  CoreGetRomType : Option CoreRomType
  CoreGetCurrentDefaultRomSettings : Option String
  CoreGetCurrentRomHeader : Option CoreSystemType
  is_regular_file : String → Bool
  CoreReadFile : String → Option (List Nat)
  CoreHasInitKaillera : Bool
  CoreInitNetplay : Bool
  GetHandle : Bool
  has_set_pif_sync_callback : Bool
  DoCommand : M64Cmd → m64p_error
  ErrorMessage : m64p_error → String
  sideError : Event → Option String
  engineRun : List EngineCall

/-- A call to a collaborator of the core library: it is appended to the
trace, and the error the collaborator records while serving it, if any,
becomes the last error. -/
def World.call (c : Collaborators) (w : World) (e : Event) : World :=
  match c.sideError e with
  | some msg => { w with trace := w.trace ++ [e], lastError := msg }
  | none => { w with trace := w.trace ++ [e] }

/-- The call `CoreSetError(msg)` made by this file. -/
def CoreSetError (w : World) (msg : String) : World :=
  { w with trace := w.trace ++ [Event.CoreSetError msg], lastError := msg }

/-- `apply_coresettings_overlay()`. -/
def apply_coresettings_overlay (s : Settings) : Settings :=
  let s := CoreSettingsSetBool s .Core_RandomizeInterrupt
    (CoreSettingsGetBoolValue s .CoreOverlay_RandomizeInterrupt "")
  let s := CoreSettingsSetInt s .Core_CPU_Emulator
    (CoreSettingsGetIntValue s .CoreOverlay_CPU_Emulator "")
  let s := CoreSettingsSetBool s .Core_DisableExtraMem
    (CoreSettingsGetBoolValue s .CoreOverlay_DisableExtraMem "")
  let s := CoreSettingsSetBool s .Core_EnableDebugger
    (CoreSettingsGetBoolValue s .CoreOverlay_EnableDebugger "")
  let s := CoreSettingsSetInt s .Core_CountPerOp
    (CoreSettingsGetIntValue s .CoreOverlay_CountPerOp "")
  let s := CoreSettingsSetInt s .Core_CountPerOpDenomPot
    (CoreSettingsGetIntValue s .CoreOverlay_CountPerOpDenomPot "")
  let s := CoreSettingsSetInt s .Core_SiDmaDuration
    (CoreSettingsGetIntValue s .CoreOverlay_SiDmaDuration "")
  let s := CoreSettingsSetInt s .Core_SaveFileNameFormat
    (CoreSettingsGetIntValue s .CoreOverLay_SaveFileNameFormat "")
  CoreSettingsSetString s .Core_GbCameraVideoCaptureBackend1
    (CoreSettingsGetStringValue s .CoreOverlay_GbCameraVideoCaptureBackend1 "")

/-- `apply_game_coresettings_overlay()`; the section is the MD5 of the
current ROM's settings. -/
def apply_game_coresettings_overlay (c : Collaborators) (s : Settings) : Settings :=
  match c.CoreGetCurrentDefaultRomSettings with
  | none => s
  | some md5 =>
    if !CoreSettingsGetBoolValue s .Game_OverrideCoreSettings md5 then s
    else
      let s := CoreSettingsSetBool s .Core_RandomizeInterrupt
        (CoreSettingsGetBoolValue s .Game_RandomizeInterrupt md5)
      let s := CoreSettingsSetInt s .Core_CPU_Emulator
        (CoreSettingsGetIntValue s .Game_CPU_Emulator md5)
      CoreSettingsSetInt s .Core_CountPerOpDenomPot
        (CoreSettingsGetIntValue s .Game_CountPerOpDenomPot md5)

/-- `apply_kaillera_deterministic_settings()`. -/
def apply_kaillera_deterministic_settings (c : Collaborators) (s : Settings) : Settings :=
  let s := CoreSettingsSetBool s .Core_RandomizeInterrupt false
  let s := CoreSettingsSetInt s .Core_CPU_Emulator 0
  let s := CoreSettingsSetInt s .Core_CountPerOp 0
  let s := CoreSettingsSetInt s .Core_CountPerOpDenomPot 0
  let s := CoreSettingsSetInt s .Core_SiDmaDuration (-1)
  if c.WIN32 then CoreSettingsSetString s .Core_RSP_Plugin "mupen64plus-rsp-cxd4.dll"
  else CoreSettingsSetString s .Core_RSP_Plugin "mupen64plus-rsp-cxd4.so"

/-- The table `settingsIds[]` of `apply_pif_rom_settings`. -/
def settingsIds : CoreSystemType → SettingsID
  | .NTSC => .Core_PIF_NTSC
  | .PAL => .Core_PIF_PAL

/-- `apply_pif_rom_settings()`. -/
def apply_pif_rom_settings (c : Collaborators) (w : World) : World :=
  match c.CoreGetCurrentRomHeader with
  | none => w
  | some systemType =>
    if CoreSettingsGetIntValue w.settings .Core_CPU_Emulator "" ≥ 2 then w
    else if !CoreSettingsGetBoolValue w.settings .Core_PIF_Use "" then w
    else if !c.is_regular_file (CoreSettingsGetStringValue w.settings (settingsIds systemType) "")
    then w
    else
      match c.CoreReadFile (CoreSettingsGetStringValue w.settings (settingsIds systemType) "") with
      | none => w
      | some buffer =>
        let w1 := w.emit (Event.DoCommand .M64CMD_PIF_OPEN buffer.length)
        if c.DoCommand .M64CMD_PIF_OPEN ≠ .M64ERR_SUCCESS then
          CoreSetError w1 ("open_pif_rom m64p::Core.DoCommand(M64CMD_PIF_OPEN) Failed: " ++
            c.ErrorMessage (c.DoCommand .M64CMD_PIF_OPEN))
        else w1

/-- The arguments of `CoreStartEmulation`. -/
structure StartArgs where
  n64rom : String
  n64ddrom : String
  address : String
  port : Int
  player : Int

/-- The local `netplay = !address.empty()`. -/
def StartArgs.netplay (a : StartArgs) : Bool := a.address != ""

/-- The test `address == "KAILLERA"`. -/
def StartArgs.kaillera (a : StartArgs) : Bool := a.address == "KAILLERA"

/-- Lines 362-369: the forced deterministic settings, applied before the ROM
is opened when the address is the `"KAILLERA"` marker. -/
def startForce (c : Collaborators) (a : StartArgs) (w : World) : World :=
  if a.netplay && a.kaillera then
    { w with settings := apply_kaillera_deterministic_settings c w.settings }
  else w

/-- Outcome of lines 362-425: either the function has returned `false`
(after unwinding), or every acquisition succeeded and the ROM type is known. -/
inductive Acquired
  | failed (w : World)
  | ready (w : World) (type : CoreRomType)

/-- Lines 362-425 of `CoreStartEmulation`: the forced Kaillera settings, then
ROM open, plugin settings, plugin readiness, plugin attach, cheats and ROM type,
each with its early return. -/
def startAcquire (c : Collaborators) (a : StartArgs) (w : World) : Acquired :=
  let w1 := (startForce c a w).call c (Event.CoreOpenRom a.n64rom)
  if !c.CoreOpenRom then .failed w1
  else
    let w2 := w1.call c Event.CoreApplyRomPluginSettings
    if !c.CoreApplyRomPluginSettings then
      .failed ((w2.call c Event.CoreApplyPluginSettings).call c Event.CoreCloseRom)
    else
      let w3 := w2.call c Event.CoreArePluginsReady
      if !c.CoreArePluginsReady then
        .failed ((w3.call c Event.CoreApplyPluginSettings).call c Event.CoreCloseRom)
      else
        let w4 := w3.call c Event.CoreAttachPlugins
        if !c.CoreAttachPlugins then
          .failed ((w4.call c Event.CoreApplyPluginSettings).call c Event.CoreCloseRom)
        else
          let cheat := if a.netplay then Event.CoreApplyNetplayCheats else Event.CoreApplyCheats
          let cheatOk := if a.netplay then c.CoreApplyNetplayCheats else c.CoreApplyCheats
          let w5 := w4.call c cheat
          if !cheatOk then
            .failed (((w5.call c Event.CoreDetachPlugins).call c
              Event.CoreApplyPluginSettings).call c Event.CoreCloseRom)
          else
            let w6 := w5.call c Event.CoreGetRomType
            match c.CoreGetRomType with
            | none =>
              .failed ((((w6.call c Event.CoreClearCheats).call c Event.CoreDetachPlugins).call c
                Event.CoreApplyPluginSettings).call c Event.CoreCloseRom)
            | some type => .ready w6 type

/-- Lines 427-431: the disk file is handed to the media loader when the ROM
is a cartridge. -/
def startMedia (c : Collaborators) (a : StartArgs) (type : CoreRomType) (w : World) : World :=
  if type = CoreRomType.Cartridge then w.call c (Event.CoreMediaLoaderSetDiskFile a.n64ddrom)
  else w

/-- Lines 433-437: the global overlay, then the per-game overlay. -/
def startOverlays (c : Collaborators) (w : World) : World :=
  { w with settings := apply_game_coresettings_overlay c (apply_coresettings_overlay w.settings) }

/-- Lines 427-440: disk file for cartridges, the two settings overlays, the
PIF ROM. -/
def startConfigure (c : Collaborators) (a : StartArgs) (type : CoreRomType) (w : World) : World :=
  apply_pif_rom_settings c (startOverlays c (startMedia c a type w))

/-- State of the locals after the network step. -/
structure NetworkOutcome where
  world : World
  netplay_ret : Bool
  m64p_ret : Option m64p_error

/-- Lines 442-473: the network step.  `m64p_ret` is still unassigned
(`none`) unless the step failed. -/
def startNetwork (c : Collaborators) (a : StartArgs) (w : World) : NetworkOutcome :=
  if a.netplay then
    if a.kaillera then
      if !c.CoreHasInitKaillera then
        ⟨CoreSetError w "CoreStartEmulation: Kaillera not initialized",
          false, some .M64ERR_SYSTEM_FAIL⟩
      else
        ⟨w.call c (Event.CoreSetKailleraPlayerNumber a.player), true, none⟩
    else
      let w1 := w.call c (Event.CoreInitNetplay a.address a.port a.player)
      if !c.CoreInitNetplay then ⟨w1, false, some .M64ERR_SYSTEM_FAIL⟩
      else ⟨w1, true, none⟩
  else ⟨w, false, none⟩

/-- Lines 479-512: the frame counter and the sync cache are reset and the two
callbacks are handed to the engine. -/
def startArm (c : Collaborators) (w : World) : World :=
  let w1 := { w with s_CurrentFrame := 0 }
  let w2 := w1.emit (Event.DoCommand .M64CMD_SET_FRAME_CALLBACK 0)
  let w3 := { w2 with s_LastSyncFrame := -1, s_SyncedThisFrame := false,
                      s_CachedNumReceived := 0, s_CachedSyncBuffer := fun _ => 0 }
  if c.GetHandle then
    if c.has_set_pif_sync_callback then w3.emit Event.set_pif_sync_callback else w3
  else w3

/-- The callbacks the engine makes while the run call blocks. -/
def runEngine (w : World) : List EngineCall → World
  | [] => w
  | EngineCall.frame n :: rest => runEngine (FrameCallback n w) rest
  | EngineCall.poll q :: rest => runEngine (KailleraPifSyncCallback q.env w q.pif).world rest

/-- State of the locals after the run step. -/
structure RunOutcome where
  world : World
  m64p_ret : Option m64p_error
  error : String

/-- Lines 477-520: when there is no netplay or the network step succeeded,
arm the callbacks and issue the blocking `M64CMD_EXECUTE`. -/
def startRun (c : Collaborators) (a : StartArgs) (n : NetworkOutcome) : RunOutcome :=
  if !a.netplay || n.netplay_ret then
    let w1 := (startArm c n.world).emit (Event.DoCommand .M64CMD_EXECUTE 0)
    let w2 := runEngine w1 c.engineRun
    if c.DoCommand .M64CMD_EXECUTE ≠ .M64ERR_SUCCESS then
      ⟨w2, some (c.DoCommand .M64CMD_EXECUTE),
        "CoreStartEmulation m64p::Core.DoCommand(M64CMD_EXECUTE) Failed: " ++
          c.ErrorMessage (c.DoCommand .M64CMD_EXECUTE)⟩
    else ⟨w2, some (c.DoCommand .M64CMD_EXECUTE), ""⟩
  else ⟨n.world, n.m64p_ret, ""⟩

/-- Lines 522-546: netplay shutdown for the legacy path, then the teardown
calls. -/
def startTeardown (c : Collaborators) (a : StartArgs) (netplay_ret : Bool) (w : World) : World :=
  let w1 := if a.netplay && netplay_ret then
      (if a.kaillera then w else w.call c Event.CoreShutdownNetplay)
    else w
  let w2 := w1.call c Event.CoreClearCheats
  let w3 := w2.call c Event.CoreDetachPlugins
  let w4 := w3.call c Event.CoreCloseRom
  let w5 := w4.call c Event.CoreApplyPluginSettings
  w5.call c Event.CoreResetMediaLoader

/-- Result of `CoreStartEmulation`: the state it leaves and its return
value. -/
structure StartResult where
  world : World
  ret : Bool

/-- `CoreStartEmulation(n64rom, n64ddrom, address, port, player)`. -/
def CoreStartEmulation (c : Collaborators) (a : StartArgs) (w : World) : StartResult :=
  match startAcquire c a w with
  | .failed w1 => ⟨w1, false⟩
  | .ready w1 type =>
    let n := startNetwork c a (startConfigure c a type w1)
    let r := startRun c a n
    let w2 := startTeardown c a n.netplay_ret r.world
    let w3 := if !a.netplay || n.netplay_ret then CoreSetError w2 r.error else w2
    ⟨w3, r.m64p_ret == some .M64ERR_SUCCESS⟩

/-- The events a call of `CoreStartEmulation` appended to the trace of the
state `w` it started from. -/
def newEvents (w : World) (r : StartResult) : List Event :=
  r.world.trace.drop w.trace.length

/-- The teardown calls: releases of cheats, plugins, ROM, plugin settings and
media loader. -/
def isRelease : Event → Bool
  | Event.CoreClearCheats => true
  | Event.CoreDetachPlugins => true
  | Event.CoreCloseRom => true
  | Event.CoreApplyPluginSettings => true
  | Event.CoreResetMediaLoader => true
  | _ => false

/-- The blocking run command `DoCommand(M64CMD_EXECUTE, ..)`. -/
def isExecute : Event → Bool
  | Event.DoCommand M64Cmd.M64CMD_EXECUTE _ => true
  | _ => false

/-- The release calls of a trace, in order. -/
def releases (t : List Event) : List Event := t.filter isRelease

/-- Number of run commands in a trace. -/
def executeCalls (t : List Event) : Nat := t.countP isExecute

/-- The cheat call of the start sequence: the netplay one when an address
is given, the local one otherwise. -/
def cheatEvent (a : StartArgs) : Event :=
  if a.netplay then Event.CoreApplyNetplayCheats else Event.CoreApplyCheats

/-- Whether that cheat call succeeds. -/
def cheatsApplied (c : Collaborators) (a : StartArgs) : Bool :=
  if a.netplay then c.CoreApplyNetplayCheats else c.CoreApplyCheats

/-- Whether the network step succeeds when an address is given: Kaillera
must already be initialised for the `"KAILLERA"` marker, `CoreInitNetplay`
must succeed otherwise. -/
def networkStep (c : Collaborators) (a : StartArgs) : Bool :=
  if a.kaillera then c.CoreHasInitKaillera else c.CoreInitNetplay

/-- The six acquisition calls, in source order. -/
def acquisitionEvents (a : StartArgs) : List Event :=
  [Event.CoreOpenRom a.n64rom, Event.CoreApplyRomPluginSettings, Event.CoreArePluginsReady,
    Event.CoreAttachPlugins, cheatEvent a, Event.CoreGetRomType]

/-- The unconditional teardown calls, in source order. -/
def teardownEvents : List Event :=
  [Event.CoreClearCheats, Event.CoreDetachPlugins, Event.CoreCloseRom,
    Event.CoreApplyPluginSettings, Event.CoreResetMediaLoader]

/-- Every acquisition of lines 371-425 succeeds. -/
def acquisitionsSucceed (c : Collaborators) (a : StartArgs) : Bool :=
  c.CoreOpenRom && c.CoreApplyRomPluginSettings && c.CoreArePluginsReady &&
    c.CoreAttachPlugins && cheatsApplied c a && c.CoreGetRomType.isSome

/-- The release that undoes an acquisition call of the start sequence. -/
def releaseOf : Event → Option Event
  | Event.CoreOpenRom _ => some Event.CoreCloseRom
  | Event.CoreApplyRomPluginSettings => some Event.CoreApplyPluginSettings
  | Event.CoreAttachPlugins => some Event.CoreDetachPlugins
  | Event.CoreApplyNetplayCheats => some Event.CoreClearCheats
  | Event.CoreApplyCheats => some Event.CoreClearCheats
  | Event.CoreMediaLoaderSetDiskFile _ => some Event.CoreResetMediaLoader
  | _ => none

/-- Unwind symmetry in the words of the specification: the releases of the
acquisitions found in `t`, in reverse order of acquisition. -/
def reverseUnwind (t : List Event) : List Event :=
  (t.filterMap releaseOf).reverse

/-- Effect of the loop body on the bytes of a present receive buffer, by
command byte. -/
def rewriteBuf (v cmd : Nat) (rx : Nat → Nat) : Nat → Nat :=
  if cmd = JCMD_STATUS ∨ cmd = JCMD_RESET then
    Function.update (Function.update (Function.update rx 0 ((0x0500 >>> 0) % 256))
      1 ((0x0500 >>> 8) % 256)) 2 0
  else if cmd = JCMD_CONTROLLER_READ then
    Function.update (Function.update (Function.update (Function.update rx
      0 ((v >>> 24) &&& 0xFF)) 1 ((v >>> 16) &&& 0xFF)) 2 ((v >>> 8) &&& 0xFF)) 3 (v &&& 0xFF)
  else if cmd = JCMD_PAK_READ then Function.update rx 32 255
  else if cmd = JCMD_PAK_WRITE then Function.update rx 0 255
  else rx

/-- Closed form of the rewrite pass when the loop stays inside the channel
array: channel `j` is rewritten with cached value `j` exactly when
`j < s_CachedNumReceived`. -/
def rewritten (w : World) (p : pif) : pif :=
  { channels := fun j =>
      if (j.val : Int) < w.s_CachedNumReceived then
        rewriteChannel (w.s_CachedSyncBuffer (Fin.castLE (by decide) j)) (p.channels j)
      else p.channels j }

/-- The first four receive bytes of channel `i` after a poll (`none` when the
poll produced no PIF memory or the channel has no receive buffer). -/
def rxWord (r : PollResult) (i : Fin PIF_CHANNELS_COUNT) : Option (List Nat) :=
  r.pif.bind (fun q => ((q.channels i).rx_buf).map (fun b => [b 0, b 1, b 2, b 3]))

/-- The bytes `[v >> 24, v >> 16, v >> 8, v]`, each masked with `0xFF`. -/
def bigEndianBytes (v : Nat) : List Nat :=
  [(v >>> 24) &&& 0xFF, (v >>> 16) &&& 0xFF, (v >>> 8) &&& 0xFF, v &&& 0xFF]

/-- The controller-read rewrite as a property of one poll with input memory
`p` and result `r`: every channel `i` below the cached count whose command is
`JCMD_CONTROLLER_READ` and whose pointers are present holds, after the poll,
the big-endian bytes of cached value `i` in its receive buffer. -/
def ControllerReadRewritten (r : PollResult) (p : pif) : Prop :=
  ∀ i : Fin PIF_CHANNELS_COUNT, (i.val : Int) < r.world.s_CachedNumReceived →
    (p.channels i).tx.isSome = true → (p.channels i).rx.isSome = true →
    (p.channels i).tx_buf 0 = JCMD_CONTROLLER_READ → (p.channels i).rx_buf.isSome = true →
    rxWord r i = some (bigEndianBytes (r.world.s_CachedSyncBuffer (Fin.castLE (by decide) i)))

/-! ## Stop, pause, resume, reset -/

/-- Emulation states reported by the engine (`m64p_emu_state`). -/
inductive m64p_emu_state
  | M64EMU_STOPPED
  | M64EMU_RUNNING
  | M64EMU_PAUSED
  deriving DecidableEq, Repr

/-- What the engine and the network modules answer during one call of a
control function.  `stateQuery k` is the outcome of the `k`-th
`M64CMD_CORE_STATE_QUERY` of the call (return code, and the state written on
success); `DoCommand` is the return code of the other commands;
`M64CORE_EMU_STATE` is the engine's parameter id for the emulation state. -/
structure ControlEnv where
  IsHooked : Bool
  CoreHasInitNetplay : Bool
  CoreHasInitKaillera : Bool
  M64CORE_EMU_STATE : Int
  stateQuery : Nat → m64p_error × m64p_emu_state
  DoCommand : M64Cmd → m64p_error
  ErrorMessage : m64p_error → String

/-- Result of `get_emulation_state`: the state it leaves, its return value,
and the contents of the `state` reference afterwards. -/
structure StateQuery where
  world : World
  ret : Bool
  state : m64p_emu_state

/-- `get_emulation_state(state)`, as the `k`-th state query of the call. -/
def get_emulation_state (env : ControlEnv) (k : Nat) (state : m64p_emu_state) (w : World) :
    StateQuery :=
  if !env.IsHooked then ⟨w, false, state⟩
  else
    let w1 := w.emit (Event.DoCommand .M64CMD_CORE_STATE_QUERY env.M64CORE_EMU_STATE)
    if (env.stateQuery k).1 ≠ .M64ERR_SUCCESS then
      ⟨CoreSetError w1
        ("get_emulation_state m64p::Core.DoCommand(M64CMD_CORE_STATE_QUERY) Failed: " ++
          env.ErrorMessage (env.stateQuery k).1), false, state⟩
    else ⟨w1, true, (env.stateQuery k).2⟩

/-- Result of a control function: the state it leaves and its return value. -/
structure ControlResult where
  world : World
  ret : Bool

/-- `CoreIsEmulationRunning()`, as the `k`-th state query of the call. -/
def CoreIsEmulationRunning (env : ControlEnv) (k : Nat) (w : World) : ControlResult :=
  ⟨(get_emulation_state env k .M64EMU_STOPPED w).world,
    (get_emulation_state env k .M64EMU_STOPPED w).ret &&
      decide ((get_emulation_state env k .M64EMU_STOPPED w).state = .M64EMU_RUNNING)⟩

/-- `CoreIsEmulationPaused()`, as the `k`-th state query of the call. -/
def CoreIsEmulationPaused (env : ControlEnv) (k : Nat) (w : World) : ControlResult :=
  ⟨(get_emulation_state env k .M64EMU_STOPPED w).world,
    (get_emulation_state env k .M64EMU_STOPPED w).ret &&
      decide ((get_emulation_state env k .M64EMU_STOPPED w).state = .M64EMU_PAUSED)⟩

/-- `CoreStopEmulation()`. -/
def CoreStopEmulation (env : ControlEnv) (w : World) : ControlResult :=
  if !env.IsHooked then ⟨w, false⟩
  else
    let w1 := w.emit (Event.DoCommand .M64CMD_STOP 0)
    if env.DoCommand .M64CMD_STOP ≠ .M64ERR_SUCCESS then
      ⟨CoreSetError w1 ("CoreStopEmulation m64p::Core.DoCommand(M64CMD_STOP) Failed: " ++
        env.ErrorMessage (env.DoCommand .M64CMD_STOP)), false⟩
    else ⟨w1.emit (Event.CoreSetKailleraPlayerNumber 0), true⟩

/-- `CorePauseEmulation()`. -/
def CorePauseEmulation (env : ControlEnv) (w : World) : ControlResult :=
  if !env.IsHooked then ⟨w, false⟩
  else if env.CoreHasInitNetplay || env.CoreHasInitKaillera then ⟨w, false⟩
  else if !(CoreIsEmulationRunning env 0 w).ret then
    ⟨CoreSetError (CoreIsEmulationRunning env 0 w).world
      ("CorePauseEmulation Failed: " ++
        "cannot pause emulation when emulation isn't running!"), false⟩
  else
    let w1 := (CoreIsEmulationRunning env 0 w).world.emit (Event.DoCommand .M64CMD_PAUSE 0)
    if env.DoCommand .M64CMD_PAUSE ≠ .M64ERR_SUCCESS then
      ⟨CoreSetError w1 ("CorePauseEmulation m64p::Core.DoCommand(M64CMD_PAUSE) Failed: " ++
        env.ErrorMessage (env.DoCommand .M64CMD_PAUSE)), false⟩
    else ⟨w1, true⟩

/-- `CoreResumeEmulation()`. -/
def CoreResumeEmulation (env : ControlEnv) (w : World) : ControlResult :=
  if !env.IsHooked then ⟨w, false⟩
  else if env.CoreHasInitNetplay || env.CoreHasInitKaillera then ⟨w, false⟩
  else if !(CoreIsEmulationPaused env 0 w).ret then
    ⟨CoreSetError (CoreIsEmulationPaused env 0 w).world
      ("CoreIsEmulationPaused Failed: " ++
        "cannot resume emulation when emulation isn't paused!"), false⟩
  else
    let w1 := (CoreIsEmulationPaused env 0 w).world.emit (Event.DoCommand .M64CMD_RESUME 0)
    if env.DoCommand .M64CMD_RESUME ≠ .M64ERR_SUCCESS then
      ⟨CoreSetError w1 ("CoreResumeEmulation m64p::Core.DoCommand(M64CMD_RESUME) Failed: " ++
        env.ErrorMessage (env.DoCommand .M64CMD_RESUME)), false⟩
    else ⟨w1, true⟩

/-- The `hard` flag as the integer parameter of `M64CMD_RESET`. -/
def hardFlag (hard : Bool) : Int := if hard then 1 else 0

/-- `CoreResetEmulation(hard)`: the paused test is the first state query of
the call, the running test the second. -/
def CoreResetEmulation (env : ControlEnv) (hard : Bool) (w : World) : ControlResult :=
  if !env.IsHooked then ⟨w, false⟩
  else if (CoreIsEmulationPaused env 0 w).ret then
    ⟨CoreSetError (CoreIsEmulationPaused env 0 w).world
      ("CoreResetEmulation Failed: " ++ "cannot reset emulation when paused!"), false⟩
  else if !(CoreIsEmulationRunning env 1 (CoreIsEmulationPaused env 0 w).world).ret then
    ⟨CoreSetError (CoreIsEmulationRunning env 1 (CoreIsEmulationPaused env 0 w).world).world
      ("CoreResetEmulation Failed: " ++
        "cannot reset emulation when emulation isn't running!"), false⟩
  else
    let w1 := (CoreIsEmulationRunning env 1 (CoreIsEmulationPaused env 0 w).world).world.emit
      (Event.DoCommand .M64CMD_RESET (hardFlag hard))
    if env.DoCommand .M64CMD_RESET ≠ .M64ERR_SUCCESS then
      ⟨CoreSetError w1 ("CoreResetEmulation m64p::Core.DoCommand(M64CMD_RESET) Failed: " ++
        env.ErrorMessage (env.DoCommand .M64CMD_RESET)), false⟩
    else ⟨w1, true⟩

/-- The events appended to the trace between the states `w` and `w1`. -/
def eventsSince (w w1 : World) : List Event :=
  w1.trace.drop w.trace.length

/-- The parameters of the `DoCommand(cmd, ..)` calls of a trace, in order. -/
def commandCalls (cmd : M64Cmd) (t : List Event) : List Int :=
  t.filterMap (fun e => match e with
    | Event.DoCommand c p => if c = cmd then some p else none
    | _ => none)

/-- The state in which `CoreStartEmulation` issues `M64CMD_EXECUTE` (`none`
when it does not issue it): the state left by `startArm`. -/
def worldAtExecute (c : Collaborators) (a : StartArgs) (w : World) : Option World :=
  match startAcquire c a w with
  | .failed _ => none
  | .ready w1 type =>
    if !a.netplay || (startNetwork c a (startConfigure c a type w1)).netplay_ret then
      some (startArm c (startNetwork c a (startConfigure c a type w1)).world)
    else none

/-- The settings after the global overlay followed by the per-game overlay,
as `CoreStartEmulation` applies them (lines 433-437). -/
def effectiveSettings (c : Collaborators) (s : Settings) : Settings :=
  apply_game_coresettings_overlay c (apply_coresettings_overlay s)

/-- The six core settings the forced Kaillera layer writes, read from a
settings store: `RandomizeInterrupt`, `CPU_Emulator`, `CountPerOp`,
`CountPerOpDenomPot`, `SiDmaDuration`, `RSP_Plugin`. -/
def deterministicKeys (s : Settings) : Bool × Int × Int × Int × Int × String :=
  (CoreSettingsGetBoolValue s .Core_RandomizeInterrupt "",
    CoreSettingsGetIntValue s .Core_CPU_Emulator "",
    CoreSettingsGetIntValue s .Core_CountPerOp "",
    CoreSettingsGetIntValue s .Core_CountPerOpDenomPot "",
    CoreSettingsGetIntValue s .Core_SiDmaDuration "",
    CoreSettingsGetStringValue s .Core_RSP_Plugin "")

/-- The calls of the network step (lines 442-473), by mode and outcome. -/
def networkEvents (c : Collaborators) (a : StartArgs) : List Event :=
  if a.netplay then
    if a.kaillera then
      if c.CoreHasInitKaillera then [Event.CoreSetKailleraPlayerNumber a.player]
      else [Event.CoreSetError "CoreStartEmulation: Kaillera not initialized"]
    else [Event.CoreInitNetplay a.address a.port a.player]
  else []

/-- The netplay shutdown of lines 522-536: made for an established legacy
session only. -/
def shutdownEvents (c : Collaborators) (a : StartArgs) : List Event :=
  if a.netplay && networkStep c a && !a.kaillera then [Event.CoreShutdownNetplay] else []

/-- The calls made by the `k`-th state query of a control function: nothing
when the engine is not hooked, otherwise the query, followed by
`CoreSetError` when the query fails. -/
def queryEvents (env : ControlEnv) (k : Nat) : List Event :=
  if env.IsHooked then
    if (env.stateQuery k).1 ≠ .M64ERR_SUCCESS then
      [Event.DoCommand .M64CMD_CORE_STATE_QUERY env.M64CORE_EMU_STATE,
        Event.CoreSetError
          ("get_emulation_state m64p::Core.DoCommand(M64CMD_CORE_STATE_QUERY) Failed: " ++
            env.ErrorMessage (env.stateQuery k).1)]
    else [Event.DoCommand .M64CMD_CORE_STATE_QUERY env.M64CORE_EMU_STATE]
  else []

/-- The state `w1` ends with a call `CoreSetError(msg)` and holds `msg` as its
last error. -/
def errorRecorded (w1 : World) (msg : String) : Prop :=
  w1.lastError = msg ∧ w1.trace.getLast? = some (Event.CoreSetError msg)

/-- The synthetic descriptor as a property of one poll with input memory `p`
and result `r`: every channel `i` below the cached count whose command is
`JCMD_STATUS` or `JCMD_RESET` and whose pointers are present holds, after the
poll, `00 05 00` in its first three receive bytes and its former contents in
the bytes after them. -/
def DescriptorWritten (r : PollResult) (p : pif) : Prop :=
  ∀ (i : Fin PIF_CHANNELS_COUNT) (b : Nat → Nat),
    (i.val : Int) < r.world.s_CachedNumReceived →
    (p.channels i).tx.isSome = true → (p.channels i).rx.isSome = true →
    ((p.channels i).tx_buf 0 = JCMD_STATUS ∨ (p.channels i).tx_buf 0 = JCMD_RESET) →
    (p.channels i).rx_buf = some b →
    ∃ q b1, r.pif = some q ∧ (q.channels i).rx_buf = some b1 ∧
      b1 0 = 0x00 ∧ b1 1 = 0x05 ∧ b1 2 = 0x00 ∧ ∀ j, 3 ≤ j → b1 j = b j

/-- The accessory-absent sentinel as a property of one poll: every channel
`i` below the cached count whose pointers are present holds, after the poll,
255 in receive byte 32 when its command is `JCMD_PAK_READ` and 255 in receive
byte 0 when its command is `JCMD_PAK_WRITE`, every other receive byte being
as before. -/
def SentinelWritten (r : PollResult) (p : pif) : Prop :=
  ∀ (i : Fin PIF_CHANNELS_COUNT) (b : Nat → Nat),
    (i.val : Int) < r.world.s_CachedNumReceived →
    (p.channels i).tx.isSome = true → (p.channels i).rx.isSome = true →
    (p.channels i).rx_buf = some b →
    ((p.channels i).tx_buf 0 = JCMD_PAK_READ →
      ∃ q b1, r.pif = some q ∧ (q.channels i).rx_buf = some b1 ∧
        b1 32 = 255 ∧ ∀ j, j ≠ 32 → b1 j = b j) ∧
    ((p.channels i).tx_buf 0 = JCMD_PAK_WRITE →
      ∃ q b1, r.pif = some q ∧ (q.channels i).rx_buf = some b1 ∧
        b1 0 = 255 ∧ ∀ j, j ≠ 0 → b1 j = b j)

/-- The cleared status bits as a property of one poll: every channel `i`
below the cached count whose transmit and status pointers are present has,
after the poll, a status byte with bits `0x80` and `0x40` clear and the low
six bits it had before. -/
def StatusBitsCleared (r : PollResult) (p : pif) : Prop :=
  ∀ (i : Fin PIF_CHANNELS_COUNT) (st : Nat),
    (i.val : Int) < r.world.s_CachedNumReceived →
    (p.channels i).tx.isSome = true → (p.channels i).rx = some st →
    ∃ q st1, r.pif = some q ∧ (q.channels i).rx = some st1 ∧
      st1 &&& 0x80 = 0 ∧ st1 &&& 0x40 = 0 ∧ st1 &&& 0x3F = st &&& 0x3F

/-- Number of times the call `e` occurs in a trace. -/
def callCount (e : Event) (t : List Event) : Nat := t.count e

/-! ## The GameCube adapter input plugin: controller initialisation

`InitiateControllers` of `Source/RMG-Input-GCA/main.cpp`.  The USB adapter
and the polling thread are outside the function: whether the adapter opens,
and what the polling thread has stored in `l_ControllerState` when the
function takes the lock, are supplied by `AdapterEnv`. -/

/-- The bound `#define NUM_CONTROLLERS 4`. -/
abbrev NUM_CONTROLLERS : Nat := 4

/-- The statics of the plugin that `InitiateControllers` reads or writes
(`l_Settings.PortEnabled`, the `Status` member of `l_ControllerState`,
`l_ControlToPort`), and the `Present` members of the `CONTROL` array reached
through `ControlInfo.Controls`. -/
structure AdapterState where
  PortEnabled : Fin NUM_CONTROLLERS → Bool
  Status : Fin NUM_CONTROLLERS → Nat
  l_ControlToPort : Fin NUM_CONTROLLERS → Int
  Present : Fin NUM_CONTROLLERS → Int

/-- What the surroundings answer during one `InitiateControllers`:
`gca_init` is whether the adapter could be opened; `polled` is the `Status`
members of `l_ControllerState` when the wait for `l_PolledState` has ended and
the lock is taken (`none` when the polling thread never sets the flag, so
that the wait never ends); `load_settings` is the port flags that
`load_settings()` reads from the settings store. -/
structure AdapterEnv where
  gca_init : Bool
  polled : Option (Fin NUM_CONTROLLERS → Nat)
  load_settings : Fin NUM_CONTROLLERS → Bool

/-- `gca_reset_state()`: `l_ControllerState = {0}`. -/
def gca_reset_state (s : AdapterState) : AdapterState :=
  { s with Status := fun _ => 0 }

/-- The store `l_ControlToPort[k] = v` for a machine index `k` (`none`
outside the array). -/
def storeSlot (m : Fin NUM_CONTROLLERS → Int) (k : Nat) (v : Int) :
    Option (Fin NUM_CONTROLLERS → Int) :=
  if h : k < NUM_CONTROLLERS then some (Function.update m ⟨k, h⟩ v) else none

/-- One iteration of the mapping loop (lines 538-542) on the pair
(`l_ControlToPort`, `controlSlot`). -/
def mapStep (s : AdapterState) (acc : Option ((Fin NUM_CONTROLLERS → Int) × Nat))
    (i : Fin NUM_CONTROLLERS) : Option ((Fin NUM_CONTROLLERS → Int) × Nat) :=
  acc.bind (fun x =>
    if s.PortEnabled i && decide (s.Status i > 0) then
      (storeSlot x.1 x.2 (i.val : Int)).map (fun m => (m, x.2 + 1))
    else some x)

/-- Lines 534-543: `l_ControlToPort = {-1, -1, -1, -1}`, `controlSlot = 0`,
then the loop over the ports 0..3. -/
def mapPorts (s : AdapterState) : Option ((Fin NUM_CONTROLLERS → Int) × Nat) :=
  (List.finRange NUM_CONTROLLERS).foldl (mapStep s) (some (fun _ => -1, 0))

/-- `InitiateControllers(ControlInfo)`: `gca_init()` (which resets the
controller state before it tries to open the adapter), the wait for the first
polled state, the port mapping, the `Present` flags, and `load_settings()`.
`none` when the function does not return. -/
def InitiateControllers (env : AdapterEnv) (s : AdapterState) : Option AdapterState :=
  if !env.gca_init then some (gca_reset_state s)
  else
    match env.polled with
    | none => none
    | some st =>
      match mapPorts { gca_reset_state s with Status := st } with
      | none => none
      | some x =>
        some { PortEnabled := env.load_settings
               Status := st
               l_ControlToPort := x.1
               Present := fun i => if x.1 i ≥ 0 then 1 else 0 }

/-- The ports that are both enabled and connected (status above 0), in
increasing order: the specification's side of the port mapping. -/
def activePorts (enabled : Fin NUM_CONTROLLERS → Bool) (status : Fin NUM_CONTROLLERS → Nat) :
    List (Fin NUM_CONTROLLERS) :=
  (List.finRange NUM_CONTROLLERS).filter (fun i => enabled i && decide (status i > 0))

/-- The sequential mapping of the specification: slot `k` holds the `k`-th
port of the list, and -1 when the list has no `k`-th port. -/
def sequentialSlots (ports : List (Fin NUM_CONTROLLERS)) (slot : Fin NUM_CONTROLLERS) : Int :=
  match ports.get? slot.val with
  | some port => (port.val : Int)
  | none => -1

/-! ## Fixtures: the scenario of the specification

Tick 5; channel 0 is polled with `JCMD_CONTROLLER_READ` and holds the local
bytes `00 01 02 03`; the exchange answers two values, `0x00010203` and
`0xAABBCCDD`. -/

/-- A channel whose pointers are all null. -/
def idleChannel : pif_channel :=
  { tx := none, tx_buf := fun _ => 0, rx := none, rx_buf := none }

/-- A connected channel carrying command `cmd`, with status byte `status` and
receive bytes `bytes` (zero beyond the list). -/
def liveChannel (cmd status : Nat) (bytes : List Nat) : pif_channel :=
  { tx := some 1, tx_buf := fun i => if i = 0 then cmd else 0, rx := some status,
    rx_buf := some (fun i => bytes.getD i 0) }

/-- Channel 0 carries `cmd0` over the bytes `bytes0`, channel 1 carries
`cmd1` over `bytes1`, channels 2-5 are idle. -/
def twoChannelPif (cmd0 : Nat) (bytes0 : List Nat) (cmd1 : Nat) (bytes1 : List Nat) : pif :=
  { channels := fun i =>
      if i.val = 0 then liveChannel cmd0 0x84 bytes0
      else if i.val = 1 then liveChannel cmd1 0x84 bytes1
      else idleChannel }

/-- The PIF memory of the scenario's first poll. -/
def scenarioPif : pif :=
  twoChannelPif JCMD_CONTROLLER_READ [0x00, 0x01, 0x02, 0x03]
    JCMD_CONTROLLER_READ [0xFF, 0xFF, 0xFF, 0xFF]

/-- A housekeeping poll: `JCMD_STATUS` on channel 0. -/
def statusPif : pif :=
  twoChannelPif JCMD_STATUS [0xFF, 0xFF, 0xFF] JCMD_CONTROLLER_READ [0xFF, 0xFF, 0xFF, 0xFF]

/-- Player 1 of a two-player game; the exchange echoes slot 0 and fills
slot 1 with `0xAABBCCDD`, returning 8 bytes. -/
def scenarioEnv : KailleraEnv :=
  { CoreHasInitKaillera := true
    CoreGetKailleraPlayerNumber := 1
    CoreGetKailleraNumPlayers := 2
    CoreModifyKailleraPlayValues := fun buf _ =>
      (8, fun i => if i.val = 0 then buf 0 else if i.val = 1 then 0xAABBCCDD else 0) }

/-- The same session when the exchange fails with `-1`. -/
def failingEnv : KailleraEnv :=
  { scenarioEnv with CoreModifyKailleraPlayValues := fun buf _ => (-1, buf) }

/-- The same PIF traffic when Kaillera is not initialised. -/
def inactiveEnv : KailleraEnv :=
  { scenarioEnv with CoreHasInitKaillera := false }

/-- A settings store with every key at its zero value. -/
def blankSettings : Settings :=
  { boolValue := fun _ _ => false, intValue := fun _ _ => 0, stringValue := fun _ _ => "" }

/-- The statics as initialised at program start. -/
def initialWorld : World :=
  { s_CurrentFrame := 0, s_LastSyncFrame := -1, s_CachedSyncBuffer := fun _ => 0,
    s_CachedNumReceived := 0, s_SyncedThisFrame := false, settings := blankSettings,
    lastError := "", trace := [] }

/-- A state left by an earlier successful exchange: two cached values, and
the frame already synchronised. -/
def syncedWorld : World :=
  { initialWorld with
    s_CachedSyncBuffer := fun i => if i.val = 0 then 0x00010203 else if i.val = 1 then 0xAABBCCDD else 0
    s_CachedNumReceived := 2
    s_SyncedThisFrame := true }

/-- A run in which every collaborator succeeds, the ROM is a cartridge, no
PIF ROM is configured, the engine makes no callback and records no error. -/
def okCollaborators : Collaborators :=
  { WIN32 := false
    CoreOpenRom := true
    CoreApplyRomPluginSettings := true
    CoreArePluginsReady := true
    CoreAttachPlugins := true
    CoreApplyNetplayCheats := true
    CoreApplyCheats := true
    CoreGetRomType := some CoreRomType.Cartridge
    CoreGetCurrentDefaultRomSettings := none
    CoreGetCurrentRomHeader := none
    is_regular_file := fun _ => false
    CoreReadFile := fun _ => none
    CoreHasInitKaillera := true
    CoreInitNetplay := true
    GetHandle := true
    has_set_pif_sync_callback := true
    DoCommand := fun _ => m64p_error.M64ERR_SUCCESS
    ErrorMessage := fun _ => ""
    sideError := fun _ => none
    engineRun := [] }

/-- The same run when no Kaillera session has been established. -/
def noKailleraCollaborators : Collaborators :=
  { okCollaborators with CoreHasInitKaillera := false }

/-- The same run when the cheats cannot be applied. -/
def noCheatsCollaborators : Collaborators :=
  { okCollaborators with CoreApplyNetplayCheats := false, CoreApplyCheats := false }

/-- A local start (no address). -/
def localArgs : StartArgs :=
  { n64rom := "game.z64", n64ddrom := "", address := "", port := 0, player := 0 }

/-- A Kaillera start as player 1. -/
def kailleraArgs : StartArgs :=
  { n64rom := "game.z64", n64ddrom := "", address := "KAILLERA", port := 0, player := 1 }

/-- A legacy netplay start as player 1. -/
def legacyArgs : StartArgs :=
  { n64rom := "game.z64", n64ddrom := "", address := "192.0.2.1", port := 45000, player := 1 }

/-- A state whose settings enable the PIF ROM (`Core_PIF_Use`). -/
def pifWorld : World :=
  { initialWorld with
    settings := { blankSettings with boolValue := fun k _ => decide (k = SettingsID.Core_PIF_Use) } }

/-- A run in which the PIF ROM is found but the engine refuses it, closing
the ROM records an error of its own, and the run command fails. -/
def noisyCollaborators : Collaborators :=
  { okCollaborators with
    CoreGetCurrentRomHeader := some CoreSystemType.NTSC
    is_regular_file := fun _ => true
    CoreReadFile := fun _ => some [0]
    DoCommand := fun cmd =>
      if cmd = M64Cmd.M64CMD_EXECUTE then m64p_error.M64ERR_SYSTEM_FAIL
      else if cmd = M64Cmd.M64CMD_PIF_OPEN then m64p_error.other 9
      else m64p_error.M64ERR_SUCCESS
    ErrorMessage := fun _ => "engine failure"
    sideError := fun e => if e = Event.CoreCloseRom then some "CoreCloseRom Failed" else none }

/-- A Kaillera session answering with player number 9. -/
def player9Env : KailleraEnv :=
  { scenarioEnv with CoreGetKailleraPlayerNumber := 9 }

/-- A state whose global overlay asks for interrupt randomisation, the
dynamic recompiler, `CountPerOp = 2`, `CountPerOpDenomPot = 1` and an SI DMA
duration of 2304. -/
def overlayWorld : World :=
  { initialWorld with
    settings :=
      { boolValue := fun k _ => decide (k = SettingsID.CoreOverlay_RandomizeInterrupt)
        intValue := fun k _ =>
          if k = SettingsID.CoreOverlay_CPU_Emulator then 2
          else if k = SettingsID.CoreOverlay_CountPerOp then 2
          else if k = SettingsID.CoreOverlay_CountPerOpDenomPot then 1
          else if k = SettingsID.CoreOverlay_SiDmaDuration then 2304
          else 0
        stringValue := fun _ _ => "" } }

/-- A Kaillera start with player number 0. -/
def player0Args : StartArgs :=
  { kailleraArgs with player := 0 }

/-- A run whose ROM settings are retrieved under the section `"md5"`. -/
def gameCollaborators : Collaborators :=
  { okCollaborators with CoreGetCurrentDefaultRomSettings := some "md5" }

/-- Settings whose global overlay selects the dynamic recompiler and whose
per-game section `"md5"` sets the override flag and the cached interpreter. -/
def gameSettings : Settings :=
  { boolValue := fun k sec => decide (k = SettingsID.Game_OverrideCoreSettings ∧ sec = "md5")
    intValue := fun k sec =>
      if k = SettingsID.CoreOverlay_CPU_Emulator then 2
      else if k = SettingsID.Game_CPU_Emulator ∧ sec = "md5" then 1
      else 0
    stringValue := fun _ _ => "" }

/-- A hooked engine, no network session, emulation running, every command
accepted. -/
def runningEnv : ControlEnv :=
  { IsHooked := true
    CoreHasInitNetplay := false
    CoreHasInitKaillera := false
    M64CORE_EMU_STATE := 1
    stateQuery := fun _ => (m64p_error.M64ERR_SUCCESS, m64p_emu_state.M64EMU_RUNNING)
    DoCommand := fun _ => m64p_error.M64ERR_SUCCESS
    ErrorMessage := fun _ => "engine failure" }

/-- The same with the emulation paused. -/
def pausedEnv : ControlEnv :=
  { runningEnv with
    stateQuery := fun _ => (m64p_error.M64ERR_SUCCESS, m64p_emu_state.M64EMU_PAUSED) }

/-- The same with the emulation stopped. -/
def stoppedEnv : ControlEnv :=
  { runningEnv with
    stateQuery := fun _ => (m64p_error.M64ERR_SUCCESS, m64p_emu_state.M64EMU_STOPPED) }

/-- Emulation running with a Kaillera session initialised. -/
def kailleraRunningEnv : ControlEnv :=
  { runningEnv with CoreHasInitKaillera := true }

/-- Emulation stopped with a Kaillera session initialised. -/
def kailleraStoppedEnv : ControlEnv :=
  { stoppedEnv with CoreHasInitKaillera := true }

/-- Emulation running, the engine rejecting every command but the state
query. -/
def rejectingEnv : ControlEnv :=
  { runningEnv with DoCommand := fun _ => m64p_error.M64ERR_SYSTEM_FAIL }

/-- An engine that is not hooked. -/
def unhookedEnv : ControlEnv :=
  { runningEnv with IsHooked := false }

/-- A housekeeping poll over the scenario's cache: `JCMD_STATUS` on channel 0
over the bytes `FF FF FF 77`, a controller read on channel 1 over
`AA BB CC DD`. -/
def descriptorPif : pif :=
  twoChannelPif JCMD_STATUS [0xFF, 0xFF, 0xFF, 0x77]
    JCMD_CONTROLLER_READ [0xAA, 0xBB, 0xCC, 0xDD]

/-- An accessory poll: `JCMD_PAK_READ` on channel 0 and `JCMD_PAK_WRITE` on
channel 1, both over the bytes `11 22 33` followed by zeros. -/
def pakPif : pif :=
  twoChannelPif JCMD_PAK_READ [0x11, 0x22, 0x33] JCMD_PAK_WRITE [0x11, 0x22, 0x33]

/-- The scenario's session when the exchange answers 36 bytes (nine
values). -/
def crowdedEnv : KailleraEnv :=
  { scenarioEnv with CoreModifyKailleraPlayValues := fun buf _ => (36, buf) }

/-- The scenario's session when the exchange answers 28 bytes (seven
values). -/
def sevenEnv : KailleraEnv :=
  { scenarioEnv with CoreModifyKailleraPlayValues := fun buf _ => (28, buf) }

/-- The plugin statics at program start: every port enabled, no status, no
port mapped, no controller present. -/
def adapterInitial : AdapterState :=
  { PortEnabled := fun _ => true, Status := fun _ => 0, l_ControlToPort := fun _ => -1,
    Present := fun _ => 0 }

/-- An adapter with a controller in its fourth port only. -/
def port4Env : AdapterEnv :=
  { gca_init := true, polled := some (fun i => if i.val = 3 then 0x10 else 0),
    load_settings := fun _ => true }

/-- An adapter with controllers in its second and fourth ports, the fourth
port being disabled in the settings in force. -/
def port2Env : AdapterEnv :=
  { gca_init := true, polled := some (fun i => if i.val = 1 ∨ i.val = 3 then 0x10 else 0),
    load_settings := fun _ => true }

/-- No adapter can be opened. -/
def noAdapterEnv : AdapterEnv :=
  { gca_init := false, polled := none, load_settings := fun _ => true }

/-! # Proofs -/

/-! ## Basic facts about one poll -/

theorem poll_world (env : KailleraEnv) (w : World) (p : pif) :
    (KailleraPifSyncCallback env w p).world = (syncPhase env w p).world := by
  unfold KailleraPifSyncCallback
  dsimp only
  split <;> rfl

theorem syncPhase_of_synced (env : KailleraEnv) (w : World) (p : pif)
    (h : w.s_SyncedThisFrame = true) : (syncPhase env w p).world = w := by
  unfold syncPhase
  split_ifs <;> simp_all

theorem syncPhase_of_not_read (env : KailleraEnv) (w : World) (p : pif)
    (h : isControllerRead p = false) : (syncPhase env w p).world = w := by
  unfold syncPhase
  split_ifs <;> simp_all

theorem sessionValid_iff (env : KailleraEnv) :
    sessionValid env = true ↔ env.CoreHasInitKaillera = true ∧
      ¬ (env.CoreGetKailleraPlayerNumber < 1 ∨
        env.CoreGetKailleraPlayerNumber > (MAX_PLAYERS : Int)) := by
  unfold sessionValid
  simp only [Bool.and_eq_true, decide_eq_true_eq]
  constructor
  · rintro ⟨⟨h1, h2⟩, h3⟩
    exact ⟨h1, by omega⟩
  · rintro ⟨h1, h2⟩
    exact ⟨⟨h1, by omega⟩, by omega⟩

theorem syncPhase_of_invalid (env : KailleraEnv) (w : World) (p : pif)
    (h : sessionValid env = false) : syncPhase env w p = ⟨w, true⟩ := by
  unfold syncPhase
  by_cases h1 : env.CoreHasInitKaillera = true
  · have h2 : env.CoreGetKailleraPlayerNumber < 1 ∨
        env.CoreGetKailleraPlayerNumber > (MAX_PLAYERS : Int) := by
      by_contra hc
      have := (sessionValid_iff env).2 ⟨h1, hc⟩
      simp [h] at this
    rw [if_neg (by simp [h1]), if_pos h2]
  · rw [if_pos (by simpa using h1)]

/-- On a trigger poll the synchronisation part is the exchange branch. -/
theorem syncPhase_trigger (env : KailleraEnv) (w : World) (p : pif)
    (hv : sessionValid env = true) (hr : isControllerRead p = true)
    (hs : w.s_SyncedThisFrame = false) :
    syncPhase env w p =
      if (exchange env p).1 ≤ 0 then
        ⟨{ w with s_SyncedThisFrame := true
                  trace := w.trace ++ [exchangeEvent p, Event.CoreMarkKailleraGameInactive]
                  s_CachedNumReceived := 0
                  s_CachedSyncBuffer := fun _ => 0 }, true⟩
      else
        ⟨{ w with s_SyncedThisFrame := true
                  trace := w.trace ++ [exchangeEvent p]
                  s_CachedNumReceived := (exchange env p).1 / (sizeof_uint32_t : Int)
                  s_CachedSyncBuffer := (exchange env p).2 }, false⟩ := by
  obtain ⟨h1, h2⟩ := (sessionValid_iff env).1 hv
  unfold syncPhase
  rw [if_neg (by simp [h1]), if_neg h2, if_pos (by simp [hr, hs])]

theorem exchangeCalls_append (a b : List Event) :
    exchangeCalls (a ++ b) = exchangeCalls a + exchangeCalls b := by
  simp [exchangeCalls]

theorem syncPhase_trigger_facts (env : KailleraEnv) (w : World) (p : pif)
    (hv : sessionValid env = true) (hr : isControllerRead p = true)
    (hs : w.s_SyncedThisFrame = false) :
    (syncPhase env w p).world.s_SyncedThisFrame = true ∧
      exchangeCalls (syncPhase env w p).world.trace = exchangeCalls w.trace + 1 := by
  rw [syncPhase_trigger env w p hv hr hs]
  split <;> simp [exchangeCalls_append] <;> simp [exchangeCalls, exchangeEvent]

/-! ## Sequences of polls inside one frame -/

theorem runPolls_append (w : World) (a b : List Poll) :
    runPolls w (a ++ b) = runPolls (runPolls w a) b := by
  induction a generalizing w with
  | nil => rfl
  | cons q qs ih => simp [runPolls, ih]

theorem runPolls_of_synced (polls : List Poll) (w : World)
    (h : w.s_SyncedThisFrame = true) : runPolls w polls = w := by
  induction polls with
  | nil => rfl
  | cons q qs ih =>
    simp only [runPolls, poll_world, syncPhase_of_synced q.env w q.pif h]
    exact ih

theorem runPolls_of_no_read (polls : List Poll) (w : World)
    (h : ∀ x ∈ polls, isControllerRead x.pif = false) : runPolls w polls = w := by
  induction polls with
  | nil => rfl
  | cons q qs ih =>
    simp only [runPolls, poll_world,
      syncPhase_of_not_read q.env w q.pif (h q (List.mem_cons_self _ _))]
    exact ih (fun x hx => h x (List.mem_cons_of_mem _ hx))

theorem runPolls_count (polls : List Poll) (w : World)
    (hs : w.s_SyncedThisFrame = false)
    (hvalid : ∀ x ∈ polls, sessionValid x.env = true)
    (hk : ∃ x ∈ polls, isControllerRead x.pif = true) :
    exchangeCalls (runPolls w polls).trace = exchangeCalls w.trace + 1 := by
  induction polls with
  | nil => simp at hk
  | cons q qs ih =>
    simp only [runPolls, poll_world]
    by_cases hq : isControllerRead q.pif = true
    · have hf := syncPhase_trigger_facts q.env w q.pif
        (hvalid q (List.mem_cons_self _ _)) hq hs
      rw [runPolls_of_synced qs _ hf.1]
      exact hf.2
    · have hq' : isControllerRead q.pif = false := by simpa using hq
      rw [syncPhase_of_not_read q.env w q.pif hq']
      apply ih (fun x hx => hvalid x (List.mem_cons_of_mem _ hx))
      obtain ⟨x, hx, hxr⟩ := hk
      rcases List.mem_cons.1 hx with rfl | hx
      · exact absurd hxr hq
      · exact ⟨x, hx, hxr⟩

/-! ## The rewrite pass -/

theorem local_input_eq (rx : Nat → Nat) (h0 : rx 0 < 256) (h1 : rx 1 < 256)
    (h2 : rx 2 < 256) (h3 : rx 3 < 256) :
    local_input rx = rx 0 * 2 ^ 24 + rx 1 * 2 ^ 16 + rx 2 * 2 ^ 8 + rx 3 := by
  unfold local_input
  have e0 : rx 0 <<< 24 = 2 ^ 24 * rx 0 := by rw [Nat.shiftLeft_eq, Nat.mul_comm]
  have e1 : rx 1 <<< 16 = 2 ^ 16 * rx 1 := by rw [Nat.shiftLeft_eq, Nat.mul_comm]
  have e2 : rx 2 <<< 8 = 2 ^ 8 * rx 2 := by rw [Nat.shiftLeft_eq, Nat.mul_comm]
  have s1 : 2 ^ 24 * rx 0 ||| 2 ^ 16 * rx 1 = 2 ^ 24 * rx 0 + 2 ^ 16 * rx 1 :=
    (Nat.mul_add_lt_is_or (by omega) (rx 0)).symm
  have s2 : 2 ^ 16 * (2 ^ 8 * rx 0 + rx 1) ||| 2 ^ 8 * rx 2
      = 2 ^ 16 * (2 ^ 8 * rx 0 + rx 1) + 2 ^ 8 * rx 2 :=
    (Nat.mul_add_lt_is_or (by omega) _).symm
  have s3 : 2 ^ 8 * (2 ^ 16 * rx 0 + 2 ^ 8 * rx 1 + rx 2) ||| rx 3
      = 2 ^ 8 * (2 ^ 16 * rx 0 + 2 ^ 8 * rx 1 + rx 2) + rx 3 :=
    (Nat.mul_add_lt_is_or (by omega) _).symm
  have r1 : 2 ^ 24 * rx 0 + 2 ^ 16 * rx 1 = 2 ^ 16 * (2 ^ 8 * rx 0 + rx 1) := by omega
  have r2 : 2 ^ 16 * (2 ^ 8 * rx 0 + rx 1) + 2 ^ 8 * rx 2
      = 2 ^ 8 * (2 ^ 16 * rx 0 + 2 ^ 8 * rx 1 + rx 2) := by omega
  rw [e0, e1, e2, s1, r1, s2, r2, s3]
  omega

theorem pif_ext {p q : pif} (h : ∀ j, p.channels j = q.channels j) : p = q := by
  cases p
  cases q
  congr
  funext j
  exact h j

theorem rewriteLoop_ok (w : World) (hn : w.s_CachedNumReceived ≤ 6) :
    ∀ (k i : Nat) (p : pif), i + k = 8 →
      rewriteLoop w k i p = some
        { channels := fun j =>
            if i ≤ j.val ∧ (j.val : Int) < w.s_CachedNumReceived then
              rewriteChannel (w.s_CachedSyncBuffer (Fin.castLE (by decide) j)) (p.channels j)
            else p.channels j } := by
  intro k
  induction k with
  | zero =>
    intro i p h
    simp only [rewriteLoop]
    congr 1
    apply pif_ext
    intro j
    have := j.isLt
    dsimp only
    rw [if_neg (by omega)]
  | succ k ih =>
    intro i p h
    rw [rewriteLoop]
    by_cases hi : (i : Int) < w.s_CachedNumReceived
    · have hi6 : i < 6 := by omega
      have hi8 : i < 8 := by omega
      rw [if_pos hi, dif_pos hi8]
      have hc : p.channel? i = some (p.channels ⟨i, hi6⟩) := by
        simp [pif.channel?, hi6]
      rw [hc]
      dsimp only
      rw [ih (i + 1) _ (by omega)]
      congr 1
      apply pif_ext
      intro j
      dsimp only
      by_cases hj : j.val = i
      · have hje : j = ⟨i, hi6⟩ := Fin.ext hj
        subst hje
        rw [if_neg (by simp), if_pos ⟨le_refl _, hi⟩]
        simp [pif.setChannel, hi6, Fin.castLE]
      · have hne : j ≠ ⟨i, hi6⟩ := fun h => hj (by rw [h])
        have hch : (p.setChannel i (rewriteChannel (w.s_CachedSyncBuffer ⟨i, hi8⟩)
            (p.channels ⟨i, hi6⟩))).channels j = p.channels j := by
          simp [pif.setChannel, hi6, Function.update_noteq hne]
        rw [hch]
        by_cases hc2 : i ≤ j.val ∧ (j.val : Int) < w.s_CachedNumReceived
        · rw [if_pos hc2, if_pos ⟨by omega, hc2.2⟩]
        · rw [if_neg hc2, if_neg (by omega)]
    · rw [if_neg hi]
      congr 1
      apply pif_ext
      intro j
      dsimp only
      rw [if_neg (by omega)]

theorem rewritePass_ok (w : World) (p : pif) (hn : w.s_CachedNumReceived ≤ 6) :
    rewritePass w p = some (rewritten w p) := by
  unfold rewritePass rewritten
  split_ifs with h
  · rw [rewriteLoop_ok w hn MAX_PLAYERS 0 p rfl]
    simp
  · congr 1
    apply pif_ext
    intro j
    dsimp only
    rw [if_neg (by omega)]

theorem rewriteLoop_overrun (w : World) (hn : 7 ≤ w.s_CachedNumReceived) :
    ∀ (k i : Nat) (p : pif), i + k = 8 → i ≤ 6 → rewriteLoop w k i p = none := by
  intro k
  induction k with
  | zero => intro i p h hi; omega
  | succ k ih =>
    intro i p h hi
    have hi8 : i < 8 := by omega
    rw [rewriteLoop, if_pos (by omega), dif_pos hi8]
    by_cases hi6 : i < 6
    · have hc : p.channel? i = some (p.channels ⟨i, hi6⟩) := by
        simp [pif.channel?, hi6]
      rw [hc]
      exact ih (i + 1) _ (by omega) (by omega)
    · have hc : p.channel? i = none := by simp [pif.channel?, hi6]
      rw [hc]

theorem rewritePass_overrun (w : World) (p : pif) (hn : 7 ≤ w.s_CachedNumReceived) :
    rewritePass w p = none := by
  unfold rewritePass
  rw [if_pos (by omega)]
  exact rewriteLoop_overrun w hn MAX_PLAYERS 0 p rfl (by decide)

/-- The loop body in closed form: pointers and transmit bytes are kept, the
status byte loses bits `0xC0`, a present receive buffer is rewritten by
command. -/
theorem rewriteBody_eq (v : Nat) (c : pif_channel) (st : Nat) :
    rewriteBody v c st =
      { tx := c.tx, tx_buf := c.tx_buf, rx := some (st &&& 0x3F),
        rx_buf := (c.rx_buf).map (rewriteBuf v (c.tx_buf 0)) } := by
  obtain ⟨tx, tx_buf, rx, rx_buf⟩ := c
  unfold rewriteBody rewriteBuf
  dsimp only
  cases rx_buf with
  | none =>
    simp only [Option.map_none', Option.isSome_none, Bool.false_eq_true, and_false, if_false]
    split_ifs <;> rfl
  | some b =>
    simp only [Option.map_some', Option.isSome_some, and_true]
    split_ifs <;> rfl

theorem rewriteBuf_idem (v cmd : Nat) (b : Nat → Nat) :
    rewriteBuf v cmd (rewriteBuf v cmd b) = rewriteBuf v cmd b := by
  unfold rewriteBuf
  split_ifs <;> first
    | rfl
    | (funext j; simp only [Function.update_apply]; split_ifs <;> rfl)

theorem rewriteChannel_idem (v : Nat) (c : pif_channel) :
    rewriteChannel v (rewriteChannel v c) = rewriteChannel v c := by
  obtain ⟨tx, tx_buf, rx, rx_buf⟩ := c
  cases tx with
  | none => rfl
  | some t =>
    cases rx with
    | none => rfl
    | some st =>
      have hst : st &&& 0x3F &&& 0x3F = st &&& 0x3F := by
        rw [Nat.and_assoc, Nat.and_self]
      simp only [rewriteChannel, rewriteBody_eq, hst]
      cases rx_buf with
      | none => rfl
      | some b => simp only [Option.map_some', rewriteBuf_idem]

theorem rewritten_idem (w : World) (p : pif) : rewritten w (rewritten w p) = rewritten w p := by
  apply pif_ext
  intro j
  simp only [rewritten]
  split_ifs
  · exact rewriteChannel_idem _ _
  · rfl

/-- With a controller read on a channel whose pointers are present, the
rewritten channel holds the big-endian bytes of the value. -/
theorem rewriteChannel_read (v : Nat) (c : pif_channel)
    (htx : c.tx.isSome = true) (hrx : c.rx.isSome = true)
    (hcmd : c.tx_buf 0 = JCMD_CONTROLLER_READ) (hbuf : c.rx_buf.isSome = true) :
    ((rewriteChannel v c).rx_buf).map (fun b => [b 0, b 1, b 2, b 3])
      = some (bigEndianBytes v) := by
  obtain ⟨tx, tx_buf, rx, rx_buf⟩ := c
  cases tx with
  | none => simp at htx
  | some t =>
    cases rx with
    | none => simp at hrx
    | some st =>
      cases rx_buf with
      | none => simp at hbuf
      | some b =>
        simp only at hcmd
        simp only [rewriteChannel, rewriteBody_eq, hcmd, Option.map_some', rewriteBuf,
          bigEndianBytes]
        simp [Function.update_apply]

/-- When the session is valid and the callback returns before the rewrite
loop, the cached count is zero. -/
theorem syncPhase_returned_count (env : KailleraEnv) (w : World) (p : pif)
    (hv : sessionValid env = true) (hret : (syncPhase env w p).returned = true) :
    (syncPhase env w p).world.s_CachedNumReceived = 0 := by
  obtain ⟨h1, h2⟩ := (sessionValid_iff env).1 hv
  unfold syncPhase at hret ⊢
  rw [if_neg (by simp [h1]), if_neg h2] at hret ⊢
  split_ifs at hret ⊢
  · rfl

theorem poll_pif (env : KailleraEnv) (w : World) (p : pif) :
    (KailleraPifSyncCallback env w p).pif =
      if (syncPhase env w p).returned = true then some p
      else rewritePass (syncPhase env w p).world p := by
  unfold KailleraPifSyncCallback
  dsimp only
  split <;> rfl

/-! ## Trigger properties -/

/-- C1 (exactly-once trigger).  In a valid session (Kaillera initialised,
player number in 1..8 at every poll), any sequence of polls following a
`FrameCallback` that contains at least one poll with `JCMD_CONTROLLER_READ` on
channel 0 and a receive buffer adds exactly one `CoreModifyKailleraPlayValues`
call to the trace, whatever that call returns; no call has been made after
the polls preceding the first such poll, and the call has been made once that
poll has run. -/
theorem exactly_once_trigger (w0 : World) (n : Nat) (polls : List Poll)
    (hvalid : ∀ x ∈ polls, sessionValid x.env = true)
    (hk : ∃ x ∈ polls, isControllerRead x.pif = true) :
    exchangeCalls (runPolls (FrameCallback n w0) polls).trace = exchangeCalls w0.trace + 1 ∧
    ∀ pre q post, polls = pre ++ q :: post →
      (∀ x ∈ pre, isControllerRead x.pif = false) → isControllerRead q.pif = true →
      (runPolls (FrameCallback n w0) pre).trace = w0.trace ∧
      exchangeCalls (runPolls (FrameCallback n w0) (pre ++ [q])).trace
        = exchangeCalls w0.trace + 1 := by
  refine ⟨runPolls_count polls (FrameCallback n w0) rfl hvalid hk, ?_⟩
  intro pre q post hpolls hpre hq
  have hqv : sessionValid q.env = true := hvalid q (by simp [hpolls])
  refine ⟨by rw [runPolls_of_no_read pre _ hpre]; rfl, ?_⟩
  rw [runPolls_append, runPolls_of_no_read pre _ hpre]
  simp only [runPolls, poll_world]
  exact (syncPhase_trigger_facts q.env (FrameCallback n w0) q.pif hqv hq rfl).2

/-- C1 at a concrete frame: a status poll, a controller read whose exchange
fails, then two more controller reads. -/
theorem exactly_once_trigger_witness :
    (∀ x ∈ [Poll.mk scenarioEnv statusPif, Poll.mk failingEnv scenarioPif,
        Poll.mk scenarioEnv scenarioPif, Poll.mk scenarioEnv scenarioPif],
      sessionValid x.env = true) ∧
    (∃ x ∈ [Poll.mk scenarioEnv statusPif, Poll.mk failingEnv scenarioPif,
        Poll.mk scenarioEnv scenarioPif, Poll.mk scenarioEnv scenarioPif],
      isControllerRead x.pif = true) ∧
    exchangeCalls (runPolls (FrameCallback 5 syncedWorld)
      [Poll.mk scenarioEnv statusPif, Poll.mk failingEnv scenarioPif,
        Poll.mk scenarioEnv scenarioPif, Poll.mk scenarioEnv scenarioPif]).trace
      = exchangeCalls syncedWorld.trace + 1 :=
  have hv : ∀ x ∈ [Poll.mk scenarioEnv statusPif, Poll.mk failingEnv scenarioPif,
      Poll.mk scenarioEnv scenarioPif, Poll.mk scenarioEnv scenarioPif],
      sessionValid x.env = true := by
    intro x hx
    simp only [List.mem_cons, List.mem_singleton, List.not_mem_nil, or_false] at hx
    rcases hx with rfl | rfl | rfl | rfl <;> rfl
  have hk : ∃ x ∈ [Poll.mk scenarioEnv statusPif, Poll.mk failingEnv scenarioPif,
      Poll.mk scenarioEnv scenarioPif, Poll.mk scenarioEnv scenarioPif],
      isControllerRead x.pif = true :=
    ⟨Poll.mk failingEnv scenarioPif, by simp, rfl⟩
  ⟨hv, hk, (exactly_once_trigger syncedWorld 5 _ hv hk).1⟩

/-- C2 (no false trigger).  A sequence of polls in which the command byte of
channel 0 is never `JCMD_CONTROLLER_READ` leaves the trace without any new
call (so `CoreModifyKailleraPlayValues` is not called) and leaves
`s_SyncedThisFrame` as it was, whatever the session and the other channels
are. -/
theorem no_false_trigger (w : World) (polls : List Poll)
    (h : ∀ x ∈ polls, (x.pif.channels 0).tx_buf 0 ≠ JCMD_CONTROLLER_READ) :
    (runPolls w polls).trace = w.trace ∧
    exchangeCalls (runPolls w polls).trace = exchangeCalls w.trace ∧
    (runPolls w polls).s_SyncedThisFrame = w.s_SyncedThisFrame := by
  have hw : runPolls w polls = w := by
    apply runPolls_of_no_read
    intro x hx
    have := h x hx
    simp [isControllerRead, this]
  rw [hw]
  exact ⟨rfl, rfl, rfl⟩

/-- C2 at a concrete frame: status polls only, in a fresh frame. -/
theorem no_false_trigger_witness :
    (∀ x ∈ [Poll.mk scenarioEnv statusPif, Poll.mk scenarioEnv statusPif],
      (x.pif.channels 0).tx_buf 0 ≠ JCMD_CONTROLLER_READ) ∧
    exchangeCalls (runPolls (FrameCallback 5 initialWorld)
      [Poll.mk scenarioEnv statusPif, Poll.mk scenarioEnv statusPif]).trace = 0 ∧
    (runPolls (FrameCallback 5 initialWorld)
      [Poll.mk scenarioEnv statusPif, Poll.mk scenarioEnv statusPif]).s_SyncedThisFrame = false :=
  have h : ∀ x ∈ [Poll.mk scenarioEnv statusPif, Poll.mk scenarioEnv statusPif],
      (x.pif.channels 0).tx_buf 0 ≠ JCMD_CONTROLLER_READ := by
    intro x hx
    simp only [List.mem_cons, List.mem_singleton, List.not_mem_nil, or_false] at hx
    rcases hx with rfl | rfl <;> decide
  ⟨h, (no_false_trigger (FrameCallback 5 initialWorld) _ h).2.1,
    (no_false_trigger (FrameCallback 5 initialWorld) _ h).2.2⟩

/-- C3 (tick reset).  From a state whose frame has already been synchronised
(`s_SyncedThisFrame = true`, so that a controller read on channel 0 would call
nothing), after `FrameCallback n` the next poll with a controller read on
channel 0 in a valid session calls `CoreModifyKailleraPlayValues` exactly once
more; the polls before it, which carry no controller read on channel 0, call
it zero times. -/
theorem tick_reset (w : World) (n : Nat) (pre : List Poll) (q : Poll)
    (hs : w.s_SyncedThisFrame = true)
    (hpre : ∀ x ∈ pre, isControllerRead x.pif = false)
    (hq : isControllerRead q.pif = true) (hv : sessionValid q.env = true) :
    exchangeCalls (KailleraPifSyncCallback q.env w q.pif).world.trace = exchangeCalls w.trace ∧
    exchangeCalls (runPolls (FrameCallback n w) pre).trace = exchangeCalls w.trace ∧
    exchangeCalls
      (KailleraPifSyncCallback q.env (runPolls (FrameCallback n w) pre) q.pif).world.trace
      = exchangeCalls w.trace + 1 := by
  rw [runPolls_of_no_read pre _ hpre, poll_world, poll_world, syncPhase_of_synced q.env w q.pif hs]
  exact ⟨rfl, rfl, (syncPhase_trigger_facts q.env (FrameCallback n w) q.pif hv hq rfl).2⟩

/-- C3 at a concrete state: the synchronised state of the scenario, frame 6,
one status poll, then a controller read. -/
theorem tick_reset_witness :
    syncedWorld.s_SyncedThisFrame = true ∧
    (∀ x ∈ [Poll.mk scenarioEnv statusPif], isControllerRead x.pif = false) ∧
    isControllerRead scenarioPif = true ∧ sessionValid scenarioEnv = true ∧
    exchangeCalls (KailleraPifSyncCallback scenarioEnv
      (runPolls (FrameCallback 6 syncedWorld) [Poll.mk scenarioEnv statusPif])
      scenarioPif).world.trace = exchangeCalls syncedWorld.trace + 1 :=
  have hpre : ∀ x ∈ [Poll.mk scenarioEnv statusPif], isControllerRead x.pif = false := by
    intro x hx
    simp only [List.mem_singleton] at hx
    subst hx
    rfl
  ⟨rfl, hpre, rfl, rfl,
    (tick_reset syncedWorld 6 [Poll.mk scenarioEnv statusPif] (Poll.mk scenarioEnv scenarioPif)
      rfl hpre rfl rfl).2.2⟩

/-- C4 (graceful degrade).  On a trigger poll (valid session, controller read
on channel 0, frame not yet synchronised) whose exchange returns a value
`≤ 0`, the callback leaves `s_CachedNumReceived = 0` and every cached value
`0`, appends exactly the exchange call and `CoreMarkKailleraGameInactive` to
the trace (so no engine command, in particular no stop, is issued), and
returns the PIF memory unmodified. -/
theorem graceful_degrade (env : KailleraEnv) (w : World) (p : pif)
    (hv : sessionValid env = true) (hr : isControllerRead p = true)
    (hs : w.s_SyncedThisFrame = false) (hfail : (exchange env p).1 ≤ 0) :
    (KailleraPifSyncCallback env w p).world.s_CachedNumReceived = 0 ∧
    (∀ i, (KailleraPifSyncCallback env w p).world.s_CachedSyncBuffer i = 0) ∧
    (KailleraPifSyncCallback env w p).world.trace
      = w.trace ++ [exchangeEvent p, Event.CoreMarkKailleraGameInactive] ∧
    engineCommands (KailleraPifSyncCallback env w p).world.trace = engineCommands w.trace ∧
    (KailleraPifSyncCallback env w p).pif = some p := by
  unfold KailleraPifSyncCallback
  simp only [syncPhase_trigger env w p hv hr hs, if_pos hfail, if_true]
  refine ⟨trivial, fun _ => trivial, trivial, ?_, trivial⟩
  simp [engineCommands, exchangeEvent]

/-- C4 at a concrete poll: the scenario's controller read with a failing
exchange, over a cache still holding the previous frame's two values. -/
theorem graceful_degrade_witness :
    sessionValid failingEnv = true ∧ isControllerRead scenarioPif = true ∧
    (FrameCallback 6 syncedWorld).s_SyncedThisFrame = false ∧
    (exchange failingEnv scenarioPif).1 ≤ 0 ∧
    (KailleraPifSyncCallback failingEnv (FrameCallback 6 syncedWorld)
      scenarioPif).world.s_CachedNumReceived = 0 ∧
    (∀ i, (KailleraPifSyncCallback failingEnv (FrameCallback 6 syncedWorld)
      scenarioPif).world.s_CachedSyncBuffer i = 0) :=
  have h := graceful_degrade failingEnv (FrameCallback 6 syncedWorld) scenarioPif rfl rfl rfl
    (by decide)
  ⟨rfl, rfl, rfl, by decide, h.1, h.2.1⟩

/-! ## Rewrite properties -/

/-- C5 as stated fails: with Kaillera not initialised the callback returns at
once, so a cache of two values leaves channel 1, polled with
`JCMD_CONTROLLER_READ` over the bytes `FF FF FF FF`, unchanged instead of
holding `AA BB CC DD`. -/
theorem controller_read_rewrite_counterexample :
    (KailleraPifSyncCallback inactiveEnv syncedWorld scenarioPif).world.s_CachedNumReceived = 2 ∧
    rxWord (KailleraPifSyncCallback inactiveEnv syncedWorld scenarioPif) 1
      = some [0xFF, 0xFF, 0xFF, 0xFF] ∧
    bigEndianBytes ((KailleraPifSyncCallback inactiveEnv syncedWorld
      scenarioPif).world.s_CachedSyncBuffer 1) = [0xAA, 0xBB, 0xCC, 0xDD] ∧
    ¬ ControllerReadRewritten (KailleraPifSyncCallback inactiveEnv syncedWorld scenarioPif)
      scenarioPif := by
  refine ⟨rfl, rfl, rfl, ?_⟩
  intro h
  have h1 := h 1 (by decide) rfl rfl rfl rfl
  revert h1
  decide

/-- C5 (controller-read rewrite), amended.  In a valid session (Kaillera
initialised, player number in 1..8), after a poll that leaves a cached count
of at most 6, every channel `i` below the cached count whose command is
`JCMD_CONTROLLER_READ` and whose transmit, status and receive pointers are
present holds in its receive buffer the bytes
`[v >> 24, v >> 16, v >> 8, v]` (each masked with `0xFF`) of cached value
`i`. -/
theorem controller_read_rewrite (env : KailleraEnv) (w : World) (p : pif)
    (hv : sessionValid env = true)
    (hn : (KailleraPifSyncCallback env w p).world.s_CachedNumReceived ≤ 6) :
    ControllerReadRewritten (KailleraPifSyncCallback env w p) p := by
  intro i hi htx hrx hcmd hbuf
  rw [poll_world] at hi hn
  by_cases hret : (syncPhase env w p).returned = true
  · rw [syncPhase_returned_count env w p hv hret] at hi
    have := i.isLt
    omega
  · unfold rxWord
    rw [poll_pif, if_neg hret, rewritePass_ok _ _ hn, poll_world]
    simp only [Option.some_bind, rewritten, if_pos hi]
    exact rewriteChannel_read _ _ htx hrx hcmd hbuf

/-- C5 on the scenario: tick 5, channel 0 polled with a controller read over
`00 01 02 03`, the exchange answering `[0x00010203, 0xAABBCCDD]`: channel 0
holds `00 01 02 03` and channel 1 holds `AA BB CC DD`. -/
theorem controller_read_rewrite_witness :
    sessionValid scenarioEnv = true ∧
    (KailleraPifSyncCallback scenarioEnv (FrameCallback 5 initialWorld)
      scenarioPif).world.s_CachedNumReceived ≤ 6 ∧
    rxWord (KailleraPifSyncCallback scenarioEnv (FrameCallback 5 initialWorld) scenarioPif) 0
      = some [0x00, 0x01, 0x02, 0x03] ∧
    rxWord (KailleraPifSyncCallback scenarioEnv (FrameCallback 5 initialWorld) scenarioPif) 1
      = some [0xAA, 0xBB, 0xCC, 0xDD] :=
  have h := controller_read_rewrite scenarioEnv (FrameCallback 5 initialWorld) scenarioPif rfl
    (by decide)
  ⟨rfl, by decide, h 0 (by decide) rfl rfl rfl rfl, h 1 (by decide) rfl rfl rfl rfl⟩

/-- C6 (local value sent to peers).  On a trigger poll, with `b` the receive
bytes of channel 0 when the poll starts (each below 256), the call appended
to the trace is `CoreModifyKailleraPlayValues` on the eight slots
`[b0 * 2^24 + b1 * 2^16 + b2 * 2^8 + b3, 0, 0, 0, 0, 0, 0, 0]` with element
size 4, and that same buffer is what the Kaillera module receives. -/
theorem local_value_sent (env : KailleraEnv) (w : World) (p : pif) (b : Nat → Nat)
    (hv : sessionValid env = true) (hr : isControllerRead p = true)
    (hs : w.s_SyncedThisFrame = false) (hbuf : (p.channels 0).rx_buf = some b)
    (hb : ∀ j, j < 4 → b j < 256) :
    (KailleraPifSyncCallback env w p).world.trace =
      w.trace ++ Event.CoreModifyKailleraPlayValues
        [b 0 * 2 ^ 24 + b 1 * 2 ^ 16 + b 2 * 2 ^ 8 + b 3, 0, 0, 0, 0, 0, 0, 0] 4 ::
        (if (exchange env p).1 ≤ 0 then [Event.CoreMarkKailleraGameInactive] else []) ∧
    exchange env p = env.CoreModifyKailleraPlayValues
      (sync_buffer (b 0 * 2 ^ 24 + b 1 * 2 ^ 16 + b 2 * 2 ^ 8 + b 3)) 4 := by
  have hrx : channel0_rx p = b := by simp [channel0_rx, hbuf]
  have hl : local_input (channel0_rx p) = b 0 * 2 ^ 24 + b 1 * 2 ^ 16 + b 2 * 2 ^ 8 + b 3 := by
    rw [hrx]
    exact local_input_eq b (hb 0 (by decide)) (hb 1 (by decide)) (hb 2 (by decide))
      (hb 3 (by decide))
  have he : exchangeEvent p = Event.CoreModifyKailleraPlayValues
      [b 0 * 2 ^ 24 + b 1 * 2 ^ 16 + b 2 * 2 ^ 8 + b 3, 0, 0, 0, 0, 0, 0, 0] 4 := by
    unfold exchangeEvent
    rw [hl]
    rfl
  refine ⟨?_, by unfold exchange; rw [hl]⟩
  rw [poll_world, syncPhase_trigger env w p hv hr hs, ← he]
  split <;> rfl

/-- C6 at a concrete poll whose first byte is `0x80`: the value sent is
`0x80010203`. -/
theorem local_value_sent_witness :
    sessionValid scenarioEnv = true ∧
    isControllerRead (twoChannelPif JCMD_CONTROLLER_READ [0x80, 0x01, 0x02, 0x03]
      JCMD_STATUS []) = true ∧
    initialWorld.s_SyncedThisFrame = false ∧
    (∀ j, j < 4 → [0x80, 0x01, 0x02, 0x03].getD j 0 < 256) ∧
    (KailleraPifSyncCallback scenarioEnv initialWorld
      (twoChannelPif JCMD_CONTROLLER_READ [0x80, 0x01, 0x02, 0x03] JCMD_STATUS [])).world.trace
      = [Event.CoreModifyKailleraPlayValues [0x80010203, 0, 0, 0, 0, 0, 0, 0] 4] :=
  have hb : ∀ j, j < 4 → [0x80, 0x01, 0x02, 0x03].getD j 0 < 256 := by decide
  ⟨rfl, rfl, rfl, hb,
    (local_value_sent scenarioEnv initialWorld
      (twoChannelPif JCMD_CONTROLLER_READ [0x80, 0x01, 0x02, 0x03] JCMD_STATUS [])
      (fun j => [0x80, 0x01, 0x02, 0x03].getD j 0) rfl rfl rfl rfl hb).1⟩

/-- C7 (idempotent replay).  For a fixed cache with the frame already
synchronised, and any channel contents: the callback leaves the state as it
is, and feeding the PIF memory it produced to a second run gives the same
memory (status bytes and receive buffers) as the first run gave; the same
holds of the rewrite pass alone, which for a cached count of at most 6 does
produce a memory. -/
theorem idempotent_replay (env : KailleraEnv) (w : World) (p : pif)
    (hs : w.s_SyncedThisFrame = true) :
    (KailleraPifSyncCallback env w p).world = w ∧
    ((KailleraPifSyncCallback env w p).pif).bind
        (fun q => (KailleraPifSyncCallback env w q).pif)
      = (KailleraPifSyncCallback env w p).pif ∧
    (rewritePass w p).bind (rewritePass w) = rewritePass w p ∧
    (w.s_CachedNumReceived ≤ 6 →
      ∃ q, rewritePass w p = some q ∧ rewritePass w q = some q) := by
  have hpass : (rewritePass w p).bind (rewritePass w) = rewritePass w p := by
    by_cases hn : w.s_CachedNumReceived ≤ 6
    · rw [rewritePass_ok w p hn, Option.some_bind, rewritePass_ok w _ hn, rewritten_idem]
    · rw [rewritePass_overrun w p (by omega)]
      rfl
  have hw : ∀ q, (syncPhase env w q).world = w := fun q => syncPhase_of_synced env w q hs
  have hret : ∀ q, (syncPhase env w q).returned = (syncPhase env w p).returned := by
    intro q
    unfold syncPhase
    split_ifs <;> simp_all
  refine ⟨by rw [poll_world, hw], ?_, hpass, ?_⟩
  · rw [poll_pif, hw]
    by_cases hr : (syncPhase env w p).returned = true
    · rw [if_pos hr, Option.some_bind, poll_pif, if_pos hr]
    · rw [if_neg hr]
      have : (fun q => (KailleraPifSyncCallback env w q).pif) = rewritePass w := by
        funext q
        rw [poll_pif, hret q, if_neg hr, hw]
      rw [this, hpass]
  · intro hn
    exact ⟨rewritten w p, rewritePass_ok w p hn, by
      rw [rewritePass_ok w _ hn, rewritten_idem]⟩

/-- C7 on the synchronised scenario state: a second run over the output of
the first changes nothing. -/
theorem idempotent_replay_witness :
    syncedWorld.s_SyncedThisFrame = true ∧
    ((KailleraPifSyncCallback scenarioEnv syncedWorld statusPif).pif).bind
        (fun q => (KailleraPifSyncCallback scenarioEnv syncedWorld q).pif)
      = (KailleraPifSyncCallback scenarioEnv syncedWorld statusPif).pif :=
  ⟨rfl, (idempotent_replay scenarioEnv syncedWorld statusPif rfl).2.1⟩

/-! ## Traces of the session start -/

@[simp] theorem call_trace (c : Collaborators) (w : World) (e : Event) :
    (w.call c e).trace = w.trace ++ [e] := by
  unfold World.call
  split <;> rfl

@[simp] theorem emit_trace (w : World) (e : Event) : (w.emit e).trace = w.trace ++ [e] := rfl

@[simp] theorem setError_trace (w : World) (m : String) :
    (CoreSetError w m).trace = w.trace ++ [Event.CoreSetError m] := rfl

@[simp] theorem startForce_trace (c : Collaborators) (a : StartArgs) (w : World) :
    (startForce c a w).trace = w.trace := by
  unfold startForce
  split <;> rfl

theorem newEvents_of_trace (w : World) (r : StartResult) (ev : List Event)
    (h : r.world.trace = w.trace ++ ev) : newEvents w r = ev := by
  unfold newEvents
  rw [h, List.drop_left]

/-- The acquisition part when a step fails: the calls made up to the failing
one, then the unwind written in the source for that step. -/
theorem start_early_failure (c : Collaborators) (a : StartArgs) (w : World) :
    (c.CoreOpenRom = false →
      newEvents w (CoreStartEmulation c a w) = [Event.CoreOpenRom a.n64rom] ∧
      (CoreStartEmulation c a w).ret = false) ∧
    (c.CoreOpenRom = true → c.CoreApplyRomPluginSettings = false →
      newEvents w (CoreStartEmulation c a w) =
        [Event.CoreOpenRom a.n64rom, Event.CoreApplyRomPluginSettings,
          Event.CoreApplyPluginSettings, Event.CoreCloseRom] ∧
      (CoreStartEmulation c a w).ret = false) ∧
    (c.CoreOpenRom = true → c.CoreApplyRomPluginSettings = true →
      c.CoreArePluginsReady = false →
      newEvents w (CoreStartEmulation c a w) =
        [Event.CoreOpenRom a.n64rom, Event.CoreApplyRomPluginSettings,
          Event.CoreArePluginsReady,
          Event.CoreApplyPluginSettings, Event.CoreCloseRom] ∧
      (CoreStartEmulation c a w).ret = false) ∧
    (c.CoreOpenRom = true → c.CoreApplyRomPluginSettings = true →
      c.CoreArePluginsReady = true → c.CoreAttachPlugins = false →
      newEvents w (CoreStartEmulation c a w) =
        [Event.CoreOpenRom a.n64rom, Event.CoreApplyRomPluginSettings,
          Event.CoreArePluginsReady, Event.CoreAttachPlugins,
          Event.CoreApplyPluginSettings, Event.CoreCloseRom] ∧
      (CoreStartEmulation c a w).ret = false) ∧
    (c.CoreOpenRom = true → c.CoreApplyRomPluginSettings = true →
      c.CoreArePluginsReady = true → c.CoreAttachPlugins = true →
      cheatsApplied c a = false →
      newEvents w (CoreStartEmulation c a w) =
        [Event.CoreOpenRom a.n64rom, Event.CoreApplyRomPluginSettings,
          Event.CoreArePluginsReady, Event.CoreAttachPlugins, cheatEvent a,
          Event.CoreDetachPlugins, Event.CoreApplyPluginSettings, Event.CoreCloseRom] ∧
      (CoreStartEmulation c a w).ret = false) ∧
    (c.CoreOpenRom = true → c.CoreApplyRomPluginSettings = true →
      c.CoreArePluginsReady = true → c.CoreAttachPlugins = true →
      cheatsApplied c a = true → c.CoreGetRomType = none →
      newEvents w (CoreStartEmulation c a w) =
        [Event.CoreOpenRom a.n64rom, Event.CoreApplyRomPluginSettings,
          Event.CoreArePluginsReady, Event.CoreAttachPlugins, cheatEvent a,
          Event.CoreGetRomType,
          Event.CoreClearCheats, Event.CoreDetachPlugins, Event.CoreApplyPluginSettings,
          Event.CoreCloseRom] ∧
      (CoreStartEmulation c a w).ret = false) := by
  refine ⟨?_, ?_, ?_, ?_, ?_, ?_⟩
  · intro h1
    have h : CoreStartEmulation c a w =
        ⟨List.foldl (World.call c) (startForce c a w) [Event.CoreOpenRom a.n64rom], false⟩ := by
      simp [CoreStartEmulation, startAcquire, h1]
    rw [h]
    exact ⟨newEvents_of_trace _ _ _ (by simp), rfl⟩
  · intro h1 h2
    have h : CoreStartEmulation c a w =
        ⟨List.foldl (World.call c) (startForce c a w)
          [Event.CoreOpenRom a.n64rom, Event.CoreApplyRomPluginSettings,
            Event.CoreApplyPluginSettings, Event.CoreCloseRom], false⟩ := by
      simp [CoreStartEmulation, startAcquire, h1, h2]
    rw [h]
    exact ⟨newEvents_of_trace _ _ _ (by simp), rfl⟩
  · intro h1 h2 h3
    have h : CoreStartEmulation c a w =
        ⟨List.foldl (World.call c) (startForce c a w)
          [Event.CoreOpenRom a.n64rom, Event.CoreApplyRomPluginSettings,
            Event.CoreArePluginsReady,
            Event.CoreApplyPluginSettings, Event.CoreCloseRom], false⟩ := by
      simp [CoreStartEmulation, startAcquire, h1, h2, h3]
    rw [h]
    exact ⟨newEvents_of_trace _ _ _ (by simp), rfl⟩
  · intro h1 h2 h3 h4
    have h : CoreStartEmulation c a w =
        ⟨List.foldl (World.call c) (startForce c a w)
          [Event.CoreOpenRom a.n64rom, Event.CoreApplyRomPluginSettings,
            Event.CoreArePluginsReady, Event.CoreAttachPlugins,
            Event.CoreApplyPluginSettings, Event.CoreCloseRom], false⟩ := by
      simp [CoreStartEmulation, startAcquire, h1, h2, h3, h4]
    rw [h]
    exact ⟨newEvents_of_trace _ _ _ (by simp), rfl⟩
  · intro h1 h2 h3 h4 h5
    have h5a : (if a.netplay = true then c.CoreApplyNetplayCheats else c.CoreApplyCheats)
        = false := h5
    have h : CoreStartEmulation c a w =
        ⟨List.foldl (World.call c) (startForce c a w)
          [Event.CoreOpenRom a.n64rom, Event.CoreApplyRomPluginSettings,
            Event.CoreArePluginsReady, Event.CoreAttachPlugins, cheatEvent a,
            Event.CoreDetachPlugins, Event.CoreApplyPluginSettings, Event.CoreCloseRom],
          false⟩ := by
      simp [CoreStartEmulation, startAcquire, h1, h2, h3, h4, h5a, cheatEvent]
    rw [h]
    exact ⟨newEvents_of_trace _ _ _ (by simp), rfl⟩
  · intro h1 h2 h3 h4 h5 h6
    have h5a : (if a.netplay = true then c.CoreApplyNetplayCheats else c.CoreApplyCheats)
        = true := h5
    have h : CoreStartEmulation c a w =
        ⟨List.foldl (World.call c) (startForce c a w)
          [Event.CoreOpenRom a.n64rom, Event.CoreApplyRomPluginSettings,
            Event.CoreArePluginsReady, Event.CoreAttachPlugins, cheatEvent a,
            Event.CoreGetRomType,
            Event.CoreClearCheats, Event.CoreDetachPlugins, Event.CoreApplyPluginSettings,
            Event.CoreCloseRom], false⟩ := by
      simp [CoreStartEmulation, startAcquire, h1, h2, h3, h4, h5a, h6, cheatEvent]
    rw [h]
    exact ⟨newEvents_of_trace _ _ _ (by simp), rfl⟩

theorem releases_append (x y : List Event) : releases (x ++ y) = releases x ++ releases y := by
  simp [releases]

theorem executeCalls_append (x y : List Event) :
    executeCalls (x ++ y) = executeCalls x + executeCalls y := by
  simp [executeCalls]

/-- A poll only appends Kaillera calls to the trace. -/
theorem poll_events (env : KailleraEnv) (w : World) (p : pif) :
    ∃ ev, (KailleraPifSyncCallback env w p).world.trace = w.trace ++ ev ∧
      releases ev = [] ∧ executeCalls ev = 0 := by
  rw [poll_world]
  unfold syncPhase
  split_ifs
  · exact ⟨[], by simp, rfl, rfl⟩
  · exact ⟨[], by simp, rfl, rfl⟩
  · exact ⟨[exchangeEvent p, Event.CoreMarkKailleraGameInactive], rfl, rfl, rfl⟩
  · exact ⟨[exchangeEvent p], rfl, rfl, rfl⟩
  · exact ⟨[], by simp, rfl, rfl⟩

theorem runEngine_events (script : List EngineCall) (w : World) :
    ∃ ev, (runEngine w script).trace = w.trace ++ ev ∧
      releases ev = [] ∧ executeCalls ev = 0 := by
  induction script generalizing w with
  | nil => exact ⟨[], by simp [runEngine], rfl, rfl⟩
  | cons x rest ih =>
    cases x with
    | frame n =>
      obtain ⟨ev, h1, h2, h3⟩ := ih (FrameCallback n w)
      exact ⟨ev, by rw [runEngine, h1]; rfl, h2, h3⟩
    | poll q =>
      obtain ⟨ev1, h1, h2, h3⟩ := poll_events q.env w q.pif
      obtain ⟨ev2, k1, k2, k3⟩ := ih (KailleraPifSyncCallback q.env w q.pif).world
      refine ⟨ev1 ++ ev2, by rw [runEngine, k1, h1, List.append_assoc], ?_, ?_⟩
      · rw [releases_append, h2, k2]
        rfl
      · rw [executeCalls_append, h3, k3]

theorem apply_pif_rom_settings_events (c : Collaborators) (w : World) :
    ∃ ev, (apply_pif_rom_settings c w).trace = w.trace ++ ev ∧
      releases ev = [] ∧ executeCalls ev = 0 := by
  unfold apply_pif_rom_settings
  cases c.CoreGetCurrentRomHeader with
  | none => exact ⟨[], by simp, rfl, rfl⟩
  | some st =>
    dsimp only
    by_cases h1 : CoreSettingsGetIntValue w.settings .Core_CPU_Emulator "" ≥ 2
    · rw [if_pos h1]
      exact ⟨[], by simp, rfl, rfl⟩
    · rw [if_neg h1]
      by_cases h2 : (!CoreSettingsGetBoolValue w.settings .Core_PIF_Use "") = true
      · rw [if_pos h2]
        exact ⟨[], by simp, rfl, rfl⟩
      · rw [if_neg h2]
        by_cases h3 : (!c.is_regular_file
            (CoreSettingsGetStringValue w.settings (settingsIds st) "")) = true
        · rw [if_pos h3]
          exact ⟨[], by simp, rfl, rfl⟩
        · rw [if_neg h3]
          cases c.CoreReadFile (CoreSettingsGetStringValue w.settings (settingsIds st) "") with
          | none => exact ⟨[], by simp, rfl, rfl⟩
          | some buffer =>
            dsimp only
            by_cases h4 : c.DoCommand .M64CMD_PIF_OPEN ≠ .M64ERR_SUCCESS
            · rw [if_pos h4]
              exact ⟨[Event.DoCommand .M64CMD_PIF_OPEN buffer.length,
                Event.CoreSetError ("open_pif_rom m64p::Core.DoCommand(M64CMD_PIF_OPEN) Failed: "
                  ++ c.ErrorMessage (c.DoCommand .M64CMD_PIF_OPEN))], by simp, rfl, rfl⟩
            · rw [if_neg h4]
              exact ⟨[Event.DoCommand .M64CMD_PIF_OPEN buffer.length], by simp, rfl, rfl⟩

theorem startConfigure_events (c : Collaborators) (a : StartArgs) (type : CoreRomType)
    (w : World) :
    ∃ ev, (startConfigure c a type w).trace = w.trace ++ ev ∧
      releases ev = [] ∧ executeCalls ev = 0 := by
  obtain ⟨ev, h1, h2, h3⟩ :=
    apply_pif_rom_settings_events c (startOverlays c (startMedia c a type w))
  have ho : (startOverlays c (startMedia c a type w)).trace = (startMedia c a type w).trace := rfl
  unfold startConfigure
  rw [h1, ho]
  unfold startMedia
  by_cases ht : type = CoreRomType.Cartridge
  · rw [if_pos ht]
    refine ⟨Event.CoreMediaLoaderSetDiskFile a.n64ddrom :: ev, by simp, ?_, ?_⟩
    · simpa [releases, isRelease] using h2
    · simpa [executeCalls, isExecute] using h3
  · rw [if_neg ht]
    exact ⟨ev, rfl, h2, h3⟩

theorem foldl_call_trace (c : Collaborators) (ev : List Event) (w : World) :
    (List.foldl (World.call c) w ev).trace = w.trace ++ ev := by
  induction ev generalizing w with
  | nil => simp
  | cons e rest ih => simp [List.foldl, ih]

theorem startAcquire_ready (c : Collaborators) (a : StartArgs) (w : World)
    (h : acquisitionsSucceed c a = true) :
    ∃ type, c.CoreGetRomType = some type ∧
      startAcquire c a w =
        Acquired.ready (List.foldl (World.call c) (startForce c a w) (acquisitionEvents a))
          type := by
  simp only [acquisitionsSucceed, Bool.and_eq_true] at h
  obtain ⟨⟨⟨⟨⟨h1, h2⟩, h3⟩, h4⟩, h5⟩, h6⟩ := h
  have h5a : (if a.netplay = true then c.CoreApplyNetplayCheats else c.CoreApplyCheats)
      = true := h5
  cases hty : c.CoreGetRomType with
  | none => simp [hty] at h6
  | some type =>
    refine ⟨type, rfl, ?_⟩
    simp [startAcquire, h1, h2, h3, h4, h5a, hty, acquisitionEvents, cheatEvent]

theorem startNetwork_events (c : Collaborators) (a : StartArgs) (w : World) :
    ∃ ev, (startNetwork c a w).world.trace = w.trace ++ ev ∧
      releases ev = [] ∧ executeCalls ev = 0 := by
  unfold startNetwork
  split_ifs
  · exact ⟨[Event.CoreSetError "CoreStartEmulation: Kaillera not initialized"], by simp,
      rfl, rfl⟩
  · exact ⟨[Event.CoreSetKailleraPlayerNumber a.player], by simp, rfl, rfl⟩
  · exact ⟨[Event.CoreInitNetplay a.address a.port a.player], by simp, rfl, rfl⟩
  · exact ⟨[Event.CoreInitNetplay a.address a.port a.player], by simp, rfl, rfl⟩
  · exact ⟨[], by simp, rfl, rfl⟩

theorem startNetwork_ret (c : Collaborators) (a : StartArgs) (w : World) :
    (startNetwork c a w).netplay_ret = (a.netplay && networkStep c a) := by
  unfold startNetwork networkStep
  split_ifs <;> simp_all

theorem startNetwork_m64p_ret (c : Collaborators) (a : StartArgs) (w : World)
    (hn : a.netplay = true) (hf : networkStep c a = false) :
    (startNetwork c a w).m64p_ret = some m64p_error.M64ERR_SYSTEM_FAIL := by
  unfold startNetwork
  unfold networkStep at hf
  split_ifs <;> simp_all

theorem startArm_events (c : Collaborators) (w : World) :
    ∃ ev, (startArm c w).trace = w.trace ++ ev ∧ releases ev = [] ∧ executeCalls ev = 0 := by
  unfold startArm
  dsimp only
  split_ifs
  · exact ⟨[Event.DoCommand .M64CMD_SET_FRAME_CALLBACK 0, Event.set_pif_sync_callback],
      by simp, rfl, rfl⟩
  · exact ⟨[Event.DoCommand .M64CMD_SET_FRAME_CALLBACK 0], by simp, rfl, rfl⟩
  · exact ⟨[Event.DoCommand .M64CMD_SET_FRAME_CALLBACK 0], by simp, rfl, rfl⟩

theorem startRun_events (c : Collaborators) (a : StartArgs) (n : NetworkOutcome) :
    ∃ ev, (startRun c a n).world.trace = n.world.trace ++ ev ∧ releases ev = [] ∧
      executeCalls ev = (if (!a.netplay || n.netplay_ret) = true then 1 else 0) := by
  unfold startRun
  by_cases hr : (!a.netplay || n.netplay_ret) = true
  · obtain ⟨ev1, h1, h2, h3⟩ := startArm_events c n.world
    obtain ⟨ev2, k1, k2, k3⟩ := runEngine_events c.engineRun
      ((startArm c n.world).emit (Event.DoCommand .M64CMD_EXECUTE 0))
    have ht : (runEngine ((startArm c n.world).emit (Event.DoCommand .M64CMD_EXECUTE 0))
        c.engineRun).trace
        = n.world.trace ++ (ev1 ++ Event.DoCommand .M64CMD_EXECUTE 0 :: ev2) := by
      rw [k1, emit_trace, h1]
      simp
    have hrel : releases (ev1 ++ Event.DoCommand .M64CMD_EXECUTE 0 :: ev2) = [] := by
      rw [releases_append, h2]
      simpa [releases, isRelease] using k2
    have hex : executeCalls (ev1 ++ Event.DoCommand .M64CMD_EXECUTE 0 :: ev2) = 1 := by
      rw [executeCalls_append, h3]
      have : executeCalls (Event.DoCommand .M64CMD_EXECUTE 0 :: ev2) = executeCalls ev2 + 1 := by
        simp [executeCalls, isExecute]
      rw [this, k3]
    rw [if_pos hr, if_pos hr]
    dsimp only
    split_ifs
    · exact ⟨_, ht, hrel, hex⟩
    · exact ⟨_, ht, hrel, hex⟩
  · rw [if_neg hr, if_neg hr]
    exact ⟨[], by simp, rfl, rfl⟩

theorem startTeardown_events (c : Collaborators) (a : StartArgs) (nr : Bool) (w : World) :
    ∃ ev, (startTeardown c a nr w).trace = w.trace ++ ev ++ teardownEvents ∧
      releases ev = [] ∧ executeCalls ev = 0 := by
  unfold startTeardown teardownEvents
  dsimp only
  split_ifs
  · exact ⟨[], by simp, rfl, rfl⟩
  · exact ⟨[Event.CoreShutdownNetplay], by simp, rfl, rfl⟩
  · exact ⟨[], by simp, rfl, rfl⟩

theorem acquisitionEvents_quiet (a : StartArgs) :
    releases (acquisitionEvents a) = [] ∧ executeCalls (acquisitionEvents a) = 0 := by
  unfold acquisitionEvents cheatEvent
  split_ifs <;> exact ⟨rfl, rfl⟩

theorem teardownEvents_facts :
    releases teardownEvents = teardownEvents ∧ executeCalls teardownEvents = 0 :=
  ⟨rfl, rfl⟩

/-- When every acquisition succeeds, the calls made are the six acquisitions,
then configuration, network and run calls, then the five teardown calls, then
possibly the final `CoreSetError`. -/
theorem start_success_events (c : Collaborators) (a : StartArgs) (w : World)
    (h : acquisitionsSucceed c a = true) :
    ∃ mid tail, newEvents w (CoreStartEmulation c a w)
        = acquisitionEvents a ++ mid ++ teardownEvents ++ tail ∧
      releases mid = [] ∧ releases tail = [] ∧ executeCalls tail = 0 ∧
      executeCalls mid = (if (!a.netplay || networkStep c a) = true then 1 else 0) := by
  obtain ⟨type, _, hacq⟩ := startAcquire_ready c a w h
  obtain ⟨ev1, h1, r1, x1⟩ := startConfigure_events c a type
    (List.foldl (World.call c) (startForce c a w) (acquisitionEvents a))
  obtain ⟨ev2, h2, r2, x2⟩ := startNetwork_events c a (startConfigure c a type
    (List.foldl (World.call c) (startForce c a w) (acquisitionEvents a)))
  obtain ⟨ev3, h3, r3, x3⟩ := startRun_events c a (startNetwork c a (startConfigure c a type
    (List.foldl (World.call c) (startForce c a w) (acquisitionEvents a))))
  obtain ⟨ev4, h4, r4, x4⟩ := startTeardown_events c a
    (startNetwork c a (startConfigure c a type
      (List.foldl (World.call c) (startForce c a w) (acquisitionEvents a)))).netplay_ret
    (startRun c a (startNetwork c a (startConfigure c a type
      (List.foldl (World.call c) (startForce c a w) (acquisitionEvents a))))).world
  rw [foldl_call_trace, startForce_trace] at h1
  rw [h1] at h2
  rw [h2] at h3
  rw [h3] at h4
  rw [startNetwork_ret] at x3
  have hcond : (!a.netplay || (a.netplay && networkStep c a))
      = (!a.netplay || networkStep c a) := by
    cases a.netplay <;> rfl
  rw [hcond] at x3
  have hmidr : releases (ev1 ++ ev2 ++ ev3 ++ ev4) = [] := by
    simp [releases_append, r1, r2, r3, r4]
  have hmidx : executeCalls (ev1 ++ ev2 ++ ev3 ++ ev4)
      = (if (!a.netplay || networkStep c a) = true then 1 else 0) := by
    simp only [executeCalls_append, x1, x2, x3, x4]
    omega
  unfold CoreStartEmulation
  rw [hacq]
  dsimp only
  by_cases hfin : (!a.netplay || (startNetwork c a (startConfigure c a type
      (List.foldl (World.call c) (startForce c a w) (acquisitionEvents a)))).netplay_ret) = true
  · rw [if_pos hfin]
    refine ⟨ev1 ++ ev2 ++ ev3 ++ ev4, [Event.CoreSetError (startRun c a (startNetwork c a
      (startConfigure c a type (List.foldl (World.call c) (startForce c a w)
        (acquisitionEvents a))))).error], ?_, hmidr, rfl, rfl, hmidx⟩
    apply newEvents_of_trace
    rw [setError_trace, h4]
    simp only [List.append_assoc]
  · rw [if_neg hfin]
    refine ⟨ev1 ++ ev2 ++ ev3 ++ ev4, [], ?_, hmidr, rfl, rfl, hmidx⟩
    apply newEvents_of_trace
    dsimp only
    rw [h4]
    simp only [List.append_assoc, List.append_nil]

/-- The return value when the network step fails. -/
theorem start_ret_network_failure (c : Collaborators) (a : StartArgs) (w : World)
    (h : acquisitionsSucceed c a = true) (hn : a.netplay = true)
    (hf : networkStep c a = false) : (CoreStartEmulation c a w).ret = false := by
  obtain ⟨type, _, hacq⟩ := startAcquire_ready c a w h
  unfold CoreStartEmulation
  rw [hacq]
  dsimp only
  have hr : (!a.netplay || (startNetwork c a (startConfigure c a type
      (List.foldl (World.call c) (startForce c a w) (acquisitionEvents a)))).netplay_ret)
      = false := by
    rw [startNetwork_ret, hn, hf]
    rfl
  unfold startRun
  rw [if_neg (by rw [hr]; decide)]
  dsimp only
  rw [startNetwork_m64p_ret c a _ hn hf]
  rfl

theorem netplay_false_iff (a : StartArgs) : a.netplay = false ↔ a.address = "" := by
  simp [StartArgs.netplay]

theorem acquisitionsSucceed_iff (c : Collaborators) (a : StartArgs) :
    acquisitionsSucceed c a = true ↔
      c.CoreOpenRom = true ∧ c.CoreApplyRomPluginSettings = true ∧
      c.CoreArePluginsReady = true ∧ c.CoreAttachPlugins = true ∧
      cheatsApplied c a = true ∧ c.CoreGetRomType.isSome = true := by
  simp only [acquisitionsSucceed, Bool.and_eq_true]
  tauto

/-- When some acquisition fails no run command is issued, and the call
returns `false`. -/
theorem start_failure_quiet (c : Collaborators) (a : StartArgs) (w : World)
    (h : acquisitionsSucceed c a = false) :
    executeCalls (newEvents w (CoreStartEmulation c a w)) = 0 ∧
      (CoreStartEmulation c a w).ret = false := by
  obtain ⟨f1, f2, f3, f4, f5, f6⟩ := start_early_failure c a w
  by_cases h1 : c.CoreOpenRom = true
  · by_cases h2 : c.CoreApplyRomPluginSettings = true
    · by_cases h3 : c.CoreArePluginsReady = true
      · by_cases h4 : c.CoreAttachPlugins = true
        · by_cases h5 : cheatsApplied c a = true
          · cases h6 : c.CoreGetRomType with
            | none =>
              obtain ⟨e, r⟩ := f6 h1 h2 h3 h4 h5 h6
              rw [e]
              refine ⟨?_, r⟩
              unfold cheatEvent
              split <;> rfl
            | some type =>
              have := (acquisitionsSucceed_iff c a).2 ⟨h1, h2, h3, h4, h5, by simp [h6]⟩
              rw [h] at this
              exact absurd this (by decide)
          · obtain ⟨e, r⟩ := f5 h1 h2 h3 h4 (by simpa using h5)
            rw [e]
            refine ⟨?_, r⟩
            unfold cheatEvent
            split <;> rfl
        · obtain ⟨e, r⟩ := f4 h1 h2 h3 (by simpa using h4)
          rw [e]
          exact ⟨rfl, r⟩
      · obtain ⟨e, r⟩ := f3 h1 h2 (by simpa using h3)
        rw [e]
        exact ⟨rfl, r⟩
    · obtain ⟨e, r⟩ := f2 h1 (by simpa using h2)
      rw [e]
      exact ⟨rfl, r⟩
  · obtain ⟨e, r⟩ := f1 (by simpa using h1)
    rw [e]
    exact ⟨rfl, r⟩

theorem start_success_executeCalls (c : Collaborators) (a : StartArgs) (w : World)
    (h : acquisitionsSucceed c a = true) :
    executeCalls (newEvents w (CoreStartEmulation c a w))
      = (if (!a.netplay || networkStep c a) = true then 1 else 0) := by
  obtain ⟨mid, tail, hev, _, _, htx, hmx⟩ := start_success_events c a w h
  rw [hev]
  simp only [executeCalls_append, (acquisitionEvents_quiet a).2, teardownEvents_facts.2, htx, hmx]
  omega

theorem start_success_releases (c : Collaborators) (a : StartArgs) (w : World)
    (h : acquisitionsSucceed c a = true) :
    releases (newEvents w (CoreStartEmulation c a w)) = teardownEvents := by
  obtain ⟨mid, tail, hev, hmr, htr, _, _⟩ := start_success_events c a w h
  rw [hev]
  simp only [releases_append, (acquisitionEvents_quiet a).1, teardownEvents_facts.1, hmr, htr,
    List.nil_append, List.append_nil]

/-! ## Session start properties -/

/-- C8 as stated fails at the network step: in a Kaillera start with no
session established every acquisition has succeeded, and the releases are
clear cheats, detach plugins, close ROM, revert plugin settings, reset media
loader, whereas the reverse order of acquisition resets the media loader
first and closes the ROM, which was opened first, last. -/
theorem unwind_symmetry_counterexample :
    newEvents initialWorld (CoreStartEmulation noKailleraCollaborators kailleraArgs initialWorld) =
      [Event.CoreOpenRom "game.z64", Event.CoreApplyRomPluginSettings,
        Event.CoreArePluginsReady, Event.CoreAttachPlugins, Event.CoreApplyNetplayCheats,
        Event.CoreGetRomType, Event.CoreMediaLoaderSetDiskFile "",
        Event.CoreSetError "CoreStartEmulation: Kaillera not initialized",
        Event.CoreClearCheats, Event.CoreDetachPlugins, Event.CoreCloseRom,
        Event.CoreApplyPluginSettings, Event.CoreResetMediaLoader] ∧
    releases (newEvents initialWorld
        (CoreStartEmulation noKailleraCollaborators kailleraArgs initialWorld)) =
      [Event.CoreClearCheats, Event.CoreDetachPlugins, Event.CoreCloseRom,
        Event.CoreApplyPluginSettings, Event.CoreResetMediaLoader] ∧
    reverseUnwind (newEvents initialWorld
        (CoreStartEmulation noKailleraCollaborators kailleraArgs initialWorld)) =
      [Event.CoreResetMediaLoader, Event.CoreClearCheats, Event.CoreDetachPlugins,
        Event.CoreApplyPluginSettings, Event.CoreCloseRom] ∧
    releases (newEvents initialWorld
        (CoreStartEmulation noKailleraCollaborators kailleraArgs initialWorld)) ≠
      reverseUnwind (newEvents initialWorld
        (CoreStartEmulation noKailleraCollaborators kailleraArgs initialWorld)) := by
  have h : newEvents initialWorld
      (CoreStartEmulation noKailleraCollaborators kailleraArgs initialWorld) =
      [Event.CoreOpenRom "game.z64", Event.CoreApplyRomPluginSettings,
        Event.CoreArePluginsReady, Event.CoreAttachPlugins, Event.CoreApplyNetplayCheats,
        Event.CoreGetRomType, Event.CoreMediaLoaderSetDiskFile "",
        Event.CoreSetError "CoreStartEmulation: Kaillera not initialized",
        Event.CoreClearCheats, Event.CoreDetachPlugins, Event.CoreCloseRom,
        Event.CoreApplyPluginSettings, Event.CoreResetMediaLoader] := by
    rfl
  rw [h]
  exact ⟨rfl, rfl, rfl, by decide⟩

/-- C8 (unwind symmetry), amended.  When an acquisition call of
`CoreStartEmulation` is the first to fail, the calls made are exactly the
calls up to the failing one followed by the releases of what was acquired
before it, in reverse order of acquisition and each once (the plugin settings
are reverted as soon as `CoreApplyRomPluginSettings` has been called, even
when it is the failing call), and the function returns `false`; no later
step and no run command is performed.  When every acquisition succeeds and
the network step fails, no run command is issued, the function returns
`false`, and the releases are the unconditional teardown: clear cheats,
detach plugins, close ROM, revert plugin settings, reset media loader. -/
theorem unwind_symmetry (c : Collaborators) (a : StartArgs) (w : World) :
    (c.CoreOpenRom = false →
      newEvents w (CoreStartEmulation c a w) = [Event.CoreOpenRom a.n64rom] ∧
      (CoreStartEmulation c a w).ret = false) ∧
    (c.CoreOpenRom = true → c.CoreApplyRomPluginSettings = false →
      newEvents w (CoreStartEmulation c a w) =
        [Event.CoreOpenRom a.n64rom, Event.CoreApplyRomPluginSettings,
          Event.CoreApplyPluginSettings, Event.CoreCloseRom] ∧
      (CoreStartEmulation c a w).ret = false) ∧
    (c.CoreOpenRom = true → c.CoreApplyRomPluginSettings = true →
      c.CoreArePluginsReady = false →
      newEvents w (CoreStartEmulation c a w) =
        [Event.CoreOpenRom a.n64rom, Event.CoreApplyRomPluginSettings,
          Event.CoreArePluginsReady,
          Event.CoreApplyPluginSettings, Event.CoreCloseRom] ∧
      (CoreStartEmulation c a w).ret = false) ∧
    (c.CoreOpenRom = true → c.CoreApplyRomPluginSettings = true →
      c.CoreArePluginsReady = true → c.CoreAttachPlugins = false →
      newEvents w (CoreStartEmulation c a w) =
        [Event.CoreOpenRom a.n64rom, Event.CoreApplyRomPluginSettings,
          Event.CoreArePluginsReady, Event.CoreAttachPlugins,
          Event.CoreApplyPluginSettings, Event.CoreCloseRom] ∧
      (CoreStartEmulation c a w).ret = false) ∧
    (c.CoreOpenRom = true → c.CoreApplyRomPluginSettings = true →
      c.CoreArePluginsReady = true → c.CoreAttachPlugins = true →
      cheatsApplied c a = false →
      newEvents w (CoreStartEmulation c a w) =
        [Event.CoreOpenRom a.n64rom, Event.CoreApplyRomPluginSettings,
          Event.CoreArePluginsReady, Event.CoreAttachPlugins, cheatEvent a,
          Event.CoreDetachPlugins, Event.CoreApplyPluginSettings, Event.CoreCloseRom] ∧
      (CoreStartEmulation c a w).ret = false) ∧
    (c.CoreOpenRom = true → c.CoreApplyRomPluginSettings = true →
      c.CoreArePluginsReady = true → c.CoreAttachPlugins = true →
      cheatsApplied c a = true → c.CoreGetRomType = none →
      newEvents w (CoreStartEmulation c a w) =
        [Event.CoreOpenRom a.n64rom, Event.CoreApplyRomPluginSettings,
          Event.CoreArePluginsReady, Event.CoreAttachPlugins, cheatEvent a,
          Event.CoreGetRomType,
          Event.CoreClearCheats, Event.CoreDetachPlugins, Event.CoreApplyPluginSettings,
          Event.CoreCloseRom] ∧
      (CoreStartEmulation c a w).ret = false) ∧
    (c.CoreOpenRom = true → c.CoreApplyRomPluginSettings = true →
      c.CoreArePluginsReady = true → c.CoreAttachPlugins = true →
      cheatsApplied c a = true → c.CoreGetRomType.isSome = true →
      a.address ≠ "" → networkStep c a = false →
      releases (newEvents w (CoreStartEmulation c a w)) =
        [Event.CoreClearCheats, Event.CoreDetachPlugins, Event.CoreCloseRom,
          Event.CoreApplyPluginSettings, Event.CoreResetMediaLoader] ∧
      executeCalls (newEvents w (CoreStartEmulation c a w)) = 0 ∧
      (CoreStartEmulation c a w).ret = false) := by
  obtain ⟨f1, f2, f3, f4, f5, f6⟩ := start_early_failure c a w
  refine ⟨f1, f2, f3, f4, f5, f6, ?_⟩
  intro h1 h2 h3 h4 h5 h6 hn hf
  have hacq := (acquisitionsSucceed_iff c a).2 ⟨h1, h2, h3, h4, h5, h6⟩
  have hnp : a.netplay = true := by
    cases hb : a.netplay
    · exact absurd ((netplay_false_iff a).1 hb) hn
    · rfl
  refine ⟨start_success_releases c a w hacq, ?_, start_ret_network_failure c a w hacq hnp hf⟩
  rw [start_success_executeCalls c a w hacq, hnp, hf]
  rfl

/-- C8 at concrete runs: a start whose cheats fail, and a Kaillera start with
no session established. -/
theorem unwind_symmetry_witness :
    newEvents initialWorld (CoreStartEmulation noCheatsCollaborators localArgs initialWorld) =
      [Event.CoreOpenRom "game.z64", Event.CoreApplyRomPluginSettings,
        Event.CoreArePluginsReady, Event.CoreAttachPlugins, Event.CoreApplyCheats,
        Event.CoreDetachPlugins, Event.CoreApplyPluginSettings, Event.CoreCloseRom] ∧
    executeCalls (newEvents initialWorld
      (CoreStartEmulation noKailleraCollaborators kailleraArgs initialWorld)) = 0 ∧
    (CoreStartEmulation noKailleraCollaborators kailleraArgs initialWorld).ret = false :=
  ⟨((unwind_symmetry noCheatsCollaborators localArgs initialWorld).2.2.2.2.1
      rfl rfl rfl rfl rfl).1,
    ((unwind_symmetry noKailleraCollaborators kailleraArgs initialWorld).2.2.2.2.2.2
      rfl rfl rfl rfl rfl rfl (by decide) rfl).2⟩

/-- C9 (run-call gating).  `CoreStartEmulation` issues `M64CMD_EXECUTE`
(exactly once) if and only if ROM open, plugin settings, plugin readiness,
plugin attach, cheat application and ROM-type lookup all succeed and either
no address is given or the network step succeeds; in every other case it
issues it zero times. -/
theorem run_call_gating (c : Collaborators) (a : StartArgs) (w : World) :
    (executeCalls (newEvents w (CoreStartEmulation c a w)) = 1 ↔
      (c.CoreOpenRom = true ∧ c.CoreApplyRomPluginSettings = true ∧
        c.CoreArePluginsReady = true ∧ c.CoreAttachPlugins = true ∧
        cheatsApplied c a = true ∧ c.CoreGetRomType.isSome = true ∧
        (a.address = "" ∨ networkStep c a = true))) ∧
    (executeCalls (newEvents w (CoreStartEmulation c a w)) = 0 ∨
      executeCalls (newEvents w (CoreStartEmulation c a w)) = 1) := by
  by_cases hacq : acquisitionsSucceed c a = true
  · have hx := start_success_executeCalls c a w hacq
    obtain ⟨h1, h2, h3, h4, h5, h6⟩ := (acquisitionsSucceed_iff c a).1 hacq
    by_cases hrun : (!a.netplay || networkStep c a) = true
    · rw [if_pos hrun] at hx
      refine ⟨⟨fun _ => ⟨h1, h2, h3, h4, h5, h6, ?_⟩, fun _ => hx⟩, Or.inr hx⟩
      cases hb : a.netplay
      · exact Or.inl ((netplay_false_iff a).1 hb)
      · rw [hb] at hrun
        exact Or.inr (by simpa using hrun)
    · rw [if_neg hrun] at hx
      refine ⟨⟨fun h => by omega, fun h => ?_⟩, Or.inl hx⟩
      exfalso
      apply hrun
      rcases h.2.2.2.2.2.2 with he | hn
      · rw [(netplay_false_iff a).2 he]
        rfl
      · rw [hn]
        simp
  · have hq := (start_failure_quiet c a w (by simpa using hacq)).1
    refine ⟨⟨fun h => by omega, fun h => ?_⟩, Or.inl hq⟩
    exact absurd ((acquisitionsSucceed_iff c a).2
      ⟨h.1, h.2.1, h.2.2.1, h.2.2.2.1, h.2.2.2.2.1, h.2.2.2.2.2.1⟩) hacq

/-- C9 at concrete runs: a local start issues the run command once, a
Kaillera start without a session issues none. -/
theorem run_call_gating_witness :
    executeCalls (newEvents initialWorld
      (CoreStartEmulation okCollaborators localArgs initialWorld)) = 1 ∧
    executeCalls (newEvents initialWorld
      (CoreStartEmulation noKailleraCollaborators kailleraArgs initialWorld)) ≠ 1 :=
  ⟨(run_call_gating okCollaborators localArgs initialWorld).1.2
      ⟨rfl, rfl, rfl, rfl, rfl, rfl, Or.inl rfl⟩,
    fun h => absurd ((run_call_gating noKailleraCollaborators kailleraArgs initialWorld).1.1 h)
      (by decide)⟩

/-- C10 (unconditional teardown order).  When ROM open, the plugin steps,
cheats and ROM type all succeed, the calls made by `CoreStartEmulation` are
the six acquisitions, then calls none of which is a release, then exactly
`CoreClearCheats`, `CoreDetachPlugins`, `CoreCloseRom`,
`CoreApplyPluginSettings`, `CoreResetMediaLoader` in that order, then calls
none of which is a release: these five are all the release calls made, each
once, whether or not the run command is issued and whatever it returns.
(`CoreShutdownNetplay`, made before them when a legacy netplay session was
established, is a network call and is not counted among the releases.) -/
theorem teardown_order (c : Collaborators) (a : StartArgs) (w : World)
    (h1 : c.CoreOpenRom = true) (h2 : c.CoreApplyRomPluginSettings = true)
    (h3 : c.CoreArePluginsReady = true) (h4 : c.CoreAttachPlugins = true)
    (h5 : cheatsApplied c a = true) (h6 : c.CoreGetRomType.isSome = true) :
    (∃ mid tail, newEvents w (CoreStartEmulation c a w) =
        acquisitionEvents a ++ mid ++
          [Event.CoreClearCheats, Event.CoreDetachPlugins, Event.CoreCloseRom,
            Event.CoreApplyPluginSettings, Event.CoreResetMediaLoader] ++ tail ∧
      releases (acquisitionEvents a ++ mid) = [] ∧ releases tail = []) ∧
    releases (newEvents w (CoreStartEmulation c a w)) =
      [Event.CoreClearCheats, Event.CoreDetachPlugins, Event.CoreCloseRom,
        Event.CoreApplyPluginSettings, Event.CoreResetMediaLoader] := by
  have hacq := (acquisitionsSucceed_iff c a).2 ⟨h1, h2, h3, h4, h5, h6⟩
  obtain ⟨mid, tail, hev, hmr, htr, _, _⟩ := start_success_events c a w hacq
  refine ⟨⟨mid, tail, hev, ?_, htr⟩, start_success_releases c a w hacq⟩
  rw [releases_append, (acquisitionEvents_quiet a).1, hmr]
  rfl

/-- C10 at concrete runs: a local start whose run command is issued, and a
Kaillera start whose run command is skipped, make the same five releases. -/
theorem teardown_order_witness :
    (okCollaborators.CoreOpenRom = true ∧ okCollaborators.CoreApplyRomPluginSettings = true ∧
      okCollaborators.CoreArePluginsReady = true ∧ okCollaborators.CoreAttachPlugins = true ∧
      cheatsApplied okCollaborators localArgs = true ∧
      okCollaborators.CoreGetRomType.isSome = true) ∧
    releases (newEvents initialWorld
      (CoreStartEmulation okCollaborators localArgs initialWorld)) =
      [Event.CoreClearCheats, Event.CoreDetachPlugins, Event.CoreCloseRom,
        Event.CoreApplyPluginSettings, Event.CoreResetMediaLoader] ∧
    releases (newEvents initialWorld
      (CoreStartEmulation noKailleraCollaborators kailleraArgs initialWorld)) =
      [Event.CoreClearCheats, Event.CoreDetachPlugins, Event.CoreCloseRom,
        Event.CoreApplyPluginSettings, Event.CoreResetMediaLoader] :=
  ⟨⟨rfl, rfl, rfl, rfl, rfl, rfl⟩,
    (teardown_order okCollaborators localArgs initialWorld rfl rfl rfl rfl rfl rfl).2,
    (teardown_order noKailleraCollaborators kailleraArgs initialWorld
      rfl rfl rfl rfl rfl rfl).2⟩

/-! ## Return value and recorded error of the session start -/

theorem startNetwork_run_cond (c : Collaborators) (a : StartArgs) (w : World) :
    (!a.netplay || (startNetwork c a w).netplay_ret) = (!a.netplay || networkStep c a) := by
  rw [startNetwork_ret]
  cases a.netplay <;> rfl

/-- When the run command is issued, the return value is whether it succeeded
and the last error is the message built from its result. -/
theorem start_run_result (c : Collaborators) (a : StartArgs) (w : World)
    (h : acquisitionsSucceed c a = true) (hr : (!a.netplay || networkStep c a) = true) :
    ((CoreStartEmulation c a w).ret = true ↔
      c.DoCommand .M64CMD_EXECUTE = .M64ERR_SUCCESS) ∧
    (CoreStartEmulation c a w).world.lastError =
      (if c.DoCommand .M64CMD_EXECUTE ≠ .M64ERR_SUCCESS then
        "CoreStartEmulation m64p::Core.DoCommand(M64CMD_EXECUTE) Failed: " ++
          c.ErrorMessage (c.DoCommand .M64CMD_EXECUTE)
      else "") := by
  obtain ⟨type, _, hacq⟩ := startAcquire_ready c a w h
  have hc := startNetwork_run_cond c a (startConfigure c a type
    (List.foldl (World.call c) (startForce c a w) (acquisitionEvents a)))
  rw [hr] at hc
  unfold CoreStartEmulation
  rw [hacq]
  dsimp only
  rw [if_pos hc]
  unfold startRun
  rw [if_pos hc]
  dsimp only
  by_cases hx : c.DoCommand .M64CMD_EXECUTE ≠ .M64ERR_SUCCESS
  · rw [if_pos hx, if_pos hx]
    refine ⟨?_, rfl⟩
    constructor
    · intro hret
      simp only [beq_iff_eq, Option.some.injEq] at hret
      exact absurd hret hx
    · intro hs
      exact absurd hs hx
  · rw [if_neg hx, if_neg hx]
    have hs : c.DoCommand .M64CMD_EXECUTE = .M64ERR_SUCCESS := by
      by_contra hne
      exact hx hne
    refine ⟨?_, rfl⟩
    constructor
    · intro _
      exact hs
    · intro _
      simp only [beq_iff_eq, Option.some.injEq]
      exact hs

/-- C11 (start return value).  `CoreStartEmulation` returns `true` if and only
if it issued the run command and the engine answered `M64ERR_SUCCESS`; it
returns `false` when an acquisition fails, when the network step fails, and
when the run command returns an error. -/
theorem start_return_value (c : Collaborators) (a : StartArgs) (w : World) :
    ((CoreStartEmulation c a w).ret = true ↔
      (executeCalls (newEvents w (CoreStartEmulation c a w)) = 1 ∧
        c.DoCommand .M64CMD_EXECUTE = .M64ERR_SUCCESS)) ∧
    (¬ (c.CoreOpenRom = true ∧ c.CoreApplyRomPluginSettings = true ∧
        c.CoreArePluginsReady = true ∧ c.CoreAttachPlugins = true ∧
        cheatsApplied c a = true ∧ c.CoreGetRomType.isSome = true) →
      (CoreStartEmulation c a w).ret = false) ∧
    (a.address ≠ "" → networkStep c a = false → (CoreStartEmulation c a w).ret = false) ∧
    (c.DoCommand .M64CMD_EXECUTE ≠ .M64ERR_SUCCESS → (CoreStartEmulation c a w).ret = false) := by
  have hnet : a.address ≠ "" → networkStep c a = false →
      (!a.netplay || networkStep c a) = false := by
    intro hn hf
    have hnp : a.netplay = true := by
      cases hb : a.netplay
      · exact absurd ((netplay_false_iff a).1 hb) hn
      · rfl
    rw [hnp, hf]
    rfl
  have key : (CoreStartEmulation c a w).ret = true ↔
      (executeCalls (newEvents w (CoreStartEmulation c a w)) = 1 ∧
        c.DoCommand .M64CMD_EXECUTE = .M64ERR_SUCCESS) := by
    by_cases hacq : acquisitionsSucceed c a = true
    · have hx := start_success_executeCalls c a w hacq
      by_cases hrun : (!a.netplay || networkStep c a) = true
      · rw [if_pos hrun] at hx
        rw [(start_run_result c a w hacq hrun).1, hx]
        simp
      · rw [if_neg hrun] at hx
        have hnp : a.netplay = true := by
          cases hb : a.netplay
          · rw [hb] at hrun
            exact absurd rfl hrun
          · rfl
        have hf : networkStep c a = false := by
          cases hb : networkStep c a
          · rfl
          · rw [hnp, hb] at hrun
            exact absurd rfl hrun
        rw [start_ret_network_failure c a w hacq hnp hf, hx]
        simp
    · obtain ⟨hq, hret⟩ := start_failure_quiet c a w (by simpa using hacq)
      rw [hret, hq]
      simp
  refine ⟨key, ?_, ?_, ?_⟩
  · intro hfail
    have hacq : acquisitionsSucceed c a = false := by
      cases hb : acquisitionsSucceed c a
      · rfl
      · exact absurd ((acquisitionsSucceed_iff c a).1 hb) hfail
    exact (start_failure_quiet c a w hacq).2
  · intro hn hf
    cases hret : (CoreStartEmulation c a w).ret
    · rfl
    · have hx := (key.1 hret).1
      by_cases hacq : acquisitionsSucceed c a = true
      · rw [start_success_executeCalls c a w hacq, hnet hn hf] at hx
        simp at hx
      · rw [(start_failure_quiet c a w (by simpa using hacq)).1] at hx
        simp at hx
  · intro hx
    cases hret : (CoreStartEmulation c a w).ret
    · rfl
    · exact absurd (key.1 hret).2 hx

/-- C11 at concrete runs: a local start whose run succeeds returns `true`; a
start whose cheats fail, a Kaillera start without session, and a start whose
run command fails return `false`. -/
theorem start_return_value_witness :
    (CoreStartEmulation okCollaborators localArgs initialWorld).ret = true ∧
    (CoreStartEmulation noCheatsCollaborators localArgs initialWorld).ret = false ∧
    (CoreStartEmulation noKailleraCollaborators kailleraArgs initialWorld).ret = false ∧
    (CoreStartEmulation noisyCollaborators localArgs pifWorld).ret = false :=
  ⟨(start_return_value okCollaborators localArgs initialWorld).1.2
      ⟨by rfl, rfl⟩,
    (start_return_value noCheatsCollaborators localArgs initialWorld).2.1 (by decide),
    (start_return_value noKailleraCollaborators kailleraArgs initialWorld).2.2.1
      (by decide) rfl,
    (start_return_value noisyCollaborators localArgs pifWorld).2.2.2 (by decide)⟩

/-- C12 (engine error priority).  When every acquisition succeeds, the run
command is issued (no address, or the network step succeeded) and the engine
returns an error, the last error recorded when `CoreStartEmulation` returns is
`"CoreStartEmulation m64p::Core.DoCommand(M64CMD_EXECUTE) Failed: "` followed
by the engine's message for that result, whatever errors the PIF load or the
collaborators called during teardown have recorded. -/
theorem engine_error_priority (c : Collaborators) (a : StartArgs) (w : World)
    (h1 : c.CoreOpenRom = true) (h2 : c.CoreApplyRomPluginSettings = true)
    (h3 : c.CoreArePluginsReady = true) (h4 : c.CoreAttachPlugins = true)
    (h5 : cheatsApplied c a = true) (h6 : c.CoreGetRomType.isSome = true)
    (hrun : a.address = "" ∨ networkStep c a = true)
    (hfail : c.DoCommand .M64CMD_EXECUTE ≠ .M64ERR_SUCCESS) :
    executeCalls (newEvents w (CoreStartEmulation c a w)) = 1 ∧
    (CoreStartEmulation c a w).world.lastError =
      "CoreStartEmulation m64p::Core.DoCommand(M64CMD_EXECUTE) Failed: " ++
        c.ErrorMessage (c.DoCommand .M64CMD_EXECUTE) := by
  have hacq := (acquisitionsSucceed_iff c a).2 ⟨h1, h2, h3, h4, h5, h6⟩
  have hr : (!a.netplay || networkStep c a) = true := by
    rcases hrun with he | hn
    · rw [(netplay_false_iff a).2 he]
      rfl
    · rw [hn]
      simp
  refine ⟨?_, ?_⟩
  · rw [start_success_executeCalls c a w hacq, if_pos hr]
  · rw [(start_run_result c a w hacq hr).2, if_pos hfail]

/-- C12 at a concrete run: the PIF load fails and records an error, closing
the ROM records another, and the run command fails with `M64ERR_SYSTEM_FAIL`:
the error left is the run failure. -/
theorem engine_error_priority_witness :
    (noisyCollaborators.CoreOpenRom = true ∧
      noisyCollaborators.CoreApplyRomPluginSettings = true ∧
      noisyCollaborators.CoreArePluginsReady = true ∧
      noisyCollaborators.CoreAttachPlugins = true ∧
      cheatsApplied noisyCollaborators localArgs = true ∧
      noisyCollaborators.CoreGetRomType.isSome = true) ∧
    noisyCollaborators.DoCommand .M64CMD_EXECUTE ≠ .M64ERR_SUCCESS ∧
    Event.CoreSetError
      "open_pif_rom m64p::Core.DoCommand(M64CMD_PIF_OPEN) Failed: engine failure"
      ∈ newEvents pifWorld (CoreStartEmulation noisyCollaborators localArgs pifWorld) ∧
    (CoreStartEmulation noisyCollaborators localArgs pifWorld).world.lastError =
      "CoreStartEmulation m64p::Core.DoCommand(M64CMD_EXECUTE) Failed: engine failure" :=
  ⟨⟨rfl, rfl, rfl, rfl, rfl, rfl⟩, by decide, by decide,
    (engine_error_priority noisyCollaborators localArgs pifWorld rfl rfl rfl rfl rfl rfl
      (Or.inl rfl) (by decide)).2⟩

/-! ## Settings overlays -/

/-- C13 evaluated on a Kaillera start with the session established, every
acquisition succeeding, and a global overlay asking for interrupt
randomisation, the dynamic recompiler, `CountPerOp = 2`,
`CountPerOpDenomPot = 1` and `SiDmaDuration = 2304`: the run command is
issued, and at that moment the core settings hold the overlay values, not the
forced ones; only the RSP plugin is still the forced one. -/
theorem kaillera_settings_at_execute :
    executeCalls (newEvents overlayWorld
      (CoreStartEmulation okCollaborators kailleraArgs overlayWorld)) = 1 ∧
    (worldAtExecute okCollaborators kailleraArgs overlayWorld).map
        (fun w => deterministicKeys w.settings)
      = some (true, 2, 2, 1, 2304, "mupen64plus-rsp-cxd4.so") ∧
    deterministicKeys (startForce okCollaborators kailleraArgs overlayWorld).settings
      = (false, 0, 0, 0, -1, "mupen64plus-rsp-cxd4.so") := by
  refine ⟨by rfl, by rfl, by rfl⟩

/-- C14 (per-game over global precedence).  After
`apply_coresettings_overlay` followed by `apply_game_coresettings_overlay`:
`RandomizeInterrupt`, `CPU_Emulator` and `CountPerOpDenomPot` hold the
per-game values when the ROM settings are retrieved and their override flag
is set, and the global overlay values otherwise; `DisableExtraMem`,
`EnableDebugger`, `CountPerOp`, `SiDmaDuration`, `SaveFileNameFormat` and
`GbCameraVideoCaptureBackend1` always hold the global overlay values. -/
theorem per_game_over_global (c : Collaborators) (s : Settings) :
    (∀ md5, c.CoreGetCurrentDefaultRomSettings = some md5 →
      CoreSettingsGetBoolValue s .Game_OverrideCoreSettings md5 = true →
      CoreSettingsGetBoolValue (effectiveSettings c s) .Core_RandomizeInterrupt ""
        = CoreSettingsGetBoolValue s .Game_RandomizeInterrupt md5 ∧
      CoreSettingsGetIntValue (effectiveSettings c s) .Core_CPU_Emulator ""
        = CoreSettingsGetIntValue s .Game_CPU_Emulator md5 ∧
      CoreSettingsGetIntValue (effectiveSettings c s) .Core_CountPerOpDenomPot ""
        = CoreSettingsGetIntValue s .Game_CountPerOpDenomPot md5) ∧
    ((c.CoreGetCurrentDefaultRomSettings = none ∨
        ∃ md5, c.CoreGetCurrentDefaultRomSettings = some md5 ∧
          CoreSettingsGetBoolValue s .Game_OverrideCoreSettings md5 = false) →
      CoreSettingsGetBoolValue (effectiveSettings c s) .Core_RandomizeInterrupt ""
        = CoreSettingsGetBoolValue s .CoreOverlay_RandomizeInterrupt "" ∧
      CoreSettingsGetIntValue (effectiveSettings c s) .Core_CPU_Emulator ""
        = CoreSettingsGetIntValue s .CoreOverlay_CPU_Emulator "" ∧
      CoreSettingsGetIntValue (effectiveSettings c s) .Core_CountPerOpDenomPot ""
        = CoreSettingsGetIntValue s .CoreOverlay_CountPerOpDenomPot "") ∧
    (CoreSettingsGetBoolValue (effectiveSettings c s) .Core_DisableExtraMem ""
        = CoreSettingsGetBoolValue s .CoreOverlay_DisableExtraMem "" ∧
      CoreSettingsGetBoolValue (effectiveSettings c s) .Core_EnableDebugger ""
        = CoreSettingsGetBoolValue s .CoreOverlay_EnableDebugger "" ∧
      CoreSettingsGetIntValue (effectiveSettings c s) .Core_CountPerOp ""
        = CoreSettingsGetIntValue s .CoreOverlay_CountPerOp "" ∧
      CoreSettingsGetIntValue (effectiveSettings c s) .Core_SiDmaDuration ""
        = CoreSettingsGetIntValue s .CoreOverlay_SiDmaDuration "" ∧
      CoreSettingsGetIntValue (effectiveSettings c s) .Core_SaveFileNameFormat ""
        = CoreSettingsGetIntValue s .CoreOverLay_SaveFileNameFormat "" ∧
      CoreSettingsGetStringValue (effectiveSettings c s) .Core_GbCameraVideoCaptureBackend1 ""
        = CoreSettingsGetStringValue s .CoreOverlay_GbCameraVideoCaptureBackend1 "") := by
  refine ⟨?_, ?_, ?_⟩
  · intro md5 hrom hflag
    simp only [CoreSettingsGetBoolValue] at hflag
    simp [effectiveSettings, apply_game_coresettings_overlay, apply_coresettings_overlay,
      hrom, hflag, CoreSettingsGetBoolValue, CoreSettingsGetIntValue,
      CoreSettingsGetStringValue, CoreSettingsSetBool, CoreSettingsSetInt,
      CoreSettingsSetString]
  · rintro (hrom | ⟨md5, hrom, hflag⟩)
    · simp [effectiveSettings, apply_game_coresettings_overlay, apply_coresettings_overlay,
        hrom, CoreSettingsGetBoolValue, CoreSettingsGetIntValue,
        CoreSettingsGetStringValue, CoreSettingsSetBool, CoreSettingsSetInt,
        CoreSettingsSetString]
    · simp only [CoreSettingsGetBoolValue] at hflag
      simp [effectiveSettings, apply_game_coresettings_overlay, apply_coresettings_overlay,
        hrom, hflag, CoreSettingsGetBoolValue, CoreSettingsGetIntValue,
        CoreSettingsGetStringValue, CoreSettingsSetBool, CoreSettingsSetInt,
        CoreSettingsSetString]
  · cases hrom : c.CoreGetCurrentDefaultRomSettings with
    | none =>
      simp [effectiveSettings, apply_game_coresettings_overlay, apply_coresettings_overlay,
        hrom, CoreSettingsGetBoolValue, CoreSettingsGetIntValue,
        CoreSettingsGetStringValue, CoreSettingsSetBool, CoreSettingsSetInt,
        CoreSettingsSetString]
    | some md5 =>
      by_cases hflag : s.boolValue .Game_OverrideCoreSettings md5 = true
      · simp [effectiveSettings, apply_game_coresettings_overlay, apply_coresettings_overlay,
          hrom, hflag, CoreSettingsGetBoolValue, CoreSettingsGetIntValue,
          CoreSettingsGetStringValue, CoreSettingsSetBool, CoreSettingsSetInt,
          CoreSettingsSetString]
      · simp [effectiveSettings, apply_game_coresettings_overlay, apply_coresettings_overlay,
          hrom, hflag, CoreSettingsGetBoolValue, CoreSettingsGetIntValue,
          CoreSettingsGetStringValue, CoreSettingsSetBool, CoreSettingsSetInt,
          CoreSettingsSetString]

/-- C14 at concrete settings: the per-game section selects the cached
interpreter over a global overlay selecting the dynamic recompiler; without
retrievable ROM settings the global value stands. -/
theorem per_game_over_global_witness :
    CoreSettingsGetIntValue (effectiveSettings gameCollaborators gameSettings)
      .Core_CPU_Emulator "" = 1 ∧
    CoreSettingsGetIntValue (effectiveSettings okCollaborators gameSettings)
      .Core_CPU_Emulator "" = 2 :=
  ⟨by
      rw [((per_game_over_global gameCollaborators gameSettings).1 "md5" rfl rfl).2.1]
      rfl,
    by
      rw [((per_game_over_global okCollaborators gameSettings).2.1 (Or.inl rfl)).2.1]
      rfl⟩

/-! ## Shape of a start whose acquisitions succeed -/

@[simp] theorem call_settings (c : Collaborators) (w : World) (e : Event) :
    (w.call c e).settings = w.settings := by
  unfold World.call
  split <;> rfl

theorem foldl_call_settings (c : Collaborators) (ev : List Event) (w : World) :
    (List.foldl (World.call c) w ev).settings = w.settings := by
  induction ev generalizing w with
  | nil => rfl
  | cons e rest ih => simp [List.foldl, ih]

theorem apply_pif_rom_settings_settings (c : Collaborators) (w : World) :
    (apply_pif_rom_settings c w).settings = w.settings := by
  unfold apply_pif_rom_settings
  cases c.CoreGetCurrentRomHeader with
  | none => rfl
  | some st =>
    dsimp only
    by_cases h1 : CoreSettingsGetIntValue w.settings .Core_CPU_Emulator "" ≥ 2
    · rw [if_pos h1]
    · rw [if_neg h1]
      by_cases h2 : (!CoreSettingsGetBoolValue w.settings .Core_PIF_Use "") = true
      · rw [if_pos h2]
      · rw [if_neg h2]
        by_cases h3 : (!c.is_regular_file
            (CoreSettingsGetStringValue w.settings (settingsIds st) "")) = true
        · rw [if_pos h3]
        · rw [if_neg h3]
          cases c.CoreReadFile (CoreSettingsGetStringValue w.settings (settingsIds st) "") with
          | none => rfl
          | some buffer =>
            dsimp only
            by_cases h4 : c.DoCommand .M64CMD_PIF_OPEN ≠ .M64ERR_SUCCESS
            · rw [if_pos h4]
              rfl
            · rw [if_neg h4]
              rfl

theorem startNetwork_settings (c : Collaborators) (a : StartArgs) (w : World) :
    (startNetwork c a w).world.settings = w.settings := by
  unfold startNetwork
  split_ifs <;> simp [CoreSetError]

theorem startArm_settings (c : Collaborators) (w : World) :
    (startArm c w).settings = w.settings := by
  unfold startArm
  dsimp only
  split_ifs <;> rfl

/-- The settings in force when the run command is issued are the forced layer
(if any) overwritten by the global overlay and then by the per-game
overlay. -/
theorem settings_at_execute (c : Collaborators) (a : StartArgs) (w w1 : World)
    (h : worldAtExecute c a w = some w1) :
    w1.settings = effectiveSettings c (startForce c a w).settings := by
  unfold worldAtExecute at h
  by_cases hacq : acquisitionsSucceed c a = true
  · obtain ⟨type, _, hready⟩ := startAcquire_ready c a w hacq
    rw [hready] at h
    dsimp only at h
    split_ifs at h
    simp only [Option.some.injEq] at h
    rw [← h, startArm_settings, startNetwork_settings]
    unfold startConfigure
    rw [apply_pif_rom_settings_settings]
    unfold startOverlays startMedia effectiveSettings
    dsimp only
    split_ifs
    · rw [call_settings, foldl_call_settings]
    · rw [foldl_call_settings]
  · exfalso
    have hcases : ∀ x, startAcquire c a w = x → (∃ w2, x = Acquired.failed w2) ∨
        acquisitionsSucceed c a = true := by
      intro x hx
      unfold startAcquire at hx
      dsimp only at hx
      unfold acquisitionsSucceed cheatsApplied
      cases h1 : c.CoreOpenRom <;> simp only [h1, Bool.not_false, Bool.not_true, if_true,
        Bool.false_eq_true, if_false] at hx
      · exact Or.inl ⟨_, hx.symm⟩
      cases h2 : c.CoreApplyRomPluginSettings <;> simp only [h2, Bool.not_false, Bool.not_true,
        if_true, Bool.false_eq_true, if_false] at hx
      · exact Or.inl ⟨_, hx.symm⟩
      cases h3 : c.CoreArePluginsReady <;> simp only [h3, Bool.not_false, Bool.not_true,
        if_true, Bool.false_eq_true, if_false] at hx
      · exact Or.inl ⟨_, hx.symm⟩
      cases h4 : c.CoreAttachPlugins <;> simp only [h4, Bool.not_false, Bool.not_true,
        if_true, Bool.false_eq_true, if_false] at hx
      · exact Or.inl ⟨_, hx.symm⟩
      cases h5 : (if a.netplay = true then c.CoreApplyNetplayCheats else c.CoreApplyCheats) <;>
        simp only [h5, Bool.not_false, Bool.not_true, if_true, Bool.false_eq_true,
          if_false] at hx
      · exact Or.inl ⟨_, hx.symm⟩
      cases h6 : c.CoreGetRomType with
      | none =>
        simp only [h6] at hx
        exact Or.inl ⟨_, hx.symm⟩
      | some t => exact Or.inr (by simp)
    rcases hcases _ rfl with ⟨w2, hw2⟩ | hs
    · rw [hw2] at h
      simp at h
    · exact hacq hs

/-- On the five numeric keys the forced Kaillera layer has no effect once the
overlays have run; the RSP plugin keeps the forced value. -/
theorem forced_layer_overwritten (c : Collaborators) (a : StartArgs) (w w1 : World)
    (hk : a.address = "KAILLERA") (h : worldAtExecute c a w = some w1) :
    CoreSettingsGetBoolValue w1.settings .Core_RandomizeInterrupt ""
      = CoreSettingsGetBoolValue (effectiveSettings c w.settings) .Core_RandomizeInterrupt "" ∧
    CoreSettingsGetIntValue w1.settings .Core_CPU_Emulator ""
      = CoreSettingsGetIntValue (effectiveSettings c w.settings) .Core_CPU_Emulator "" ∧
    CoreSettingsGetIntValue w1.settings .Core_CountPerOp ""
      = CoreSettingsGetIntValue w.settings .CoreOverlay_CountPerOp "" ∧
    CoreSettingsGetIntValue w1.settings .Core_CountPerOpDenomPot ""
      = CoreSettingsGetIntValue (effectiveSettings c w.settings) .Core_CountPerOpDenomPot "" ∧
    CoreSettingsGetIntValue w1.settings .Core_SiDmaDuration ""
      = CoreSettingsGetIntValue w.settings .CoreOverlay_SiDmaDuration "" ∧
    CoreSettingsGetStringValue w1.settings .Core_RSP_Plugin ""
      = (if c.WIN32 then "mupen64plus-rsp-cxd4.dll" else "mupen64plus-rsp-cxd4.so") := by
  rw [settings_at_execute c a w w1 h]
  have hf : startForce c a w =
      { w with settings := apply_kaillera_deterministic_settings c w.settings } := by
    unfold startForce
    rw [if_pos (by simp [StartArgs.netplay, StartArgs.kaillera, hk])]
  rw [hf]
  cases hrom : c.CoreGetCurrentDefaultRomSettings with
  | none =>
    cases hwin : c.WIN32 <;>
    simp [effectiveSettings, apply_game_coresettings_overlay, apply_coresettings_overlay,
      apply_kaillera_deterministic_settings, hrom, hwin, CoreSettingsGetBoolValue,
      CoreSettingsGetIntValue, CoreSettingsGetStringValue, CoreSettingsSetBool,
      CoreSettingsSetInt, CoreSettingsSetString]
  | some md5 =>
    by_cases hflag : w.settings.boolValue .Game_OverrideCoreSettings md5 = true
    · cases hwin : c.WIN32 <;>
      simp [effectiveSettings, apply_game_coresettings_overlay, apply_coresettings_overlay,
        apply_kaillera_deterministic_settings, hrom, hwin, hflag, CoreSettingsGetBoolValue,
        CoreSettingsGetIntValue, CoreSettingsGetStringValue, CoreSettingsSetBool,
        CoreSettingsSetInt, CoreSettingsSetString]
    · cases hwin : c.WIN32 <;>
      simp [effectiveSettings, apply_game_coresettings_overlay, apply_coresettings_overlay,
        apply_kaillera_deterministic_settings, hrom, hwin, hflag, CoreSettingsGetBoolValue,
        CoreSettingsGetIntValue, CoreSettingsGetStringValue, CoreSettingsSetBool,
        CoreSettingsSetInt, CoreSettingsSetString]

theorem startNetwork_trace (c : Collaborators) (a : StartArgs) (w : World) :
    (startNetwork c a w).world.trace = w.trace ++ networkEvents c a := by
  unfold startNetwork networkEvents
  split_ifs <;> simp_all

theorem startTeardown_trace (c : Collaborators) (a : StartArgs) (w : World) :
    (startTeardown c a (a.netplay && networkStep c a) w).trace
      = w.trace ++ shutdownEvents c a ++ teardownEvents := by
  unfold startTeardown shutdownEvents teardownEvents
  dsimp only
  cases a.netplay <;> cases networkStep c a <;> cases a.kaillera <;> simp

/-- A start whose acquisitions succeed, call by call: acquisitions,
configuration, network step, run (if admitted), netplay shutdown (legacy
session only), teardown, final `CoreSetError` (if the run was admitted). -/
theorem start_success_shape (c : Collaborators) (a : StartArgs) (w : World)
    (h : acquisitionsSucceed c a = true) :
    ∃ cfg run tail, newEvents w (CoreStartEmulation c a w)
        = acquisitionEvents a ++ cfg ++ networkEvents c a ++ run ++ shutdownEvents c a
          ++ teardownEvents ++ tail ∧
      releases cfg = [] ∧ executeCalls cfg = 0 ∧
      ((!a.netplay || networkStep c a) = false → run = [] ∧ tail = []) := by
  obtain ⟨type, _, hacq⟩ := startAcquire_ready c a w h
  obtain ⟨ev1, h1, r1, x1⟩ := startConfigure_events c a type
    (List.foldl (World.call c) (startForce c a w) (acquisitionEvents a))
  have h2 := startNetwork_trace c a (startConfigure c a type
    (List.foldl (World.call c) (startForce c a w) (acquisitionEvents a)))
  obtain ⟨ev3, h3, _, _⟩ := startRun_events c a (startNetwork c a (startConfigure c a type
    (List.foldl (World.call c) (startForce c a w) (acquisitionEvents a))))
  have hnr := startNetwork_ret c a (startConfigure c a type
    (List.foldl (World.call c) (startForce c a w) (acquisitionEvents a)))
  have hc := startNetwork_run_cond c a (startConfigure c a type
    (List.foldl (World.call c) (startForce c a w) (acquisitionEvents a)))
  rw [foldl_call_trace, startForce_trace] at h1
  rw [h1] at h2
  rw [h2] at h3
  unfold CoreStartEmulation
  rw [hacq]
  dsimp only
  rw [hnr, ← hnr, hc]
  by_cases hrun : (!a.netplay || networkStep c a) = true
  · rw [if_pos hrun]
    refine ⟨ev1, ev3, [Event.CoreSetError (startRun c a (startNetwork c a
      (startConfigure c a type (List.foldl (World.call c) (startForce c a w)
        (acquisitionEvents a))))).error], ?_, r1, x1, fun hf => ?_⟩
    · apply newEvents_of_trace
      rw [setError_trace, hnr, startTeardown_trace, h3]
      simp only [List.append_assoc]
    · rw [hrun] at hf
      exact absurd hf (by decide)
  · rw [if_neg hrun]
    have hskip : (startRun c a (startNetwork c a (startConfigure c a type
        (List.foldl (World.call c) (startForce c a w) (acquisitionEvents a))))).world
        = (startNetwork c a (startConfigure c a type
          (List.foldl (World.call c) (startForce c a w) (acquisitionEvents a)))).world := by
      unfold startRun
      rw [hc, if_neg hrun]
    refine ⟨ev1, [], [], ?_, r1, x1, fun _ => ⟨rfl, rfl⟩⟩
    apply newEvents_of_trace
    dsimp only
    rw [hnr, startTeardown_trace, hskip, h2]
    simp only [List.append_assoc, List.append_nil]

/-- Whatever the arguments and the collaborators answer, the first call of
`CoreStartEmulation` is `CoreOpenRom`. -/
theorem start_first_event (c : Collaborators) (a : StartArgs) (w : World) :
    ∃ rest, newEvents w (CoreStartEmulation c a w) = Event.CoreOpenRom a.n64rom :: rest := by
  by_cases hacq : acquisitionsSucceed c a = true
  · obtain ⟨mid, tail, hev, _⟩ := start_success_events c a w hacq
    rw [hev]
    exact ⟨[Event.CoreApplyRomPluginSettings, Event.CoreArePluginsReady,
      Event.CoreAttachPlugins, cheatEvent a, Event.CoreGetRomType] ++ mid ++ teardownEvents
        ++ tail, by simp [acquisitionEvents]⟩
  · obtain ⟨f1, f2, f3, f4, f5, f6⟩ := start_early_failure c a w
    by_cases h1 : c.CoreOpenRom = true
    · by_cases h2 : c.CoreApplyRomPluginSettings = true
      · by_cases h3 : c.CoreArePluginsReady = true
        · by_cases h4 : c.CoreAttachPlugins = true
          · by_cases h5 : cheatsApplied c a = true
            · cases h6 : c.CoreGetRomType with
              | none => exact ⟨_, (f6 h1 h2 h3 h4 h5 h6).1⟩
              | some type =>
                exact absurd ((acquisitionsSucceed_iff c a).2
                  ⟨h1, h2, h3, h4, h5, by simp [h6]⟩) hacq
            · exact ⟨_, (f5 h1 h2 h3 h4 (by simpa using h5)).1⟩
          · exact ⟨_, (f4 h1 h2 h3 (by simpa using h4)).1⟩
        · exact ⟨_, (f3 h1 h2 (by simpa using h3)).1⟩
      · exact ⟨_, (f2 h1 (by simpa using h2)).1⟩
    · exact ⟨_, (f1 (by simpa using h1)).1⟩

theorem sessionValid_of_player (env : KailleraEnv)
    (h : env.CoreHasInitKaillera = false ∨ env.CoreGetKailleraPlayerNumber < 1 ∨
      env.CoreGetKailleraPlayerNumber > 8) : sessionValid env = false := by
  cases hv : sessionValid env
  · rfl
  · obtain ⟨h1, h2⟩ := (sessionValid_iff env).1 hv
    rcases h with h | h | h
    · rw [h1] at h
      exact absurd h (by decide)
    · exact absurd (Or.inl h) h2
    · exact absurd (Or.inr h) h2

/-- With an invalid session the callback returns at once. -/
theorem poll_of_invalid (env : KailleraEnv) (w : World) (p : pif)
    (h : sessionValid env = false) : KailleraPifSyncCallback env w p = ⟨w, some p⟩ := by
  unfold KailleraPifSyncCallback
  rw [syncPhase_of_invalid env w p h]
  rfl

theorem kaillera_flags (a : StartArgs) (hk : a.address = "KAILLERA") :
    a.netplay = true ∧ a.kaillera = true := by
  simp [StartArgs.netplay, StartArgs.kaillera, hk]

/-! ## Start-time checks -/

/-- C15 as stated fails: a Kaillera start with player number 0 is not
rejected.  With the session established and every collaborator succeeding it
opens the ROM, attaches the plugins, applies the netplay cheats, stores player
number 0, issues the run command and returns `true`. -/
theorem player_number_rejection_counterexample :
    newEvents initialWorld (CoreStartEmulation okCollaborators player0Args initialWorld) =
      [Event.CoreOpenRom "game.z64", Event.CoreApplyRomPluginSettings,
        Event.CoreArePluginsReady, Event.CoreAttachPlugins, Event.CoreApplyNetplayCheats,
        Event.CoreGetRomType, Event.CoreMediaLoaderSetDiskFile "",
        Event.CoreSetKailleraPlayerNumber 0,
        Event.DoCommand .M64CMD_SET_FRAME_CALLBACK 0, Event.set_pif_sync_callback,
        Event.DoCommand .M64CMD_EXECUTE 0,
        Event.CoreClearCheats, Event.CoreDetachPlugins, Event.CoreCloseRom,
        Event.CoreApplyPluginSettings, Event.CoreResetMediaLoader, Event.CoreSetError ""] ∧
    (CoreStartEmulation okCollaborators player0Args initialWorld).ret = true := by
  exact ⟨by rfl, by rfl⟩

/-- C15, amended.  `CoreStartEmulation` makes no check of the player number:
for every player number its first call is `CoreOpenRom`; in Kaillera mode
with the session established and every acquisition succeeding it stores the
number it was given with `CoreSetKailleraPlayerNumber`, issues the run command
once and returns whether the engine succeeded.  A player number outside 1..8
is rejected only by `KailleraPifSyncCallback`, which then returns without
calling the exchange and without touching the cache or the PIF memory. -/
theorem player_number_not_checked_at_start (c : Collaborators) (a : StartArgs) (w : World)
    (env : KailleraEnv) (wp : World) (p : pif) :
    (∃ rest, newEvents w (CoreStartEmulation c a w) = Event.CoreOpenRom a.n64rom :: rest) ∧
    (a.address = "KAILLERA" → c.CoreOpenRom = true → c.CoreApplyRomPluginSettings = true →
      c.CoreArePluginsReady = true → c.CoreAttachPlugins = true →
      c.CoreApplyNetplayCheats = true → c.CoreGetRomType.isSome = true →
      c.CoreHasInitKaillera = true →
      Event.CoreSetKailleraPlayerNumber a.player ∈ newEvents w (CoreStartEmulation c a w) ∧
      executeCalls (newEvents w (CoreStartEmulation c a w)) = 1 ∧
      ((CoreStartEmulation c a w).ret = true ↔
        c.DoCommand .M64CMD_EXECUTE = .M64ERR_SUCCESS)) ∧
    ((env.CoreGetKailleraPlayerNumber < 1 ∨ env.CoreGetKailleraPlayerNumber > 8) →
      (KailleraPifSyncCallback env wp p).world = wp ∧
      (KailleraPifSyncCallback env wp p).pif = some p) := by
  refine ⟨start_first_event c a w, ?_, ?_⟩
  · intro hk h1 h2 h3 h4 h5 h6 hinit
    obtain ⟨hnp, hkl⟩ := kaillera_flags a hk
    have hch : cheatsApplied c a = true := by
      unfold cheatsApplied
      rw [if_pos hnp]
      exact h5
    have hacq := (acquisitionsSucceed_iff c a).2 ⟨h1, h2, h3, h4, hch, h6⟩
    have hns : networkStep c a = true := by
      unfold networkStep
      rw [if_pos hkl]
      exact hinit
    have hr : (!a.netplay || networkStep c a) = true := by
      rw [hns]
      simp
    obtain ⟨cfg, run, tail, hev, _⟩ := start_success_shape c a w hacq
    have hne : networkEvents c a = [Event.CoreSetKailleraPlayerNumber a.player] := by
      unfold networkEvents
      rw [if_pos hnp, if_pos hkl, if_pos hinit]
    refine ⟨?_, ?_, (start_run_result c a w hacq hr).1⟩
    · rw [hev, hne]
      simp
    · rw [start_success_executeCalls c a w hacq, if_pos hr]
  · intro hp
    rw [poll_of_invalid env wp p (sessionValid_of_player env (Or.inr hp))]
    exact ⟨rfl, rfl⟩

/-- C15 at concrete inputs: a Kaillera start as player 0 stores 0 and runs; a
poll answered with player number 9 is passed through. -/
theorem player_number_not_checked_at_start_witness :
    Event.CoreSetKailleraPlayerNumber 0
      ∈ newEvents initialWorld (CoreStartEmulation okCollaborators player0Args initialWorld) ∧
    (KailleraPifSyncCallback player9Env syncedWorld scenarioPif).world = syncedWorld :=
  ⟨((player_number_not_checked_at_start okCollaborators player0Args initialWorld
      player9Env syncedWorld scenarioPif).2.1 rfl rfl rfl rfl rfl rfl rfl rfl).1,
    ((player_number_not_checked_at_start okCollaborators player0Args initialWorld
      player9Env syncedWorld scenarioPif).2.2 (Or.inr (by decide))).1⟩

/-- C16 as stated fails: in a Kaillera start with no session established the
ROM is opened, the plugins are attached and the netplay cheats are applied
before the missing session is noticed; the call that records it is the eighth
of the start. -/
theorem session_check_counterexample :
    Event.CoreOpenRom "game.z64" ∈ newEvents initialWorld
      (CoreStartEmulation noKailleraCollaborators kailleraArgs initialWorld) ∧
    Event.CoreAttachPlugins ∈ newEvents initialWorld
      (CoreStartEmulation noKailleraCollaborators kailleraArgs initialWorld) ∧
    Event.CoreApplyNetplayCheats ∈ newEvents initialWorld
      (CoreStartEmulation noKailleraCollaborators kailleraArgs initialWorld) ∧
    (newEvents initialWorld
      (CoreStartEmulation noKailleraCollaborators kailleraArgs initialWorld)).take 8 =
      [Event.CoreOpenRom "game.z64", Event.CoreApplyRomPluginSettings,
        Event.CoreArePluginsReady, Event.CoreAttachPlugins, Event.CoreApplyNetplayCheats,
        Event.CoreGetRomType, Event.CoreMediaLoaderSetDiskFile "",
        Event.CoreSetError "CoreStartEmulation: Kaillera not initialized"] := by
  refine ⟨by decide, by decide, by decide, by rfl⟩

/-- C16, amended.  In a Kaillera start with no session established the
missing session is noticed at the network step, after the acquisitions: the
first call is `CoreOpenRom`, the run command is never issued and the function
returns `false`; when every acquisition succeeds the calls are the six
acquisitions, configuration calls, `CoreSetError("CoreStartEmulation: Kaillera
not initialized")`, and the five teardown calls. -/
theorem session_check_after_acquisition (c : Collaborators) (a : StartArgs) (w : World)
    (hk : a.address = "KAILLERA") (hs : c.CoreHasInitKaillera = false) :
    (∃ rest, newEvents w (CoreStartEmulation c a w) = Event.CoreOpenRom a.n64rom :: rest) ∧
    executeCalls (newEvents w (CoreStartEmulation c a w)) = 0 ∧
    (CoreStartEmulation c a w).ret = false ∧
    (c.CoreOpenRom = true → c.CoreApplyRomPluginSettings = true →
      c.CoreArePluginsReady = true → c.CoreAttachPlugins = true →
      c.CoreApplyNetplayCheats = true → c.CoreGetRomType.isSome = true →
      ∃ cfg, newEvents w (CoreStartEmulation c a w) =
          [Event.CoreOpenRom a.n64rom, Event.CoreApplyRomPluginSettings,
            Event.CoreArePluginsReady, Event.CoreAttachPlugins, Event.CoreApplyNetplayCheats,
            Event.CoreGetRomType] ++ cfg ++
          [Event.CoreSetError "CoreStartEmulation: Kaillera not initialized"] ++
          [Event.CoreClearCheats, Event.CoreDetachPlugins, Event.CoreCloseRom,
            Event.CoreApplyPluginSettings, Event.CoreResetMediaLoader] ∧
        releases cfg = [] ∧ executeCalls cfg = 0) := by
  obtain ⟨hnp, hkl⟩ := kaillera_flags a hk
  have hns : networkStep c a = false := by
    unfold networkStep
    rw [if_pos hkl]
    exact hs
  have hr : (!a.netplay || networkStep c a) = false := by
    rw [hnp, hns]
    rfl
  refine ⟨start_first_event c a w, ?_, ?_, ?_⟩
  · by_cases hacq : acquisitionsSucceed c a = true
    · rw [start_success_executeCalls c a w hacq, hr]
      rfl
    · exact (start_failure_quiet c a w (by simpa using hacq)).1
  · by_cases hacq : acquisitionsSucceed c a = true
    · exact start_ret_network_failure c a w hacq hnp hns
    · exact (start_failure_quiet c a w (by simpa using hacq)).2
  · intro h1 h2 h3 h4 h5 h6
    have hch : cheatsApplied c a = true := by
      unfold cheatsApplied
      rw [if_pos hnp]
      exact h5
    have hacq := (acquisitionsSucceed_iff c a).2 ⟨h1, h2, h3, h4, hch, h6⟩
    obtain ⟨cfg, run, tail, hev, r1, x1, hskip⟩ := start_success_shape c a w hacq
    obtain ⟨hrun, htail⟩ := hskip hr
    have hne : networkEvents c a =
        [Event.CoreSetError "CoreStartEmulation: Kaillera not initialized"] := by
      unfold networkEvents
      rw [if_pos hnp, if_pos hkl, if_neg (by rw [hs]; decide)]
    have hsd : shutdownEvents c a = [] := by
      unfold shutdownEvents
      rw [hns]
      simp
    have hae : acquisitionEvents a =
        [Event.CoreOpenRom a.n64rom, Event.CoreApplyRomPluginSettings,
          Event.CoreArePluginsReady, Event.CoreAttachPlugins, Event.CoreApplyNetplayCheats,
          Event.CoreGetRomType] := by
      unfold acquisitionEvents cheatEvent
      rw [if_pos hnp]
    refine ⟨cfg, ?_, r1, x1⟩
    rw [hev, hne, hsd, hrun, htail, hae]
    simp [teardownEvents]

/-- C16 at a concrete run: the Kaillera start of the fixtures with no session
established issues no run command and returns `false`. -/
theorem session_check_after_acquisition_witness :
    kailleraArgs.address = "KAILLERA" ∧ noKailleraCollaborators.CoreHasInitKaillera = false ∧
    executeCalls (newEvents initialWorld
      (CoreStartEmulation noKailleraCollaborators kailleraArgs initialWorld)) = 0 ∧
    (CoreStartEmulation noKailleraCollaborators kailleraArgs initialWorld).ret = false :=
  ⟨rfl, rfl,
    (session_check_after_acquisition noKailleraCollaborators kailleraArgs initialWorld
      rfl rfl).2.1,
    (session_check_after_acquisition noKailleraCollaborators kailleraArgs initialWorld
      rfl rfl).2.2.1⟩

/-- C20 (inactive or invalid player is a pass-through).  When Kaillera is not
initialised, or the player number is below 1 or above 8, a poll leaves the
whole state as it is (cache, flags and trace, so the exchange is called zero
times) and returns the PIF memory it was given, for every cache and every
channel contents. -/
theorem inactive_pass_through (env : KailleraEnv) (w : World) (p : pif)
    (h : env.CoreHasInitKaillera = false ∨ env.CoreGetKailleraPlayerNumber < 1 ∨
      env.CoreGetKailleraPlayerNumber > 8) :
    (KailleraPifSyncCallback env w p).world = w ∧
    (KailleraPifSyncCallback env w p).pif = some p ∧
    exchangeCalls (KailleraPifSyncCallback env w p).world.trace = exchangeCalls w.trace := by
  rw [poll_of_invalid env w p (sessionValid_of_player env h)]
  exact ⟨rfl, rfl, rfl⟩

/-- C20 at concrete polls: the scenario's controller read over a non-empty
cache in a fresh frame, once without Kaillera and once as player 9. -/
theorem inactive_pass_through_witness :
    (inactiveEnv.CoreHasInitKaillera = false ∨ inactiveEnv.CoreGetKailleraPlayerNumber < 1 ∨
      inactiveEnv.CoreGetKailleraPlayerNumber > 8) ∧
    (KailleraPifSyncCallback inactiveEnv (FrameCallback 6 syncedWorld) scenarioPif).pif
      = some scenarioPif ∧
    exchangeCalls (KailleraPifSyncCallback player9Env (FrameCallback 6 syncedWorld)
      scenarioPif).world.trace = exchangeCalls (FrameCallback 6 syncedWorld).trace :=
  ⟨Or.inl rfl,
    (inactive_pass_through inactiveEnv (FrameCallback 6 syncedWorld) scenarioPif
      (Or.inl rfl)).2.1,
    (inactive_pass_through player9Env (FrameCallback 6 syncedWorld) scenarioPif
      (Or.inr (Or.inr (by decide)))).2.2⟩

/-! ## Stop, pause, resume, reset -/

theorem eventsSince_of_trace (w w1 : World) (ev : List Event)
    (h : w1.trace = w.trace ++ ev) : eventsSince w w1 = ev := by
  unfold eventsSince
  rw [h, List.drop_left]

theorem get_emulation_state_trace (env : ControlEnv) (k : Nat) (st : m64p_emu_state)
    (w : World) : (get_emulation_state env k st w).world.trace = w.trace ++ queryEvents env k := by
  unfold get_emulation_state queryEvents
  cases env.IsHooked
  · simp
  · by_cases hq : (env.stateQuery k).1 ≠ .M64ERR_SUCCESS
    · simp [hq]
    · simp [hq]

theorem running_trace (env : ControlEnv) (k : Nat) (w : World) :
    (CoreIsEmulationRunning env k w).world.trace = w.trace ++ queryEvents env k :=
  get_emulation_state_trace env k _ w

theorem paused_trace (env : ControlEnv) (k : Nat) (w : World) :
    (CoreIsEmulationPaused env k w).world.trace = w.trace ++ queryEvents env k :=
  get_emulation_state_trace env k _ w

theorem errorRecorded_setError (w : World) (m : String) : errorRecorded (CoreSetError w m) m := by
  unfold errorRecorded CoreSetError
  exact ⟨rfl, by simp⟩

/-- C17 (pause and resume forbidden while networked, stop always allowed).
With a netplay or Kaillera session initialised, `CorePauseEmulation` and
`CoreResumeEmulation` return `false` and leave the state as it is (no engine
command, not even a state query), whatever the emulation state.  With the
engine hooked, `CoreStopEmulation` issues `M64CMD_STOP` as its only engine
command, whatever the sessions and the emulation state, and returns `true`
if and only if the engine answers `M64ERR_SUCCESS`. -/
theorem pause_resume_forbidden_stop_allowed (env : ControlEnv) (w : World) :
    ((env.CoreHasInitNetplay = true ∨ env.CoreHasInitKaillera = true) →
      CorePauseEmulation env w = ⟨w, false⟩ ∧ CoreResumeEmulation env w = ⟨w, false⟩) ∧
    (env.IsHooked = true →
      engineCommands (eventsSince w (CoreStopEmulation env w).world)
        = [Event.DoCommand .M64CMD_STOP 0] ∧
      ((CoreStopEmulation env w).ret = true ↔
        env.DoCommand .M64CMD_STOP = .M64ERR_SUCCESS)) := by
  constructor
  · intro hnet
    have hn : (env.CoreHasInitNetplay || env.CoreHasInitKaillera) = true := by
      rcases hnet with h | h <;> simp [h]
    unfold CorePauseEmulation CoreResumeEmulation
    cases env.IsHooked
    · exact ⟨rfl, rfl⟩
    · simp [hn]
  · intro hh
    unfold CoreStopEmulation
    rw [if_neg (by simp [hh])]
    dsimp only
    by_cases hs : env.DoCommand .M64CMD_STOP ≠ .M64ERR_SUCCESS
    · rw [if_pos hs]
      refine ⟨?_, ?_⟩
      · rw [eventsSince_of_trace w _ [Event.DoCommand .M64CMD_STOP 0,
          Event.CoreSetError ("CoreStopEmulation m64p::Core.DoCommand(M64CMD_STOP) Failed: " ++
            env.ErrorMessage (env.DoCommand .M64CMD_STOP))] (by simp)]
        rfl
      · constructor
        · intro h
          exact absurd h Bool.false_ne_true
        · intro h
          exact absurd h hs
    · rw [if_neg hs]
      refine ⟨?_, ?_⟩
      · rw [eventsSince_of_trace w _ [Event.DoCommand .M64CMD_STOP 0,
          Event.CoreSetKailleraPlayerNumber 0] (by simp)]
        rfl
      · constructor
        · intro _
          by_contra hne
          exact hs hne
        · intro _
          rfl

/-- C17 at concrete states: with Kaillera initialised pause and resume are
refused while running, and stop is issued and accepted. -/
theorem pause_resume_forbidden_stop_allowed_witness :
    CorePauseEmulation kailleraRunningEnv initialWorld = ⟨initialWorld, false⟩ ∧
    CoreResumeEmulation kailleraRunningEnv initialWorld = ⟨initialWorld, false⟩ ∧
    engineCommands (eventsSince initialWorld
      (CoreStopEmulation kailleraRunningEnv initialWorld).world)
      = [Event.DoCommand .M64CMD_STOP 0] :=
  ⟨((pause_resume_forbidden_stop_allowed kailleraRunningEnv initialWorld).1 (Or.inr rfl)).1,
    ((pause_resume_forbidden_stop_allowed kailleraRunningEnv initialWorld).1 (Or.inr rfl)).2,
    ((pause_resume_forbidden_stop_allowed kailleraRunningEnv initialWorld).2 rfl).1⟩

theorem commandCalls_append (cmd : M64Cmd) (x y : List Event) :
    commandCalls cmd (x ++ y) = commandCalls cmd x ++ commandCalls cmd y := by
  simp [commandCalls]

theorem commandCalls_queryEvents (env : ControlEnv) (k : Nat) (cmd : M64Cmd)
    (h : cmd ≠ .M64CMD_CORE_STATE_QUERY) : commandCalls cmd (queryEvents env k) = [] := by
  have h1 : ¬ (M64Cmd.M64CMD_CORE_STATE_QUERY = cmd) := fun e => h e.symm
  unfold queryEvents commandCalls
  split_ifs <;> simp [h1]

theorem reset_message_paused :
    "CoreResetEmulation Failed: " ++ "cannot reset emulation when paused!"
      = "CoreResetEmulation Failed: cannot reset emulation when paused!" := by
  decide

theorem reset_message_not_running :
    "CoreResetEmulation Failed: " ++ "cannot reset emulation when emulation isn't running!"
      = "CoreResetEmulation Failed: cannot reset emulation when emulation isn't running!" := by
  decide

theorem pause_message_not_running :
    "CorePauseEmulation Failed: " ++ "cannot pause emulation when emulation isn't running!"
      = "CorePauseEmulation Failed: cannot pause emulation when emulation isn't running!" := by
  decide

theorem resume_message_not_paused :
    "CoreIsEmulationPaused Failed: " ++ "cannot resume emulation when emulation isn't paused!"
      = "CoreIsEmulationPaused Failed: cannot resume emulation when emulation isn't paused!" := by
  decide

/-- `CoreResetEmulation` with the engine hooked, by case: paused, not running,
or the command issued. -/
theorem reset_cases (env : ControlEnv) (hard : Bool) (w : World) (hh : env.IsHooked = true) :
    ((CoreIsEmulationPaused env 0 w).ret = true →
      (CoreResetEmulation env hard w).ret = false ∧
      errorRecorded (CoreResetEmulation env hard w).world
        "CoreResetEmulation Failed: cannot reset emulation when paused!" ∧
      eventsSince w (CoreResetEmulation env hard w).world = queryEvents env 0 ++
        [Event.CoreSetError "CoreResetEmulation Failed: cannot reset emulation when paused!"]) ∧
    ((CoreIsEmulationPaused env 0 w).ret = false →
      (CoreIsEmulationRunning env 1 (CoreIsEmulationPaused env 0 w).world).ret = false →
      (CoreResetEmulation env hard w).ret = false ∧
      errorRecorded (CoreResetEmulation env hard w).world
        "CoreResetEmulation Failed: cannot reset emulation when emulation isn't running!" ∧
      eventsSince w (CoreResetEmulation env hard w).world = queryEvents env 0 ++
        queryEvents env 1 ++ [Event.CoreSetError
          "CoreResetEmulation Failed: cannot reset emulation when emulation isn't running!"]) ∧
    ((CoreIsEmulationPaused env 0 w).ret = false →
      (CoreIsEmulationRunning env 1 (CoreIsEmulationPaused env 0 w).world).ret = true →
      ((CoreResetEmulation env hard w).ret = true ↔
        env.DoCommand .M64CMD_RESET = .M64ERR_SUCCESS) ∧
      ((CoreResetEmulation env hard w).ret = false →
        errorRecorded (CoreResetEmulation env hard w).world
          ("CoreResetEmulation m64p::Core.DoCommand(M64CMD_RESET) Failed: " ++
            env.ErrorMessage (env.DoCommand .M64CMD_RESET))) ∧
      ∃ tail, eventsSince w (CoreResetEmulation env hard w).world = queryEvents env 0 ++
        queryEvents env 1 ++ Event.DoCommand .M64CMD_RESET (hardFlag hard) :: tail ∧
        ∀ cmd, commandCalls cmd tail = []) := by
  refine ⟨?_, ?_, ?_⟩
  · intro hp
    unfold CoreResetEmulation
    rw [if_neg (by simp [hh]), if_pos hp, reset_message_paused]
    refine ⟨rfl, errorRecorded_setError _ _, ?_⟩
    apply eventsSince_of_trace
    rw [setError_trace, paused_trace]
    simp only [List.append_assoc]
  · intro hp hr
    unfold CoreResetEmulation
    rw [if_neg (by simp [hh]), if_neg (by simp [hp]), if_pos (by simp [hr]),
      reset_message_not_running]
    refine ⟨rfl, errorRecorded_setError _ _, ?_⟩
    apply eventsSince_of_trace
    rw [setError_trace, running_trace, paused_trace]
    simp only [List.append_assoc]
  · intro hp hr
    unfold CoreResetEmulation
    rw [if_neg (by simp [hh]), if_neg (by simp [hp]), if_neg (by simp [hr])]
    dsimp only
    by_cases hx : env.DoCommand .M64CMD_RESET ≠ .M64ERR_SUCCESS
    · rw [if_pos hx]
      refine ⟨⟨fun h => absurd h Bool.false_ne_true, fun h => absurd h hx⟩,
        fun _ => errorRecorded_setError _ _, ?_⟩
      refine ⟨[Event.CoreSetError
        ("CoreResetEmulation m64p::Core.DoCommand(M64CMD_RESET) Failed: " ++
          env.ErrorMessage (env.DoCommand .M64CMD_RESET))], ?_, fun cmd => rfl⟩
      apply eventsSince_of_trace
      rw [setError_trace, emit_trace, running_trace, paused_trace]
      simp
    · rw [if_neg hx]
      have hs : env.DoCommand .M64CMD_RESET = .M64ERR_SUCCESS := by
        by_contra hne
        exact hx hne
      refine ⟨⟨fun _ => hs, fun _ => rfl⟩, fun h => absurd h (by simp), ?_⟩
      refine ⟨[], ?_, fun cmd => rfl⟩
      apply eventsSince_of_trace
      rw [emit_trace, running_trace, paused_trace]
      simp only [List.append_assoc]

/-- C18 as stated fails in its last clause.  With the emulation paused,
`CoreResetEmulation` does issue an engine command, the state query; and with
the engine not hooked, where the emulation is not running, it returns `false`
without recording any error. -/
theorem reset_gating_counterexample :
    (CoreIsEmulationPaused pausedEnv 0 initialWorld).ret = true ∧
    (CoreResetEmulation pausedEnv true initialWorld).ret = false ∧
    engineCommands (eventsSince initialWorld
      (CoreResetEmulation pausedEnv true initialWorld).world)
      = [Event.DoCommand .M64CMD_CORE_STATE_QUERY 1] ∧
    (CoreIsEmulationRunning unhookedEnv 0 initialWorld).ret = false ∧
    (CoreResetEmulation unhookedEnv true initialWorld).ret = false ∧
    (CoreResetEmulation unhookedEnv true initialWorld).world.trace = [] ∧
    (CoreResetEmulation unhookedEnv true initialWorld).world.lastError = "" := by
  refine ⟨by rfl, by rfl, by rfl, by rfl, by rfl, by rfl, by rfl⟩

/-- C18 (reset gating), amended.  `CoreResetEmulation(hard)` issues
`M64CMD_RESET` if and only if the engine is hooked, `CoreIsEmulationPaused`
answers `false` and `CoreIsEmulationRunning` answers `true`; it is then issued
once, with parameter 1 for a hard reset and 0 for a soft one, and the result
is `true` if and only if the engine answers `M64ERR_SUCCESS`.  With the engine
hooked and the emulation paused or not running, it returns `false`, records
an error naming the reset, and issues no engine command other than the state
queries.  With the engine not hooked it returns `false` and leaves the state
as it is. -/
theorem reset_gating (env : ControlEnv) (hard : Bool) (w : World) :
    (commandCalls .M64CMD_RESET (eventsSince w (CoreResetEmulation env hard w).world)
        = [hardFlag hard] ↔
      (env.IsHooked = true ∧ (CoreIsEmulationPaused env 0 w).ret = false ∧
        (CoreIsEmulationRunning env 1 (CoreIsEmulationPaused env 0 w).world).ret = true)) ∧
    (commandCalls .M64CMD_RESET (eventsSince w (CoreResetEmulation env hard w).world)
        = [hardFlag hard] ∨
      commandCalls .M64CMD_RESET (eventsSince w (CoreResetEmulation env hard w).world) = []) ∧
    (hardFlag true = 1 ∧ hardFlag false = 0) ∧
    (env.IsHooked = true → (CoreIsEmulationPaused env 0 w).ret = false →
      (CoreIsEmulationRunning env 1 (CoreIsEmulationPaused env 0 w).world).ret = true →
      ((CoreResetEmulation env hard w).ret = true ↔
        env.DoCommand .M64CMD_RESET = .M64ERR_SUCCESS)) ∧
    (env.IsHooked = true → (CoreIsEmulationPaused env 0 w).ret = true →
      (CoreResetEmulation env hard w).ret = false ∧
      errorRecorded (CoreResetEmulation env hard w).world
        "CoreResetEmulation Failed: cannot reset emulation when paused!" ∧
      ∀ cmd, cmd ≠ M64Cmd.M64CMD_CORE_STATE_QUERY →
        commandCalls cmd (eventsSince w (CoreResetEmulation env hard w).world) = []) ∧
    (env.IsHooked = true → (CoreIsEmulationPaused env 0 w).ret = false →
      (CoreIsEmulationRunning env 1 (CoreIsEmulationPaused env 0 w).world).ret = false →
      (CoreResetEmulation env hard w).ret = false ∧
      errorRecorded (CoreResetEmulation env hard w).world
        "CoreResetEmulation Failed: cannot reset emulation when emulation isn't running!" ∧
      ∀ cmd, cmd ≠ M64Cmd.M64CMD_CORE_STATE_QUERY →
        commandCalls cmd (eventsSince w (CoreResetEmulation env hard w).world) = []) ∧
    (env.IsHooked = false → CoreResetEmulation env hard w = ⟨w, false⟩) := by
  have hunhooked : env.IsHooked = false → CoreResetEmulation env hard w = ⟨w, false⟩ := by
    intro hh
    unfold CoreResetEmulation
    rw [if_pos (by simp [hh])]
  have hq : ∀ k, commandCalls .M64CMD_RESET (queryEvents env k) = [] :=
    fun k => commandCalls_queryEvents env k _ (by decide)
  have hcalls : env.IsHooked = true →
      (((CoreIsEmulationPaused env 0 w).ret = false ∧
        (CoreIsEmulationRunning env 1 (CoreIsEmulationPaused env 0 w).world).ret = true) →
        commandCalls .M64CMD_RESET (eventsSince w (CoreResetEmulation env hard w).world)
          = [hardFlag hard]) ∧
      (¬ ((CoreIsEmulationPaused env 0 w).ret = false ∧
        (CoreIsEmulationRunning env 1 (CoreIsEmulationPaused env 0 w).world).ret = true) →
        commandCalls .M64CMD_RESET (eventsSince w (CoreResetEmulation env hard w).world)
          = []) := by
    intro hh
    obtain ⟨c1, c2, c3⟩ := reset_cases env hard w hh
    constructor
    · rintro ⟨hp, hr⟩
      obtain ⟨_, _, tail, hev, htail⟩ := c3 hp hr
      rw [hev]
      simp only [commandCalls_append, hq, List.nil_append]
      have : commandCalls .M64CMD_RESET (Event.DoCommand .M64CMD_RESET (hardFlag hard) :: tail)
          = hardFlag hard :: commandCalls .M64CMD_RESET tail := by
        simp [commandCalls]
      rw [this, htail]
    · intro hn
      cases hp : (CoreIsEmulationPaused env 0 w).ret
      · cases hr : (CoreIsEmulationRunning env 1 (CoreIsEmulationPaused env 0 w).world).ret
        · rw [(c2 hp hr).2.2]
          simp only [commandCalls_append, hq, List.nil_append]
          rfl
        · exact absurd ⟨hp, hr⟩ hn
      · rw [(c1 hp).2.2]
        simp only [commandCalls_append, hq, List.nil_append]
        rfl
  have hnone : env.IsHooked = false →
      commandCalls .M64CMD_RESET (eventsSince w (CoreResetEmulation env hard w).world) = [] := by
    intro hh
    rw [hunhooked hh, eventsSince_of_trace w _ [] (by simp)]
    rfl
  refine ⟨?_, ?_, ⟨rfl, rfl⟩, ?_, ?_, ?_, hunhooked⟩
  · constructor
    · intro hc
      cases hh : env.IsHooked
      · rw [hnone hh] at hc
        exact absurd hc (by simp)
      · by_cases hcond : (CoreIsEmulationPaused env 0 w).ret = false ∧
            (CoreIsEmulationRunning env 1 (CoreIsEmulationPaused env 0 w).world).ret = true
        · exact ⟨rfl, hcond⟩
        · rw [((hcalls hh).2 hcond)] at hc
          exact absurd hc (by simp)
    · rintro ⟨hh, hp, hr⟩
      exact (hcalls hh).1 ⟨hp, hr⟩
  · cases hh : env.IsHooked
    · exact Or.inr (hnone hh)
    · by_cases hcond : (CoreIsEmulationPaused env 0 w).ret = false ∧
          (CoreIsEmulationRunning env 1 (CoreIsEmulationPaused env 0 w).world).ret = true
      · exact Or.inl ((hcalls hh).1 hcond)
      · exact Or.inr ((hcalls hh).2 hcond)
  · intro hh hp hr
    exact ((reset_cases env hard w hh).2.2 hp hr).1
  · intro hh hp
    obtain ⟨h1, h2, h3⟩ := (reset_cases env hard w hh).1 hp
    refine ⟨h1, h2, fun cmd hcmd => ?_⟩
    rw [h3, commandCalls_append, commandCalls_queryEvents env 0 cmd hcmd]
    rfl
  · intro hh hp hr
    obtain ⟨h1, h2, h3⟩ := (reset_cases env hard w hh).2.1 hp hr
    refine ⟨h1, h2, fun cmd hcmd => ?_⟩
    rw [h3, commandCalls_append, commandCalls_append, commandCalls_queryEvents env 0 cmd hcmd,
      commandCalls_queryEvents env 1 cmd hcmd]
    rfl

/-- C18 at concrete states: a hard reset while running is issued with
parameter 1 and accepted; while paused it is refused with the paused error. -/
theorem reset_gating_witness :
    commandCalls .M64CMD_RESET (eventsSince initialWorld
      (CoreResetEmulation runningEnv true initialWorld).world) = [1] ∧
    (CoreResetEmulation runningEnv true initialWorld).ret = true ∧
    (CoreResetEmulation pausedEnv false initialWorld).ret = false ∧
    errorRecorded (CoreResetEmulation pausedEnv false initialWorld).world
      "CoreResetEmulation Failed: cannot reset emulation when paused!" :=
  ⟨(reset_gating runningEnv true initialWorld).1.2 ⟨rfl, rfl, rfl⟩,
    ((reset_gating runningEnv true initialWorld).2.2.2.1 rfl rfl rfl).2 rfl,
    ((reset_gating pausedEnv false initialWorld).2.2.2.2.1 rfl rfl).1,
    ((reset_gating pausedEnv false initialWorld).2.2.2.2.1 rfl rfl).2.1⟩

/-- A failing `CoreStopEmulation` with the engine hooked records the stop
error. -/
theorem stop_failure (env : ControlEnv) (w : World) (hh : env.IsHooked = true)
    (hf : (CoreStopEmulation env w).ret = false) :
    errorRecorded (CoreStopEmulation env w).world
      ("CoreStopEmulation m64p::Core.DoCommand(M64CMD_STOP) Failed: " ++
        env.ErrorMessage (env.DoCommand .M64CMD_STOP)) := by
  unfold CoreStopEmulation at hf ⊢
  rw [if_neg (by simp [hh])] at hf ⊢
  dsimp only at hf ⊢
  by_cases hs : env.DoCommand .M64CMD_STOP ≠ .M64ERR_SUCCESS
  · rw [if_pos hs]
    exact errorRecorded_setError _ _
  · rw [if_neg hs] at hf
    exact absurd hf (by simp)

/-- A failing `CorePauseEmulation` with the engine hooked and no network
session records one of the two pause errors. -/
theorem pause_failure (env : ControlEnv) (w : World) (hh : env.IsHooked = true)
    (hn : env.CoreHasInitNetplay = false) (hk : env.CoreHasInitKaillera = false)
    (hf : (CorePauseEmulation env w).ret = false) :
    ((CoreIsEmulationRunning env 0 w).ret = false ∧
      errorRecorded (CorePauseEmulation env w).world
        "CorePauseEmulation Failed: cannot pause emulation when emulation isn't running!") ∨
    ((CoreIsEmulationRunning env 0 w).ret = true ∧
      env.DoCommand .M64CMD_PAUSE ≠ .M64ERR_SUCCESS ∧
      errorRecorded (CorePauseEmulation env w).world
        ("CorePauseEmulation m64p::Core.DoCommand(M64CMD_PAUSE) Failed: " ++
          env.ErrorMessage (env.DoCommand .M64CMD_PAUSE))) := by
  unfold CorePauseEmulation at hf ⊢
  rw [if_neg (by simp [hh]), if_neg (by simp [hn, hk])] at hf ⊢
  cases hr : (CoreIsEmulationRunning env 0 w).ret
  · left
    rw [if_pos (by simp [hr]), pause_message_not_running]
    exact ⟨rfl, errorRecorded_setError _ _⟩
  · right
    rw [if_neg (by simp [hr])] at hf ⊢
    dsimp only at hf ⊢
    by_cases hs : env.DoCommand .M64CMD_PAUSE ≠ .M64ERR_SUCCESS
    · rw [if_pos hs]
      exact ⟨rfl, hs, errorRecorded_setError _ _⟩
    · rw [if_neg hs] at hf
      exact absurd hf (by simp)

/-- A failing `CoreResumeEmulation` with the engine hooked and no network
session records one of the two resume errors. -/
theorem resume_failure (env : ControlEnv) (w : World) (hh : env.IsHooked = true)
    (hn : env.CoreHasInitNetplay = false) (hk : env.CoreHasInitKaillera = false)
    (hf : (CoreResumeEmulation env w).ret = false) :
    ((CoreIsEmulationPaused env 0 w).ret = false ∧
      errorRecorded (CoreResumeEmulation env w).world
        "CoreIsEmulationPaused Failed: cannot resume emulation when emulation isn't paused!") ∨
    ((CoreIsEmulationPaused env 0 w).ret = true ∧
      env.DoCommand .M64CMD_RESUME ≠ .M64ERR_SUCCESS ∧
      errorRecorded (CoreResumeEmulation env w).world
        ("CoreResumeEmulation m64p::Core.DoCommand(M64CMD_RESUME) Failed: " ++
          env.ErrorMessage (env.DoCommand .M64CMD_RESUME))) := by
  unfold CoreResumeEmulation at hf ⊢
  rw [if_neg (by simp [hh]), if_neg (by simp [hn, hk])] at hf ⊢
  cases hr : (CoreIsEmulationPaused env 0 w).ret
  · left
    rw [if_pos (by simp [hr]), resume_message_not_paused]
    exact ⟨rfl, errorRecorded_setError _ _⟩
  · right
    rw [if_neg (by simp [hr])] at hf ⊢
    dsimp only at hf ⊢
    by_cases hs : env.DoCommand .M64CMD_RESUME ≠ .M64ERR_SUCCESS
    · rw [if_pos hs]
      exact ⟨rfl, hs, errorRecorded_setError _ _⟩
    · rw [if_neg hs] at hf
      exact absurd hf (by simp)

/-- A failing `CoreResetEmulation` with the engine hooked records one of the
three reset errors. -/
theorem reset_failure (env : ControlEnv) (hard : Bool) (w : World) (hh : env.IsHooked = true)
    (hf : (CoreResetEmulation env hard w).ret = false) :
    errorRecorded (CoreResetEmulation env hard w).world
      "CoreResetEmulation Failed: cannot reset emulation when paused!" ∨
    errorRecorded (CoreResetEmulation env hard w).world
      "CoreResetEmulation Failed: cannot reset emulation when emulation isn't running!" ∨
    errorRecorded (CoreResetEmulation env hard w).world
      ("CoreResetEmulation m64p::Core.DoCommand(M64CMD_RESET) Failed: " ++
        env.ErrorMessage (env.DoCommand .M64CMD_RESET)) := by
  obtain ⟨c1, c2, c3⟩ := reset_cases env hard w hh
  cases hp : (CoreIsEmulationPaused env 0 w).ret
  · cases hr : (CoreIsEmulationRunning env 1 (CoreIsEmulationPaused env 0 w).world).ret
    · exact Or.inr (Or.inl (c2 hp hr).2.1)
    · exact Or.inr (Or.inr ((c3 hp hr).2.1 hf))
  · exact Or.inl (c1 hp).2.1

/-- C19 as stated fails.  With the engine hooked, a Kaillera session
initialised and the emulation stopped, `CorePauseEmulation` and
`CoreResumeEmulation` fail without recording any error. -/
theorem control_errors_counterexample :
    kailleraStoppedEnv.IsHooked = true ∧
    (CoreIsEmulationRunning kailleraStoppedEnv 0 initialWorld).ret = false ∧
    (CorePauseEmulation kailleraStoppedEnv initialWorld).ret = false ∧
    (¬ ∃ msg, errorRecorded (CorePauseEmulation kailleraStoppedEnv initialWorld).world msg) ∧
    (CoreIsEmulationPaused kailleraStoppedEnv 0 initialWorld).ret = false ∧
    (CoreResumeEmulation kailleraStoppedEnv initialWorld).ret = false ∧
    (¬ ∃ msg, errorRecorded (CoreResumeEmulation kailleraStoppedEnv initialWorld).world msg) := by
  have hp : CorePauseEmulation kailleraStoppedEnv initialWorld = ⟨initialWorld, false⟩ := by rfl
  have hr : CoreResumeEmulation kailleraStoppedEnv initialWorld = ⟨initialWorld, false⟩ := by rfl
  have hnone : ¬ ∃ msg, errorRecorded initialWorld msg := by
    rintro ⟨msg, _, h⟩
    have ht : initialWorld.trace = [] := by rfl
    rw [ht] at h
    simp at h
  refine ⟨by rfl, by rfl, by rfl, ?_, by rfl, by rfl, ?_⟩
  · rw [hp]
    exact hnone
  · rw [hr]
    exact hnone

/-- C19 (errors name the failing command), amended.  With the engine hooked:
a failing `CoreStopEmulation` records the `M64CMD_STOP` error; a failing
`CoreResetEmulation` records one of the three reset errors; and, when neither
a netplay nor a Kaillera session is initialised, a failing
`CorePauseEmulation` records the "cannot pause" error (emulation not running)
or the `M64CMD_PAUSE` error (engine rejected), and a failing
`CoreResumeEmulation` records the "cannot resume" error (emulation not
paused) or the `M64CMD_RESUME` error (engine rejected).  The recorded error
is the last event of the call and the value of the last-error slot.  With a
session initialised, pause and resume fail leaving the state, the last error
included, as it was. -/
theorem control_errors_name_command (env : ControlEnv) (hard : Bool) (w : World)
    (hh : env.IsHooked = true) :
    ((CoreStopEmulation env w).ret = false →
      errorRecorded (CoreStopEmulation env w).world
        ("CoreStopEmulation m64p::Core.DoCommand(M64CMD_STOP) Failed: " ++
          env.ErrorMessage (env.DoCommand .M64CMD_STOP))) ∧
    (env.CoreHasInitNetplay = false → env.CoreHasInitKaillera = false →
      (CorePauseEmulation env w).ret = false →
      ((CoreIsEmulationRunning env 0 w).ret = false ∧
        errorRecorded (CorePauseEmulation env w).world
          "CorePauseEmulation Failed: cannot pause emulation when emulation isn't running!") ∨
      ((CoreIsEmulationRunning env 0 w).ret = true ∧
        env.DoCommand .M64CMD_PAUSE ≠ .M64ERR_SUCCESS ∧
        errorRecorded (CorePauseEmulation env w).world
          ("CorePauseEmulation m64p::Core.DoCommand(M64CMD_PAUSE) Failed: " ++
            env.ErrorMessage (env.DoCommand .M64CMD_PAUSE)))) ∧
    (env.CoreHasInitNetplay = false → env.CoreHasInitKaillera = false →
      (CoreResumeEmulation env w).ret = false →
      ((CoreIsEmulationPaused env 0 w).ret = false ∧
        errorRecorded (CoreResumeEmulation env w).world
          "CoreIsEmulationPaused Failed: cannot resume emulation when emulation isn't paused!") ∨
      ((CoreIsEmulationPaused env 0 w).ret = true ∧
        env.DoCommand .M64CMD_RESUME ≠ .M64ERR_SUCCESS ∧
        errorRecorded (CoreResumeEmulation env w).world
          ("CoreResumeEmulation m64p::Core.DoCommand(M64CMD_RESUME) Failed: " ++
            env.ErrorMessage (env.DoCommand .M64CMD_RESUME)))) ∧
    ((CoreResetEmulation env hard w).ret = false →
      errorRecorded (CoreResetEmulation env hard w).world
        "CoreResetEmulation Failed: cannot reset emulation when paused!" ∨
      errorRecorded (CoreResetEmulation env hard w).world
        "CoreResetEmulation Failed: cannot reset emulation when emulation isn't running!" ∨
      errorRecorded (CoreResetEmulation env hard w).world
        ("CoreResetEmulation m64p::Core.DoCommand(M64CMD_RESET) Failed: " ++
          env.ErrorMessage (env.DoCommand .M64CMD_RESET))) ∧
    ((env.CoreHasInitNetplay = true ∨ env.CoreHasInitKaillera = true) →
      (CorePauseEmulation env w).ret = false ∧ (CorePauseEmulation env w).world = w ∧
      (CoreResumeEmulation env w).ret = false ∧ (CoreResumeEmulation env w).world = w) := by
  refine ⟨stop_failure env w hh, pause_failure env w hh, resume_failure env w hh,
    reset_failure env hard w hh, ?_⟩
  intro hnet
  have hx : (env.CoreHasInitNetplay || env.CoreHasInitKaillera) = true := by
    rcases hnet with h | h <;> simp [h]
  unfold CorePauseEmulation CoreResumeEmulation
  rw [if_neg (by simp [hh]), if_pos hx, if_neg (by simp [hh]), if_pos hx]
  exact ⟨rfl, rfl, rfl, rfl⟩

/-- C19 at a concrete state: with the engine rejecting its commands while the
emulation runs, stop and pause fail and record the error naming the
command. -/
theorem control_errors_name_command_witness :
    rejectingEnv.IsHooked = true ∧
    (CoreStopEmulation rejectingEnv initialWorld).ret = false ∧
    errorRecorded (CoreStopEmulation rejectingEnv initialWorld).world
      ("CoreStopEmulation m64p::Core.DoCommand(M64CMD_STOP) Failed: " ++
        rejectingEnv.ErrorMessage (rejectingEnv.DoCommand .M64CMD_STOP)) ∧
    (CoreStopEmulation rejectingEnv initialWorld).world.lastError
      = "CoreStopEmulation m64p::Core.DoCommand(M64CMD_STOP) Failed: engine failure" :=
  ⟨rfl, by rfl,
    (control_errors_name_command rejectingEnv true initialWorld rfl).1 (by rfl),
    by decide⟩

/-! ## Encoding and the rewritten channels -/

theorem and_ff_eq_mod (x : Nat) : x &&& 0xFF = x % 256 := by
  have := Nat.and_pow_two_sub_one_eq_mod x 8
  simpa using this

/-- Unpacking the packed word gives the four bytes back. -/
theorem unpack_pack (rx : Nat → Nat) (hb : ∀ j, j < 4 → rx j < 256) :
    bigEndianBytes (local_input rx) = [rx 0, rx 1, rx 2, rx 3] := by
  have h0 := hb 0 (by decide)
  have h1 := hb 1 (by decide)
  have h2 := hb 2 (by decide)
  have h3 := hb 3 (by decide)
  unfold bigEndianBytes
  rw [local_input_eq rx h0 h1 h2 h3]
  simp only [and_ff_eq_mod, Nat.shiftRight_eq_div_pow]
  have e0 : (rx 0 * 2 ^ 24 + rx 1 * 2 ^ 16 + rx 2 * 2 ^ 8 + rx 3) / 2 ^ 24 % 256 = rx 0 := by
    omega
  have e1 : (rx 0 * 2 ^ 24 + rx 1 * 2 ^ 16 + rx 2 * 2 ^ 8 + rx 3) / 2 ^ 16 % 256 = rx 1 := by
    omega
  have e2 : (rx 0 * 2 ^ 24 + rx 1 * 2 ^ 16 + rx 2 * 2 ^ 8 + rx 3) / 2 ^ 8 % 256 = rx 2 := by
    omega
  have e3 : (rx 0 * 2 ^ 24 + rx 1 * 2 ^ 16 + rx 2 * 2 ^ 8 + rx 3) % 256 = rx 3 := by
    omega
  rw [e0, e1, e2, e3]

/-- Packing the unpacked bytes of a 32-bit word gives the word back. -/
theorem pack_unpack (v : Nat) (hv : v < 2 ^ 32) :
    local_input (fun j => (bigEndianBytes v).getD j 0) = v := by
  have hx : ∀ x : Nat, x &&& 0xFF < 256 := by
    intro x
    rw [and_ff_eq_mod]
    omega
  rw [local_input_eq _ (by simpa [bigEndianBytes] using hx _) (by simpa [bigEndianBytes] using hx _)
    (by simpa [bigEndianBytes] using hx _) (by simpa [bigEndianBytes] using hx _)]
  simp only [bigEndianBytes, List.getD_cons_zero, List.getD_cons_succ, and_ff_eq_mod,
    Nat.shiftRight_eq_div_pow]
  omega

/-- Writing back the bytes of the word packed from a buffer leaves the buffer
as it is. -/
theorem rewriteBuf_read_fixed (b : Nat → Nat) (hb : ∀ j, j < 4 → b j < 256) :
    rewriteBuf (local_input b) JCMD_CONTROLLER_READ b = b := by
  have h := unpack_pack b hb
  unfold bigEndianBytes at h
  simp only [List.cons.injEq, and_true] at h
  obtain ⟨e0, e1, e2, e3⟩ := h
  unfold rewriteBuf
  rw [if_neg (by decide), if_pos rfl, e0, e1, e2, e3]
  funext j
  simp only [Function.update_apply]
  split_ifs with c3 c2 c1 c0
  · rw [c3]
  · rw [c2]
  · rw [c1]
  · rw [c0]
  · rfl

/-- A poll that produces a PIF memory produces either the memory it was
given or the rewritten one. -/
theorem poll_pif_some (env : KailleraEnv) (w : World) (p q : pif)
    (h : (KailleraPifSyncCallback env w p).pif = some q) :
    q = p ∨ ((KailleraPifSyncCallback env w p).world.s_CachedNumReceived ≤ 6 ∧
      q = rewritten (KailleraPifSyncCallback env w p).world p) := by
  rw [poll_pif] at h
  rw [poll_world]
  by_cases hret : (syncPhase env w p).returned = true
  · rw [if_pos hret] at h
    exact Or.inl (Option.some.inj h).symm
  · rw [if_neg hret] at h
    by_cases hn : (syncPhase env w p).world.s_CachedNumReceived ≤ 6
    · rw [rewritePass_ok _ _ hn] at h
      exact Or.inr ⟨hn, (Option.some.inj h).symm⟩
    · rw [rewritePass_overrun _ _ (by omega)] at h
      exact absurd h (by simp)

/-- A poll leaving a cached count of at most 6 produces a PIF memory. -/
theorem poll_pif_defined (env : KailleraEnv) (w : World) (p : pif)
    (hn : (KailleraPifSyncCallback env w p).world.s_CachedNumReceived ≤ 6) :
    ∃ q, (KailleraPifSyncCallback env w p).pif = some q := by
  rw [poll_world] at hn
  rw [poll_pif]
  by_cases hret : (syncPhase env w p).returned = true
  · rw [if_pos hret]
    exact ⟨p, rfl⟩
  · rw [if_neg hret, rewritePass_ok _ _ hn]
    exact ⟨_, rfl⟩

/-- In a valid session a poll leaving a cached count of at most 6 produces
the rewritten memory. -/
theorem poll_pif_valid (env : KailleraEnv) (w : World) (p : pif)
    (hv : sessionValid env = true)
    (hn : (KailleraPifSyncCallback env w p).world.s_CachedNumReceived ≤ 6) :
    (KailleraPifSyncCallback env w p).pif
      = some (rewritten (KailleraPifSyncCallback env w p).world p) := by
  rw [poll_world] at hn
  rw [poll_pif, poll_world]
  by_cases hret : (syncPhase env w p).returned = true
  · rw [if_pos hret]
    congr 1
    apply pif_ext
    intro j
    simp only [rewritten]
    rw [if_neg (by rw [syncPhase_returned_count env w p hv hret]; omega)]
  · rw [if_neg hret, rewritePass_ok _ _ hn]

/-- The loop body on a channel whose transmit and status pointers are
present. -/
theorem rewriteChannel_present (v : Nat) (c : pif_channel) (t st : Nat)
    (htx : c.tx = some t) (hrx : c.rx = some st) :
    rewriteChannel v c =
      { tx := c.tx, tx_buf := c.tx_buf, rx := some (st &&& 0x3F),
        rx_buf := (c.rx_buf).map (rewriteBuf v (c.tx_buf 0)) } := by
  unfold rewriteChannel
  rw [htx, hrx]
  dsimp only
  rw [rewriteBody_eq, htx]

/-- The loop body skips a channel whose transmit or status pointer is
absent. -/
theorem rewriteChannel_absent (v : Nat) (c : pif_channel)
    (h : c.tx = none ∨ c.rx = none) : rewriteChannel v c = c := by
  unfold rewriteChannel
  rcases h with h | h
  · rw [h]
  · rw [h]
    cases c.tx <;> rfl

/-- C21 (encoding round trip).  The packing `local_input` used to decode
channel 0 and the unpacking `bigEndianBytes` written by the controller-read
branch are mutually inverse: unpacking the packed word gives back the four
bytes, and packing the unpacked bytes gives back every 32-bit word.
Consequently, on a trigger poll whose exchange leaves the local value in slot
0, every PIF memory the poll produces has channel 0's receive buffer equal to
the one before the poll, and the poll does produce one when the count it
caches is at most 6. -/
theorem encoding_round_trip (rx : Nat → Nat) (v : Nat) (env : KailleraEnv) (w : World)
    (p : pif) (b : Nat → Nat) :
    ((∀ j, j < 4 → rx j < 256) → bigEndianBytes (local_input rx) = [rx 0, rx 1, rx 2, rx 3]) ∧
    (v < 2 ^ 32 → local_input (fun j => (bigEndianBytes v).getD j 0) = v) ∧
    (sessionValid env = true → isControllerRead p = true → w.s_SyncedThisFrame = false →
      (p.channels 0).rx_buf = some b → (∀ j, j < 4 → b j < 256) →
      (exchange env p).2 0 = local_input b →
      (∀ q, (KailleraPifSyncCallback env w p).pif = some q → (q.channels 0).rx_buf = some b) ∧
      ((KailleraPifSyncCallback env w p).world.s_CachedNumReceived ≤ 6 →
        ∃ q, (KailleraPifSyncCallback env w p).pif = some q ∧
          (q.channels 0).rx_buf = some b)) := by
  refine ⟨unpack_pack rx, pack_unpack v, ?_⟩
  intro hv hr hs hbuf hb hecho
  have hall : ∀ q, (KailleraPifSyncCallback env w p).pif = some q →
      (q.channels 0).rx_buf = some b := by
    intro q hq
    rcases poll_pif_some env w p q hq with rfl | ⟨_, rfl⟩
    · exact hbuf
    · simp only [rewritten]
      split_ifs with hlt
      · have hcache : (KailleraPifSyncCallback env w p).world.s_CachedSyncBuffer
            (Fin.castLE (by decide) (0 : Fin PIF_CHANNELS_COUNT)) = local_input b := by
          rw [poll_world, syncPhase_trigger env w p hv hr hs]
          by_cases hfail : (exchange env p).1 ≤ 0
          · exfalso
            rw [poll_world, syncPhase_trigger env w p hv hr hs, if_pos hfail] at hlt
            simp at hlt
          · rw [if_neg hfail]
            exact hecho
        rw [hcache]
        have hcmd : (p.channels 0).tx_buf 0 = JCMD_CONTROLLER_READ := by
          unfold isControllerRead at hr
          simp only [Bool.and_eq_true, beq_iff_eq] at hr
          exact hr.1.2
        cases hrx : (p.channels 0).rx with
        | none => rw [rewriteChannel_absent _ _ (Or.inr hrx), hbuf]
        | some st =>
          cases htx : (p.channels 0).tx with
          | none => rw [rewriteChannel_absent _ _ (Or.inl htx), hbuf]
          | some t =>
            rw [rewriteChannel_present _ _ t st htx hrx, hcmd, hbuf]
            simp only [Option.map_some']
            rw [rewriteBuf_read_fixed b hb]
      · exact hbuf
  refine ⟨hall, ?_⟩
  intro hn
  obtain ⟨q, hq⟩ := poll_pif_defined env w p hn
  exact ⟨q, hq, hall q hq⟩

/-- C21 at concrete values: the bytes `80 01 02 03`, the word `0xAABBCCDD`,
and the scenario's trigger poll, whose exchange echoes slot 0: channel 0
still holds `00 01 02 03`. -/
theorem encoding_round_trip_witness :
    bigEndianBytes (local_input (fun j => [0x80, 0x01, 0x02, 0x03].getD j 0))
      = [0x80, 0x01, 0x02, 0x03] ∧
    local_input (fun j => (bigEndianBytes 0xAABBCCDD).getD j 0) = 0xAABBCCDD ∧
    ∃ q, (KailleraPifSyncCallback scenarioEnv (FrameCallback 5 initialWorld) scenarioPif).pif
        = some q ∧
      (q.channels 0).rx_buf = some (fun j => [0x00, 0x01, 0x02, 0x03].getD j 0) :=
  ⟨(encoding_round_trip (fun j => [0x80, 0x01, 0x02, 0x03].getD j 0) 0xAABBCCDD scenarioEnv
      (FrameCallback 5 initialWorld) scenarioPif
      (fun j => [0x00, 0x01, 0x02, 0x03].getD j 0)).1 (by decide),
    (encoding_round_trip (fun j => [0x80, 0x01, 0x02, 0x03].getD j 0) 0xAABBCCDD scenarioEnv
      (FrameCallback 5 initialWorld) scenarioPif
      (fun j => [0x00, 0x01, 0x02, 0x03].getD j 0)).2.1 (by decide),
    ((encoding_round_trip (fun j => [0x80, 0x01, 0x02, 0x03].getD j 0) 0xAABBCCDD scenarioEnv
      (FrameCallback 5 initialWorld) scenarioPif
      (fun j => [0x00, 0x01, 0x02, 0x03].getD j 0)).2.2 rfl rfl rfl rfl (by decide)
        (by rfl)).2 (by decide)⟩

/-- In a valid session, after a poll leaving a cached count of at most 6, a
channel below the count whose transmit and status pointers are present is the
loop body applied to the channel it was. -/
theorem poll_channel (env : KailleraEnv) (w : World) (p : pif)
    (hv : sessionValid env = true)
    (hn : (KailleraPifSyncCallback env w p).world.s_CachedNumReceived ≤ 6)
    (i : Fin PIF_CHANNELS_COUNT)
    (hi : (i.val : Int) < (KailleraPifSyncCallback env w p).world.s_CachedNumReceived)
    (t st : Nat) (htx : (p.channels i).tx = some t) (hrx : (p.channels i).rx = some st) :
    ∃ q, (KailleraPifSyncCallback env w p).pif = some q ∧
      q.channels i =
        { tx := (p.channels i).tx, tx_buf := (p.channels i).tx_buf, rx := some (st &&& 0x3F),
          rx_buf := ((p.channels i).rx_buf).map
            (rewriteBuf ((KailleraPifSyncCallback env w p).world.s_CachedSyncBuffer
              (Fin.castLE (by decide) i)) ((p.channels i).tx_buf 0)) } := by
  refine ⟨_, poll_pif_valid env w p hv hn, ?_⟩
  simp only [rewritten]
  rw [if_pos hi, rewriteChannel_present _ _ t st htx hrx]

/-- C22 as stated fails: as player 9 the callback returns at once, so with a
cache of two values channel 0, polled with `JCMD_STATUS` over the bytes
`FF FF FF 77`, keeps them instead of holding `00 05 00`. -/
theorem synthetic_descriptor_counterexample :
    (KailleraPifSyncCallback player9Env syncedWorld descriptorPif).world.s_CachedNumReceived
      = 2 ∧
    rxWord (KailleraPifSyncCallback player9Env syncedWorld descriptorPif) 0
      = some [0xFF, 0xFF, 0xFF, 0x77] ∧
    ¬ DescriptorWritten (KailleraPifSyncCallback player9Env syncedWorld descriptorPif)
      descriptorPif := by
  refine ⟨rfl, rfl, ?_⟩
  intro h
  obtain ⟨q, b1, hq, hb1, h0, _⟩ :=
    h 0 (fun j => [0xFF, 0xFF, 0xFF, 0x77].getD j 0) (by decide) rfl rfl (Or.inl rfl) rfl
  have hp : (KailleraPifSyncCallback player9Env syncedWorld descriptorPif).pif
      = some descriptorPif := rfl
  rw [hp] at hq
  cases hq
  have hb : (descriptorPif.channels 0).rx_buf
      = some (fun j => [0xFF, 0xFF, 0xFF, 0x77].getD j 0) := rfl
  rw [hb] at hb1
  cases hb1
  exact absurd h0 (by decide)

/-- C22 (synthetic controller descriptor), amended.  In a valid session
(Kaillera initialised, player number in 1..8), after a poll that leaves a
cached count of at most 6, every channel `i` below the cached count whose
command is `JCMD_STATUS` or `JCMD_RESET` and whose transmit, status and
receive pointers are present holds `00 05 00` in its first three receive
bytes, every later receive byte being unchanged. -/
theorem synthetic_descriptor (env : KailleraEnv) (w : World) (p : pif)
    (hv : sessionValid env = true)
    (hn : (KailleraPifSyncCallback env w p).world.s_CachedNumReceived ≤ 6) :
    DescriptorWritten (KailleraPifSyncCallback env w p) p := by
  intro i b hi htx hrx hcmd hbuf
  obtain ⟨t, ht⟩ := Option.isSome_iff_exists.1 htx
  obtain ⟨st, hst⟩ := Option.isSome_iff_exists.1 hrx
  obtain ⟨q, hq, hch⟩ := poll_channel env w p hv hn i hi t st ht hst
  refine ⟨q, _, hq, by rw [hch, hbuf]; rfl, ?_, ?_, ?_, ?_⟩
  · unfold rewriteBuf
    rw [if_pos hcmd]
    simp [Function.update_apply]
  · unfold rewriteBuf
    rw [if_pos hcmd]
    simp [Function.update_apply]
  · unfold rewriteBuf
    rw [if_pos hcmd]
    simp [Function.update_apply]
  · intro j hj
    unfold rewriteBuf
    rw [if_pos hcmd]
    simp only [Function.update_apply]
    rw [if_neg (by omega), if_neg (by omega), if_neg (by omega)]

/-- C22 on the scenario: cache `[0x00010203, 0xAABBCCDD]`, channel 0 polled
with `JCMD_STATUS` holds `00 05 00` followed by its former fourth byte, while
channel 1, polled with a controller read, holds `AA BB CC DD`. -/
theorem synthetic_descriptor_witness :
    sessionValid scenarioEnv = true ∧
    (KailleraPifSyncCallback scenarioEnv syncedWorld descriptorPif).world.s_CachedNumReceived
      ≤ 6 ∧
    (∃ q b1, (KailleraPifSyncCallback scenarioEnv syncedWorld descriptorPif).pif = some q ∧
      (q.channels 0).rx_buf = some b1 ∧ b1 0 = 0x00 ∧ b1 1 = 0x05 ∧ b1 2 = 0x00 ∧
      ∀ j, 3 ≤ j → b1 j = [0xFF, 0xFF, 0xFF, 0x77].getD j 0) ∧
    rxWord (KailleraPifSyncCallback scenarioEnv syncedWorld descriptorPif) 0
      = some [0x00, 0x05, 0x00, 0x77] ∧
    rxWord (KailleraPifSyncCallback scenarioEnv syncedWorld descriptorPif) 1
      = some [0xAA, 0xBB, 0xCC, 0xDD] :=
  ⟨rfl, by decide,
    synthetic_descriptor scenarioEnv syncedWorld descriptorPif rfl (by decide) 0
      (fun j => [0xFF, 0xFF, 0xFF, 0x77].getD j 0) (by decide) rfl rfl (Or.inl rfl) rfl,
    by rfl, by rfl⟩

/-- C23 as stated fails: with Kaillera not initialised the callback returns
at once, so with a cache of two values channel 0, polled with `JCMD_PAK_READ`,
keeps 0 in receive byte 32 and channel 1, polled with `JCMD_PAK_WRITE`, keeps
`0x11` in receive byte 0. -/
theorem accessory_sentinel_counterexample :
    (KailleraPifSyncCallback inactiveEnv syncedWorld pakPif).world.s_CachedNumReceived = 2 ∧
    ((KailleraPifSyncCallback inactiveEnv syncedWorld pakPif).pif).bind
        (fun q => ((q.channels 0).rx_buf).map (fun b => b 32)) = some 0 ∧
    ((KailleraPifSyncCallback inactiveEnv syncedWorld pakPif).pif).bind
        (fun q => ((q.channels 1).rx_buf).map (fun b => b 0)) = some 0x11 ∧
    ¬ SentinelWritten (KailleraPifSyncCallback inactiveEnv syncedWorld pakPif) pakPif := by
  refine ⟨rfl, rfl, rfl, ?_⟩
  intro h
  obtain ⟨q, b1, hq, hb1, h32, _⟩ :=
    (h 0 (fun j => [0x11, 0x22, 0x33].getD j 0) (by decide) rfl rfl rfl).1 rfl
  have hp : (KailleraPifSyncCallback inactiveEnv syncedWorld pakPif).pif = some pakPif := rfl
  rw [hp] at hq
  cases hq
  have hb : (pakPif.channels 0).rx_buf = some (fun j => [0x11, 0x22, 0x33].getD j 0) := rfl
  rw [hb] at hb1
  cases hb1
  exact absurd h32 (by decide)

/-- C23 (accessory-absent sentinel), amended.  In a valid session (Kaillera
initialised, player number in 1..8), after a poll that leaves a cached count
of at most 6, every channel `i` below the cached count whose transmit, status
and receive pointers are present holds 255 in receive byte 32 when its
command is `JCMD_PAK_READ`, and 255 in receive byte 0 when its command is
`JCMD_PAK_WRITE`; every other receive byte is unchanged. -/
theorem accessory_sentinel (env : KailleraEnv) (w : World) (p : pif)
    (hv : sessionValid env = true)
    (hn : (KailleraPifSyncCallback env w p).world.s_CachedNumReceived ≤ 6) :
    SentinelWritten (KailleraPifSyncCallback env w p) p := by
  intro i b hi htx hrx hbuf
  obtain ⟨t, ht⟩ := Option.isSome_iff_exists.1 htx
  obtain ⟨st, hst⟩ := Option.isSome_iff_exists.1 hrx
  obtain ⟨q, hq, hch⟩ := poll_channel env w p hv hn i hi t st ht hst
  constructor
  · intro hcmd
    refine ⟨q, _, hq, by rw [hch, hbuf]; rfl, ?_, ?_⟩
    · rw [hcmd]
      unfold rewriteBuf
      rw [if_neg (by decide), if_neg (by decide), if_pos rfl]
      simp [Function.update_apply]
    · intro j hj
      rw [hcmd]
      unfold rewriteBuf
      rw [if_neg (by decide), if_neg (by decide), if_pos rfl]
      simp only [Function.update_apply]
      rw [if_neg hj]
  · intro hcmd
    refine ⟨q, _, hq, by rw [hch, hbuf]; rfl, ?_, ?_⟩
    · rw [hcmd]
      unfold rewriteBuf
      rw [if_neg (by decide), if_neg (by decide), if_neg (by decide), if_pos rfl]
      simp [Function.update_apply]
    · intro j hj
      rw [hcmd]
      unfold rewriteBuf
      rw [if_neg (by decide), if_neg (by decide), if_neg (by decide), if_pos rfl]
      simp only [Function.update_apply]
      rw [if_neg hj]

/-- C23 on a concrete poll over the scenario's cache: channel 0, polled with
`JCMD_PAK_READ`, ends with 255 in byte 32 and channel 1, polled with
`JCMD_PAK_WRITE`, with 255 in byte 0. -/
theorem accessory_sentinel_witness :
    sessionValid scenarioEnv = true ∧
    (KailleraPifSyncCallback scenarioEnv syncedWorld pakPif).world.s_CachedNumReceived ≤ 6 ∧
    (∃ q b1, (KailleraPifSyncCallback scenarioEnv syncedWorld pakPif).pif = some q ∧
      (q.channels 0).rx_buf = some b1 ∧ b1 32 = 255 ∧
      ∀ j, j ≠ 32 → b1 j = [0x11, 0x22, 0x33].getD j 0) ∧
    (∃ q b1, (KailleraPifSyncCallback scenarioEnv syncedWorld pakPif).pif = some q ∧
      (q.channels 1).rx_buf = some b1 ∧ b1 0 = 255 ∧
      ∀ j, j ≠ 0 → b1 j = [0x11, 0x22, 0x33].getD j 0) :=
  ⟨rfl, by decide,
    (accessory_sentinel scenarioEnv syncedWorld pakPif rfl (by decide) 0
      (fun j => [0x11, 0x22, 0x33].getD j 0) (by decide) rfl rfl rfl).1 rfl,
    (accessory_sentinel scenarioEnv syncedWorld pakPif rfl (by decide) 1
      (fun j => [0x11, 0x22, 0x33].getD j 0) (by decide) rfl rfl rfl).2 rfl⟩

/-- C26 as stated fails: with Kaillera not initialised the callback returns
at once, so with a cache of two values channel 0, whose status byte is
`0x84`, keeps bit `0x80` set. -/
theorem status_bits_counterexample :
    (KailleraPifSyncCallback inactiveEnv syncedWorld scenarioPif).world.s_CachedNumReceived
      = 2 ∧
    ((KailleraPifSyncCallback inactiveEnv syncedWorld scenarioPif).pif).bind
        (fun q => (q.channels 0).rx) = some 0x84 ∧
    ¬ StatusBitsCleared (KailleraPifSyncCallback inactiveEnv syncedWorld scenarioPif)
      scenarioPif := by
  refine ⟨rfl, rfl, ?_⟩
  intro h
  obtain ⟨q, st1, hq, hst1, h80, _⟩ := h 0 0x84 (by decide) rfl rfl
  have hp : (KailleraPifSyncCallback inactiveEnv syncedWorld scenarioPif).pif
      = some scenarioPif := rfl
  rw [hp] at hq
  cases hq
  have hb : (scenarioPif.channels 0).rx = some 0x84 := rfl
  rw [hb] at hst1
  cases hst1
  exact absurd h80 (by decide)

/-- C26 (status bits cleared), amended.  In a valid session (Kaillera
initialised, player number in 1..8), after a poll that leaves a cached count
of at most 6, every channel `i` below the cached count whose transmit and
status pointers are present has the status byte `st &&& 0x3F`, where `st` is
the byte before the poll: bits `0x80` and `0x40` are clear and the low six
bits are unchanged, whatever the command byte and whether or not a receive
buffer is present. -/
theorem status_bits_cleared (env : KailleraEnv) (w : World) (p : pif)
    (hv : sessionValid env = true)
    (hn : (KailleraPifSyncCallback env w p).world.s_CachedNumReceived ≤ 6) :
    StatusBitsCleared (KailleraPifSyncCallback env w p) p := by
  intro i st hi htx hrx
  obtain ⟨t, ht⟩ := Option.isSome_iff_exists.1 htx
  obtain ⟨q, hq, hch⟩ := poll_channel env w p hv hn i hi t st ht hrx
  refine ⟨q, st &&& 0x3F, hq, by rw [hch], ?_, ?_, ?_⟩
  · rw [Nat.and_assoc]
    have : (0x3F : Nat) &&& 0x80 = 0 := by decide
    rw [this, Nat.and_zero]
  · rw [Nat.and_assoc]
    have : (0x3F : Nat) &&& 0x40 = 0 := by decide
    rw [this, Nat.and_zero]
  · rw [Nat.and_assoc, Nat.and_self]

/-- C26 on the scenario: after the trigger poll of tick 5 the status bytes of
channels 0 and 1, `0x84` before, are `0x04`. -/
theorem status_bits_cleared_witness :
    sessionValid scenarioEnv = true ∧
    (KailleraPifSyncCallback scenarioEnv (FrameCallback 5 initialWorld)
      scenarioPif).world.s_CachedNumReceived ≤ 6 ∧
    (∃ q st1, (KailleraPifSyncCallback scenarioEnv (FrameCallback 5 initialWorld)
        scenarioPif).pif = some q ∧ (q.channels 1).rx = some st1 ∧
      st1 &&& 0x80 = 0 ∧ st1 &&& 0x40 = 0 ∧ st1 &&& 0x3F = 0x84 &&& 0x3F) ∧
    ((KailleraPifSyncCallback scenarioEnv (FrameCallback 5 initialWorld) scenarioPif).pif).bind
        (fun q => (q.channels 0).rx) = some 0x04 :=
  ⟨rfl, by decide,
    status_bits_cleared scenarioEnv (FrameCallback 5 initialWorld) scenarioPif rfl (by decide)
      1 0x84 (by decide) rfl rfl,
    by rfl⟩

/-- C24 (rewrite frame).  Whatever the session, the cache and the PIF
contents, in every PIF memory a poll produces each channel whose index is at
or above the cached count, and each channel (of any index) whose transmit or
status pointer is absent, is the channel it was before the poll: pointers,
status byte and receive buffer.  The poll does produce a memory when the
cached count is at most 6; in particular with a cached count of 2 channels
2..5 are untouched. -/
theorem rewrite_frame (env : KailleraEnv) (w : World) (p : pif) :
    (∀ q, (KailleraPifSyncCallback env w p).pif = some q → ∀ i : Fin PIF_CHANNELS_COUNT,
      ((KailleraPifSyncCallback env w p).world.s_CachedNumReceived ≤ (i.val : Int) ∨
        (p.channels i).tx = none ∨ (p.channels i).rx = none) →
      q.channels i = p.channels i) ∧
    ((KailleraPifSyncCallback env w p).world.s_CachedNumReceived ≤ 6 →
      ∃ q, (KailleraPifSyncCallback env w p).pif = some q) ∧
    ((KailleraPifSyncCallback env w p).world.s_CachedNumReceived = 2 →
      ∃ q, (KailleraPifSyncCallback env w p).pif = some q ∧
        ∀ i : Fin PIF_CHANNELS_COUNT, 2 ≤ i.val → q.channels i = p.channels i) := by
  have hframe : ∀ q, (KailleraPifSyncCallback env w p).pif = some q →
      ∀ i : Fin PIF_CHANNELS_COUNT,
      ((KailleraPifSyncCallback env w p).world.s_CachedNumReceived ≤ (i.val : Int) ∨
        (p.channels i).tx = none ∨ (p.channels i).rx = none) →
      q.channels i = p.channels i := by
    intro q hq i hi
    rcases poll_pif_some env w p q hq with rfl | ⟨_, rfl⟩
    · rfl
    · simp only [rewritten]
      rcases hi with hi | hi
      · rw [if_neg (by omega)]
      · split_ifs
        · exact rewriteChannel_absent _ _ hi
        · rfl
  refine ⟨hframe, poll_pif_defined env w p, ?_⟩
  intro h2
  obtain ⟨q, hq⟩ := poll_pif_defined env w p (by omega)
  refine ⟨q, hq, fun i hi => hframe q hq i (Or.inl ?_)⟩
  rw [h2]
  exact_mod_cast hi

/-- C24 on the scenario: after the trigger poll of tick 5, which caches two
values, channels 2..5 are untouched. -/
theorem rewrite_frame_witness :
    (KailleraPifSyncCallback scenarioEnv (FrameCallback 5 initialWorld)
      scenarioPif).world.s_CachedNumReceived = 2 ∧
    ∃ q, (KailleraPifSyncCallback scenarioEnv (FrameCallback 5 initialWorld)
        scenarioPif).pif = some q ∧
      ∀ i : Fin PIF_CHANNELS_COUNT, 2 ≤ i.val → q.channels i = scenarioPif.channels i :=
  ⟨by decide,
    (rewrite_frame scenarioEnv (FrameCallback 5 initialWorld) scenarioPif).2.2 (by decide)⟩

/-! ## The cached count -/

/-- The cached count after the synchronisation part of a poll: unchanged,
zero, or the quotient by 4 of a positive exchange result. -/
theorem syncPhase_count (env : KailleraEnv) (w : World) (p : pif) :
    (syncPhase env w p).world.s_CachedNumReceived = w.s_CachedNumReceived ∨
    (syncPhase env w p).world.s_CachedNumReceived = 0 ∨
    (0 < (exchange env p).1 ∧
      (syncPhase env w p).world.s_CachedNumReceived = (exchange env p).1 / 4) := by
  unfold syncPhase
  split_ifs with h1 h2 h3 h4
  · exact Or.inl rfl
  · exact Or.inl rfl
  · exact Or.inr (Or.inl rfl)
  · exact Or.inr (Or.inr ⟨by omega, rfl⟩)
  · exact Or.inl rfl

/-- A property of the cached count that holds of zero and of the quotient by
4 of every positive exchange result of a run is kept by the run. -/
theorem runEngine_count (P : Int → Prop) (hz : P 0) :
    ∀ (calls : List EngineCall) (w : World), P w.s_CachedNumReceived →
      (∀ q, EngineCall.poll q ∈ calls → 0 < (exchange q.env q.pif).1 →
        P ((exchange q.env q.pif).1 / 4)) →
      P (runEngine w calls).s_CachedNumReceived := by
  intro calls
  induction calls with
  | nil =>
    intro w h _
    exact h
  | cons x xs ih =>
    intro w h hs
    cases x with
    | frame n =>
      simp only [runEngine]
      exact ih _ h (fun q hq => hs q (List.mem_cons_of_mem _ hq))
    | poll q =>
      simp only [runEngine]
      apply ih
      · rw [poll_world]
        rcases syncPhase_count q.env w q.pif with h1 | h1 | ⟨h1, h2⟩
        · rw [h1]
          exact h
        · rw [h1]
          exact hz
        · rw [h2]
          exact hs q (List.mem_cons_self _ _) h1
      · exact fun r hr => hs r (List.mem_cons_of_mem _ hr)

/-- The statics after the reset of `CoreStartEmulation`. -/
theorem startArm_statics (c : Collaborators) (w : World) :
    (startArm c w).s_CurrentFrame = 0 ∧ (startArm c w).s_SyncedThisFrame = false ∧
    (startArm c w).s_CachedNumReceived = 0 ∧
    (∀ i, (startArm c w).s_CachedSyncBuffer i = 0) ∧ (startArm c w).s_LastSyncFrame = -1 := by
  unfold startArm
  dsimp only
  split_ifs <;> exact ⟨rfl, rfl, rfl, fun _ => rfl, rfl⟩

/-- C25 as stated fails: after the reset of a session start, a frame
callback and one trigger poll whose exchange answers 36 bytes, the cached
count is 9. -/
theorem cached_count_counterexample :
    (exchange crowdedEnv scenarioPif).1 = 36 ∧
    (runEngine (startArm okCollaborators initialWorld)
      [EngineCall.frame 1, EngineCall.poll ⟨crowdedEnv, scenarioPif⟩]).s_CachedNumReceived = 9 ∧
    ¬ (runEngine (startArm okCollaborators initialWorld)
      [EngineCall.frame 1, EngineCall.poll ⟨crowdedEnv, scenarioPif⟩]).s_CachedNumReceived
        ≤ 8 := by
  refine ⟨by rfl, by rfl, ?_⟩
  have h : (runEngine (startArm okCollaborators initialWorld)
      [EngineCall.frame 1, EngineCall.poll ⟨crowdedEnv, scenarioPif⟩]).s_CachedNumReceived
        = 9 := by rfl
  rw [h]
  decide

/-- C25 (bounds of the cached count), amended.  In every state reached from
the reset of `CoreStartEmulation` by frame callbacks and polls, the cached
count is at least 0, and it is either 0 or the quotient by 4 of a positive
result returned by the exchange of one of the polls; it is not clamped.  It
is at most 8 when every exchange of the run returns at most 35 (in
particular at most 32 bytes, the size of eight values). -/
theorem cached_count_bounds (c : Collaborators) (w0 : World) (calls : List EngineCall) :
    0 ≤ (runEngine (startArm c w0) calls).s_CachedNumReceived ∧
    ((runEngine (startArm c w0) calls).s_CachedNumReceived = 0 ∨
      ∃ q, EngineCall.poll q ∈ calls ∧ 0 < (exchange q.env q.pif).1 ∧
        (runEngine (startArm c w0) calls).s_CachedNumReceived = (exchange q.env q.pif).1 / 4) ∧
    ((∀ q, EngineCall.poll q ∈ calls → (exchange q.env q.pif).1 ≤ 35) →
      (runEngine (startArm c w0) calls).s_CachedNumReceived ≤ 8) := by
  have h0 := (startArm_statics c w0).2.2.1
  refine ⟨?_, ?_, ?_⟩
  · apply runEngine_count (fun n => 0 ≤ n) (le_refl _) calls
    · rw [h0]
    · intro q _ hpos
      omega
  · apply runEngine_count (fun n => n = 0 ∨
      ∃ q, EngineCall.poll q ∈ calls ∧ 0 < (exchange q.env q.pif).1 ∧
        n = (exchange q.env q.pif).1 / 4) (Or.inl rfl) calls
    · exact Or.inl h0
    · intro q hq hpos
      exact Or.inr ⟨q, hq, hpos, rfl⟩
  · intro hb
    apply runEngine_count (fun n => n ≤ 8) (by decide) calls
    · rw [h0]
      decide
    · intro q hq _
      have := hb q hq
      omega

/-- C25 on the scenario: after the reset, the frame callback of tick 5 and
the trigger poll, whose exchange answers 8 bytes, the cached count is 2. -/
theorem cached_count_bounds_witness :
    (∀ q, EngineCall.poll q ∈ [EngineCall.frame 5, EngineCall.poll ⟨scenarioEnv, scenarioPif⟩] →
      (exchange q.env q.pif).1 ≤ 35) ∧
    0 ≤ (runEngine (startArm okCollaborators syncedWorld)
      [EngineCall.frame 5, EngineCall.poll ⟨scenarioEnv, scenarioPif⟩]).s_CachedNumReceived ∧
    (runEngine (startArm okCollaborators syncedWorld)
      [EngineCall.frame 5, EngineCall.poll ⟨scenarioEnv, scenarioPif⟩]).s_CachedNumReceived
        ≤ 8 :=
  have hb : ∀ q, EngineCall.poll q ∈
      [EngineCall.frame 5, EngineCall.poll ⟨scenarioEnv, scenarioPif⟩] →
      (exchange q.env q.pif).1 ≤ 35 := by
    intro q hq
    simp only [List.mem_cons, List.mem_singleton, List.not_mem_nil, or_false,
      EngineCall.poll.injEq] at hq
    rcases hq with hq | hq
    · exact absurd hq (by simp)
    · subst hq
      decide
  ⟨hb,
    (cached_count_bounds okCollaborators syncedWorld
      [EngineCall.frame 5, EngineCall.poll ⟨scenarioEnv, scenarioPif⟩]).1,
    (cached_count_bounds okCollaborators syncedWorld
      [EngineCall.frame 5, EngineCall.poll ⟨scenarioEnv, scenarioPif⟩]).2.2 hb⟩

/-! ## The state at the run call -/

/-- The acquisition part either fails or every acquisition succeeds. -/
theorem startAcquire_cases (c : Collaborators) (a : StartArgs) (w : World) :
    (∃ w2, startAcquire c a w = Acquired.failed w2) ∨ acquisitionsSucceed c a = true := by
  have hcases : ∀ x, startAcquire c a w = x → (∃ w2, x = Acquired.failed w2) ∨
      acquisitionsSucceed c a = true := by
    intro x hx
    unfold startAcquire at hx
    dsimp only at hx
    unfold acquisitionsSucceed cheatsApplied
    cases h1 : c.CoreOpenRom <;> simp only [h1, Bool.not_false, Bool.not_true, if_true,
      Bool.false_eq_true, if_false] at hx
    · exact Or.inl ⟨_, hx.symm⟩
    cases h2 : c.CoreApplyRomPluginSettings <;> simp only [h2, Bool.not_false, Bool.not_true,
      if_true, Bool.false_eq_true, if_false] at hx
    · exact Or.inl ⟨_, hx.symm⟩
    cases h3 : c.CoreArePluginsReady <;> simp only [h3, Bool.not_false, Bool.not_true,
      if_true, Bool.false_eq_true, if_false] at hx
    · exact Or.inl ⟨_, hx.symm⟩
    cases h4 : c.CoreAttachPlugins <;> simp only [h4, Bool.not_false, Bool.not_true,
      if_true, Bool.false_eq_true, if_false] at hx
    · exact Or.inl ⟨_, hx.symm⟩
    cases h5 : (if a.netplay = true then c.CoreApplyNetplayCheats else c.CoreApplyCheats) <;>
      simp only [h5, Bool.not_false, Bool.not_true, if_true, Bool.false_eq_true,
        if_false] at hx
    · exact Or.inl ⟨_, hx.symm⟩
    cases h6 : c.CoreGetRomType with
    | none =>
      simp only [h6] at hx
      exact Or.inl ⟨_, hx.symm⟩
    | some t => exact Or.inr (by simp)
  rcases hcases _ rfl with ⟨w2, hw2⟩ | hs
  · exact Or.inl ⟨w2, hw2⟩
  · exact Or.inr hs

/-- The run command is issued from a state when, and only when, every
acquisition succeeds and the network step is skipped or succeeds. -/
theorem worldAtExecute_isSome (c : Collaborators) (a : StartArgs) (w : World) :
    (worldAtExecute c a w).isSome = true ↔
      (acquisitionsSucceed c a = true ∧ (!a.netplay || networkStep c a) = true) := by
  by_cases hacq : acquisitionsSucceed c a = true
  · obtain ⟨type, _, hready⟩ := startAcquire_ready c a w hacq
    have hcond : (!a.netplay || (a.netplay && networkStep c a))
        = (!a.netplay || networkStep c a) := by
      cases a.netplay <;> rfl
    unfold worldAtExecute
    rw [hready]
    dsimp only
    rw [startNetwork_ret, hcond]
    by_cases hr : (!a.netplay || networkStep c a) = true
    · rw [if_pos hr]
      exact ⟨fun _ => ⟨hacq, hr⟩, fun _ => rfl⟩
    · rw [if_neg hr]
      exact ⟨fun h => absurd h (by simp), fun h => absurd h.2 hr⟩
  · rcases startAcquire_cases c a w with ⟨w2, hw2⟩ | hs
    · unfold worldAtExecute
      rw [hw2]
      exact ⟨fun h => absurd h (by simp), fun h => absurd h.1 hacq⟩
    · exact absurd hs hacq

/-- The state at the run call is the state left by the reset of the frame
counter and of the sync cache. -/
theorem worldAtExecute_arm (c : Collaborators) (a : StartArgs) (w w1 : World)
    (h : worldAtExecute c a w = some w1) : ∃ w0, w1 = startArm c w0 := by
  unfold worldAtExecute at h
  cases hacq : startAcquire c a w with
  | failed w2 =>
    rw [hacq] at h
    exact absurd h (by simp)
  | ready w2 type =>
    rw [hacq] at h
    dsimp only at h
    split_ifs at h
    exact ⟨_, (Option.some.inj h).symm⟩

/-- With an empty cache, a poll that is no trigger (no controller read on
channel 0, or no valid session) leaves the state and the PIF memory as they
are. -/
theorem poll_quiet (env : KailleraEnv) (w : World) (p : pif)
    (hc : w.s_CachedNumReceived = 0)
    (hq : isControllerRead p = false ∨ sessionValid env = false) :
    KailleraPifSyncCallback env w p = ⟨w, some p⟩ := by
  cases hv : sessionValid env
  · exact poll_of_invalid env w p hv
  · rcases hq with hq | hq
    · obtain ⟨h1, h2⟩ := (sessionValid_iff env).1 hv
      have hs : syncPhase env w p = ⟨w, false⟩ := by
        unfold syncPhase
        rw [if_neg (by simp [h1]), if_neg h2, if_neg (by simp [hq])]
      unfold KailleraPifSyncCallback
      rw [hs]
      dsimp only
      rw [if_neg (by simp)]
      unfold rewritePass
      rw [if_neg (by omega)]
    · rw [hv] at hq
      exact absurd hq (by simp)

/-- A run without trigger keeps the cache empty. -/
theorem runEngine_quiet : ∀ (calls : List EngineCall) (w : World),
    w.s_CachedNumReceived = 0 →
    (∀ x, EngineCall.poll x ∈ calls →
      isControllerRead x.pif = false ∨ sessionValid x.env = false) →
    (runEngine w calls).s_CachedNumReceived = 0 := by
  intro calls
  induction calls with
  | nil =>
    intro w h _
    exact h
  | cons x xs ih =>
    intro w h hs
    cases x with
    | frame n =>
      simp only [runEngine]
      exact ih _ h (fun q hq => hs q (List.mem_cons_of_mem _ hq))
    | poll q =>
      simp only [runEngine]
      rw [poll_quiet q.env w q.pif h (hs q (List.mem_cons_self _ _))]
      exact ih _ h (fun r hr => hs r (List.mem_cons_of_mem _ hr))

/-- C27 (session isolation at start).  `CoreStartEmulation` issues the run
command exactly when it reaches a state `worldAtExecute`, and in that state,
whatever the earlier session left behind, the frame counter is 0,
`s_SyncedThisFrame` is false, the cached count is 0 and the eight cached
values are 0.  Hence the polls the engine makes from there before the first
trigger (polls without a controller read on channel 0, or without a valid
session), with frame callbacks in between, return the PIF memory they were
given. -/
theorem session_isolation (c : Collaborators) (a : StartArgs) (w : World) :
    (executeCalls (newEvents w (CoreStartEmulation c a w)) = 1 ↔
      (worldAtExecute c a w).isSome = true) ∧
    (∀ w1, worldAtExecute c a w = some w1 →
      w1.s_CurrentFrame = 0 ∧ w1.s_SyncedThisFrame = false ∧ w1.s_CachedNumReceived = 0 ∧
      (∀ i, w1.s_CachedSyncBuffer i = 0) ∧
      ∀ (calls : List EngineCall) (q : Poll),
        (∀ x, EngineCall.poll x ∈ calls →
          isControllerRead x.pif = false ∨ sessionValid x.env = false) →
        (isControllerRead q.pif = false ∨ sessionValid q.env = false) →
        (KailleraPifSyncCallback q.env
          (runEngine (w1.emit (Event.DoCommand .M64CMD_EXECUTE 0)) calls) q.pif).pif
          = some q.pif) := by
  constructor
  · rw [worldAtExecute_isSome]
    by_cases hacq : acquisitionsSucceed c a = true
    · rw [start_success_executeCalls c a w hacq]
      by_cases hr : (!a.netplay || networkStep c a) = true
      · rw [if_pos hr]
        exact ⟨fun _ => ⟨hacq, hr⟩, fun _ => rfl⟩
      · rw [if_neg hr]
        exact ⟨fun h => absurd h (by decide), fun h => absurd h.2 hr⟩
    · rw [(start_failure_quiet c a w (by simpa using hacq)).1]
      exact ⟨fun h => absurd h (by decide), fun h => absurd h.1 hacq⟩
  · intro w1 h1
    obtain ⟨w0, rfl⟩ := worldAtExecute_arm c a w w1 h1
    obtain ⟨s1, s2, s3, s4, _⟩ := startArm_statics c w0
    refine ⟨s1, s2, s3, s4, ?_⟩
    intro calls q hcalls hq
    have s5 : ((startArm c w0).emit (Event.DoCommand .M64CMD_EXECUTE 0)).s_CachedNumReceived
        = 0 := s3
    rw [poll_quiet q.env _ q.pif (runEngine_quiet calls _ s5 hcalls) hq]

/-- C27 at a concrete start: a Kaillera start from the state an earlier
session left (two cached values, frame synchronised) issues the run command
from a state whose cache is empty, and a status poll made from there returns
its PIF memory untouched. -/
theorem session_isolation_witness :
    executeCalls (newEvents syncedWorld
      (CoreStartEmulation okCollaborators kailleraArgs syncedWorld)) = 1 ∧
    (worldAtExecute okCollaborators kailleraArgs syncedWorld).isSome = true ∧
    (∀ w1, worldAtExecute okCollaborators kailleraArgs syncedWorld = some w1 →
      w1.s_CachedNumReceived = 0 ∧ w1.s_SyncedThisFrame = false ∧
      (KailleraPifSyncCallback scenarioEnv
        (runEngine (w1.emit (Event.DoCommand .M64CMD_EXECUTE 0)) [EngineCall.frame 1])
        statusPif).pif = some statusPif) ∧
    syncedWorld.s_CachedNumReceived = 2 :=
  ⟨(session_isolation okCollaborators kailleraArgs syncedWorld).1.2 (by rfl), by rfl,
    fun w1 h1 =>
      ⟨((session_isolation okCollaborators kailleraArgs syncedWorld).2 w1 h1).2.2.1,
        ((session_isolation okCollaborators kailleraArgs syncedWorld).2 w1 h1).2.1,
        ((session_isolation okCollaborators kailleraArgs syncedWorld).2 w1 h1).2.2.2.2
          [EngineCall.frame 1] ⟨scenarioEnv, statusPif⟩ (fun x hx => absurd hx (by simp))
          (Or.inl rfl)⟩,
    rfl⟩

/-! ## Channel indexing -/

/-- C28 evaluated on a trigger poll whose exchange answers 28 bytes: the
cached count becomes 7, the rewrite loop of that same poll reaches index 6,
and the lookup `channels[6]` falls outside the six-element array, so the poll
produces no PIF memory.  In general the rewrite pass stays inside the array
exactly when the cached count is at most 6. -/
theorem channel_index_overrun :
    (exchange sevenEnv scenarioPif).1 = 28 ∧
    (KailleraPifSyncCallback sevenEnv (FrameCallback 5 initialWorld)
      scenarioPif).world.s_CachedNumReceived = 7 ∧
    scenarioPif.channel? 6 = none ∧
    (KailleraPifSyncCallback sevenEnv (FrameCallback 5 initialWorld) scenarioPif).pif = none ∧
    (∀ (w : World) (p : pif), rewritePass w p = none ↔ 7 ≤ w.s_CachedNumReceived) := by
  refine ⟨by rfl, by rfl, by rfl, by rfl, ?_⟩
  intro w p
  constructor
  · intro h
    by_contra hn
    rw [rewritePass_ok w p (by omega)] at h
    exact absurd h (by simp)
  · exact rewritePass_overrun w p

/-! ## Acquire/release balance -/

theorem callCount_releases (e : Event) (he : isRelease e = true) (t : List Event) :
    callCount e t = callCount e (releases t) := by
  unfold callCount releases
  rw [List.count_filter he]

/-- C29 (acquire/release balance).  Whatever the collaborators answer, among
the calls made by one `CoreStartEmulation`: `CoreCloseRom` is made once if
`CoreOpenRom` succeeded and never otherwise; `CoreDetachPlugins` is made once
if `CoreAttachPlugins` was called and succeeded and never otherwise;
`CoreClearCheats` is made once if the cheat application was called and
succeeded and never otherwise. -/
theorem acquire_release_balance (c : Collaborators) (a : StartArgs) (w : World) :
    callCount Event.CoreCloseRom (newEvents w (CoreStartEmulation c a w))
      = (if c.CoreOpenRom = true then 1 else 0) ∧
    callCount Event.CoreDetachPlugins (newEvents w (CoreStartEmulation c a w))
      = (if Event.CoreAttachPlugins ∈ newEvents w (CoreStartEmulation c a w) ∧
          c.CoreAttachPlugins = true then 1 else 0) ∧
    callCount Event.CoreClearCheats (newEvents w (CoreStartEmulation c a w))
      = (if cheatEvent a ∈ newEvents w (CoreStartEmulation c a w) ∧
          cheatsApplied c a = true then 1 else 0) := by
  obtain ⟨f1, f2, f3, f4, f5, f6⟩ := start_early_failure c a w
  have hcheat : cheatEvent a = Event.CoreApplyNetplayCheats ∨
      cheatEvent a = Event.CoreApplyCheats := by
    unfold cheatEvent
    split_ifs
    · exact Or.inl rfl
    · exact Or.inr rfl
  by_cases h1 : c.CoreOpenRom = true
  · by_cases h2 : c.CoreApplyRomPluginSettings = true
    · by_cases h3 : c.CoreArePluginsReady = true
      · by_cases h4 : c.CoreAttachPlugins = true
        · by_cases h5 : cheatsApplied c a = true
          · cases h6 : c.CoreGetRomType with
            | none =>
              rw [(f6 h1 h2 h3 h4 h5 h6).1]
              rcases hcheat with hc | hc <;> simp [callCount, hc, h1, h4, h5]
            | some type =>
              have hacq := (acquisitionsSucceed_iff c a).2
                ⟨h1, h2, h3, h4, h5, by rw [h6]; rfl⟩
              have hrel := start_success_releases c a w hacq
              obtain ⟨mid, tail, hev, _⟩ := start_success_events c a w hacq
              have hm1 : Event.CoreAttachPlugins ∈ newEvents w (CoreStartEmulation c a w) := by
                rw [hev]
                simp [acquisitionEvents]
              have hm2 : cheatEvent a ∈ newEvents w (CoreStartEmulation c a w) := by
                rw [hev]
                simp [acquisitionEvents]
              rw [if_pos h1, if_pos ⟨hm1, h4⟩, if_pos ⟨hm2, h5⟩,
                callCount_releases Event.CoreCloseRom rfl,
                callCount_releases Event.CoreDetachPlugins rfl,
                callCount_releases Event.CoreClearCheats rfl, hrel]
              exact ⟨rfl, rfl, rfl⟩
          · rw [(f5 h1 h2 h3 h4 (by simpa using h5)).1]
            rcases hcheat with hc | hc <;> simp [callCount, hc, h1, h4, h5]
        · rw [(f4 h1 h2 h3 (by simpa using h4)).1]
          rcases hcheat with hc | hc <;> simp [callCount, hc, h1, h4]
      · rw [(f3 h1 h2 (by simpa using h3)).1]
        rcases hcheat with hc | hc <;> simp [callCount, hc, h1]
    · rw [(f2 h1 (by simpa using h2)).1]
      rcases hcheat with hc | hc <;> simp [callCount, hc, h1]
  · rw [(f1 (by simpa using h1)).1]
    rcases hcheat with hc | hc <;> simp [callCount, hc, h1]

/-- C29 at concrete runs: a start whose cheats cannot be applied closes the
ROM once, detaches the plugins once and never clears the cheats; a start
that runs makes each of the three releases once. -/
theorem acquire_release_balance_witness :
    callCount Event.CoreCloseRom (newEvents initialWorld
      (CoreStartEmulation noCheatsCollaborators localArgs initialWorld)) = 1 ∧
    callCount Event.CoreDetachPlugins (newEvents initialWorld
      (CoreStartEmulation noCheatsCollaborators localArgs initialWorld)) = 1 ∧
    callCount Event.CoreClearCheats (newEvents initialWorld
      (CoreStartEmulation noCheatsCollaborators localArgs initialWorld)) = 0 ∧
    callCount Event.CoreClearCheats (newEvents initialWorld
      (CoreStartEmulation okCollaborators localArgs initialWorld)) = 1 :=
  ⟨by
      rw [(acquire_release_balance noCheatsCollaborators localArgs initialWorld).1]
      rfl,
    by
      rw [(acquire_release_balance noCheatsCollaborators localArgs initialWorld).2.1]
      decide,
    by
      rw [(acquire_release_balance noCheatsCollaborators localArgs initialWorld).2.2]
      decide,
    by
      rw [(acquire_release_balance okCollaborators localArgs initialWorld).2.2]
      decide⟩

/-! ## Port mapping of the GameCube adapter plugin -/

theorem finRange_four : List.finRange NUM_CONTROLLERS = [0, 1, 2, 3] := by rfl

theorem storeSlot_lt (m : Fin NUM_CONTROLLERS → Int) (k : Nat) (v : Int)
    (h : k < NUM_CONTROLLERS) : storeSlot m k v = some (Function.update m ⟨k, h⟩ v) := by
  unfold storeSlot
  rw [dif_pos h]

/-- The mapping loop computes the sequential mapping of the enabled and
connected ports, and leaves their number in `controlSlot`; no store falls
outside the array. -/
theorem mapPorts_eq (s : AdapterState) :
    mapPorts s = some (sequentialSlots (activePorts s.PortEnabled s.Status),
      (activePorts s.PortEnabled s.Status).length) := by
  unfold mapPorts activePorts
  rw [finRange_four]
  cases h0 : (s.PortEnabled 0 && decide (s.Status 0 > 0)) <;>
  cases h1 : (s.PortEnabled 1 && decide (s.Status 1 > 0)) <;>
  cases h2 : (s.PortEnabled 2 && decide (s.Status 2 > 0)) <;>
  cases h3 : (s.PortEnabled 3 && decide (s.Status 3 > 0)) <;>
  · simp only [List.foldl, mapStep, Option.some_bind, h0, h1, h2, h3, List.filter,
      storeSlot_lt _ 0 _ (by decide), storeSlot_lt _ 1 _ (by decide),
      storeSlot_lt _ 2 _ (by decide), storeSlot_lt _ 3 _ (by decide),
      Bool.false_eq_true, if_false, if_true, Option.map_some', List.length_cons,
      List.length_nil, Nat.zero_add, Nat.reduceAdd, Option.some.injEq,
      Prod.mk.injEq, and_true]
    funext slot
    fin_cases slot <;> simp [sequentialSlots, Function.update, Fin.ext_iff]

theorem activePorts_sorted (enabled : Fin NUM_CONTROLLERS → Bool)
    (status : Fin NUM_CONTROLLERS → Nat) :
    (activePorts enabled status).Pairwise (fun x y => x < y) := by
  unfold activePorts
  apply List.Pairwise.filter
  rw [finRange_four]
  decide

theorem sequentialSlots_lt (ports : List (Fin NUM_CONTROLLERS)) (slot : Fin NUM_CONTROLLERS)
    (h : slot.val < ports.length) :
    sequentialSlots ports slot = ((ports.get ⟨slot.val, h⟩).val : Int) := by
  unfold sequentialSlots
  rw [List.get?_eq_get h]

theorem sequentialSlots_ge (ports : List (Fin NUM_CONTROLLERS)) (slot : Fin NUM_CONTROLLERS)
    (h : ports.length ≤ slot.val) : sequentialSlots ports slot = -1 := by
  unfold sequentialSlots
  rw [List.get?_eq_none.2 h]

/-- C30 as stated fails when the adapter cannot be opened.  A first
`InitiateControllers` with a controller in the fourth port only maps port 3
to Control 0; a second one without adapter resets the statuses, so that no
port is enabled and connected, but returns before the mapping is rebuilt:
Control 0 still holds port 3 instead of -1. -/
theorem port_mapping_counterexample :
    ((InitiateControllers port4Env adapterInitial).bind (InitiateControllers noAdapterEnv)).map
        (fun s => (List.ofFn s.Status, List.ofFn s.l_ControlToPort))
      = some ([0, 0, 0, 0], [3, -1, -1, -1]) ∧
    ((InitiateControllers port4Env adapterInitial).bind (InitiateControllers noAdapterEnv)).map
        (fun s => (activePorts s.PortEnabled s.Status).length) = some 0 ∧
    ((InitiateControllers port4Env adapterInitial).bind (InitiateControllers noAdapterEnv)).map
        (fun s => decide (s.l_ControlToPort 0 = -1)) = some false := by
  refine ⟨by rfl, by rfl, by rfl⟩

/-- C30 (sequential port mapping), amended.  When the adapter opens and the
polling thread delivers a state, `InitiateControllers` returns and, with the
port flags in force when it is entered (the settings are re-loaded only
after the mapping) and the statuses polled, `k` being the number of ports
both enabled and connected: Control slots `0..k-1` hold those ports in
strictly increasing order, slots `k..3` hold -1, no port is held by two
slots, and `Present[i]` is 1 if slot `i` is mapped and 0 otherwise.  When
the adapter does not open, it returns after resetting the statuses, leaving
the mapping and the `Present` flags as they were. -/
theorem sequential_port_mapping (env : AdapterEnv) (s : AdapterState) :
    (∀ st, env.gca_init = true → env.polled = some st →
      ∃ s1, InitiateControllers env s = some s1 ∧
        (∀ port, port ∈ activePorts s.PortEnabled st ↔
          (s.PortEnabled port = true ∧ st port > 0)) ∧
        (activePorts s.PortEnabled st).Pairwise (fun x y => x < y) ∧
        (∀ (slot : Fin NUM_CONTROLLERS) (h : slot.val < (activePorts s.PortEnabled st).length),
          s1.l_ControlToPort slot
            = (((activePorts s.PortEnabled st).get ⟨slot.val, h⟩).val : Int)) ∧
        (∀ slot : Fin NUM_CONTROLLERS, (activePorts s.PortEnabled st).length ≤ slot.val →
          s1.l_ControlToPort slot = -1) ∧
        (∀ slot1 slot2 : Fin NUM_CONTROLLERS, 0 ≤ s1.l_ControlToPort slot1 →
          s1.l_ControlToPort slot1 = s1.l_ControlToPort slot2 → slot1 = slot2) ∧
        (∀ slot : Fin NUM_CONTROLLERS,
          s1.Present slot = (if 0 ≤ s1.l_ControlToPort slot then 1 else 0)) ∧
        (∀ slot : Fin NUM_CONTROLLERS,
          s1.Present slot = 1 ↔ slot.val < (activePorts s.PortEnabled st).length)) ∧
    (env.gca_init = false →
      InitiateControllers env s = some { s with Status := fun _ => 0 }) ∧
    (env.gca_init = true → env.polled = none → InitiateControllers env s = none) := by
  refine ⟨?_, ?_, ?_⟩
  · intro st hinit hpolled
    have hrun : InitiateControllers env s = some
        { PortEnabled := env.load_settings
          Status := st
          l_ControlToPort := sequentialSlots (activePorts s.PortEnabled st)
          Present := fun i =>
            if sequentialSlots (activePorts s.PortEnabled st) i ≥ 0 then 1 else 0 } := by
      unfold InitiateControllers
      rw [if_neg (by simp [hinit]), hpolled]
      dsimp only
      rw [mapPorts_eq]
      rfl
    have hsorted := activePorts_sorted s.PortEnabled st
    have hlt := sequentialSlots_lt (activePorts s.PortEnabled st)
    have hge := sequentialSlots_ge (activePorts s.PortEnabled st)
    have hsign : ∀ slot : Fin NUM_CONTROLLERS,
        0 ≤ sequentialSlots (activePorts s.PortEnabled st) slot ↔
          slot.val < (activePorts s.PortEnabled st).length := by
      intro slot
      constructor
      · intro h
        by_contra hn
        rw [hge slot (by omega)] at h
        exact absurd h (by decide)
      · intro h
        rw [hlt slot h]
        exact Int.natCast_nonneg _
    refine ⟨_, hrun, ?_, hsorted, hlt, hge, ?_, fun _ => rfl, ?_⟩
    · intro port
      unfold activePorts
      simp [List.mem_filter, List.mem_finRange]
    · intro slot1 slot2 hnn heq
      dsimp only at hnn heq
      have h1 := (hsign slot1).1 hnn
      have h2 := (hsign slot2).1 (by rw [← heq]; exact hnn)
      rw [hlt slot1 h1, hlt slot2 h2] at heq
      have hnodup : (activePorts s.PortEnabled st).Nodup :=
        hsorted.imp (fun hxy => ne_of_lt hxy)
      have hget : (activePorts s.PortEnabled st).get ⟨slot1.val, h1⟩
          = (activePorts s.PortEnabled st).get ⟨slot2.val, h2⟩ :=
        Fin.ext (by exact_mod_cast heq)
      have := (List.Nodup.get_inj_iff hnodup).1 hget
      exact Fin.ext (by simpa using this)
    · intro slot
      dsimp only
      rw [← hsign slot]
      split_ifs with h
      · exact ⟨fun _ => h, fun _ => rfl⟩
      · exact ⟨fun h1 => absurd h1 (by decide), fun h1 => absurd h1 h⟩
  · intro hinit
    unfold InitiateControllers
    rw [if_pos (by simp [hinit])]
    rfl
  · intro hinit hpolled
    unfold InitiateControllers
    rw [if_neg (by simp [hinit]), hpolled]

/-- C30 at concrete adapters: with a controller in the fourth port only,
port 3 is mapped to Control 0, the other slots hold -1 and only Control 0 is
present; with controllers in ports 2 and 4 and port 4 disabled, port 1 is
mapped to Control 0. -/
theorem sequential_port_mapping_witness :
    port4Env.gca_init = true ∧
    port4Env.polled = some (fun i => if i.val = 3 then 0x10 else 0) ∧
    (∃ s1, InitiateControllers port4Env adapterInitial = some s1 ∧
      ∀ slot : Fin NUM_CONTROLLERS, s1.Present slot = 1 ↔ slot.val <
        (activePorts adapterInitial.PortEnabled
          (fun i => if i.val = 3 then 0x10 else 0)).length) ∧
    (InitiateControllers port4Env adapterInitial).map
        (fun s => (List.ofFn s.l_ControlToPort, List.ofFn s.Present))
      = some ([3, -1, -1, -1], [1, 0, 0, 0]) ∧
    (InitiateControllers port2Env
        { adapterInitial with PortEnabled := fun i => decide (i.val ≠ 3) }).map
        (fun s => (List.ofFn s.l_ControlToPort, List.ofFn s.Present))
      = some ([1, -1, -1, -1], [1, 0, 0, 0]) :=
  ⟨rfl, rfl,
    match (sequential_port_mapping port4Env adapterInitial).1
      (fun i => if i.val = 3 then 0x10 else 0) rfl rfl with
    | ⟨s1, h1, _, _, _, _, _, _, h8⟩ => ⟨s1, h1, h8⟩,
    by rfl, by rfl⟩

end RMGK
